import Mathlib

/-!
# EPDataLog: request frames and response decoders of the BMS serial protocol

A shallow embedding of `src/EPDataLog.c`: the request table and the response
dispatch of `getBMSData`, the snapshot `BMSData`, the two discovered counts, the
`parseBmsResponse*` decoders, the discovery of the port (`connectToCOMPort`,
`setupCOMPort`), the parameter handling (`isInteger`, `readProgramParams`), the
sink `outputBMSDataToCsv` and the poll loop of `main`.

Conventions of the embedding

* `unsigned char` is `Fin 256`; a buffer `unsigned char *` is a map from index to byte.
* C `int` is `Int`.  The decoders' integer expressions stay far inside the 32-bit
  range, except the four-byte assembly of `remaining_capacity` and the increment
  of the row counter `lineNumber`, where the wrap to 32 bits is written out
  (`toInt32`, `incrementInt`).
* C `float` is binary32.  A `float` value is the rational number it stands for.
  An operation whose exact result need not be a binary32 number, here the
  product `int * 0.1f` and the conversion of a 32-bit `int`, rounds that result
  to 24 significant bits, to nearest, ties to even (`roundSignificand`).  All
  `float` values of the program are zero or between `2^-4` and `2^31` in
  magnitude, far from the exponent limits of the format.  An integer below
  `2^24` in magnitude converts without rounding, so the other `int`-to-`float`
  assignments of the decoders are plain casts.
* The arrays of `BMSData` are maps from index to value, so that a store past the
  declared capacity stays observable instead of being undefined.
* The serial port is a parameter: what each Windows call answers is given, and
  the calls made are collected as a list of events.
* A function that ends without a `return` statement returns `none`.
* The C library functions `strtol` and `atoi` are parameters of the parameter
  handling.
-/

namespace EPDataLog

/-! ## Constants -/

def READ_BAT_TOTAL_VOLTAGE_CURRENT_SOC : Int := 0x90
def READ_BAT_HIGHEST_LOWEST_VOLTAGE : Int := 0x91
def READ_BAT_MAX_MIN_TEMP : Int := 0x92
def READ_BAT_CHARGE_DISCHARGE_MOS_STATUS : Int := 0x93
def READ_BAT_STATUS_INFO_1 : Int := 0x94
def READ_BAT_SINGLE_CELL_VOLTAGE : Int := 0x95
def READ_BAT_SINGLE_CELL_TEMP : Int := 0x96
def READ_BAT_SINGLE_CELL_BALANCE_STATUS : Int := 0x97
def READ_BAT_SINGLE_CELL_FAILURE_STATUS : Int := 0x98

def G_MAX_NUMBER_OF_CELLS : Nat := 16
def G_MAX_NUMBER_OF_TEMP_SENSORS : Nat := 4

/-! ## Data model -/

/-- The C type `unsigned char`. -/
abbrev Byte := Fin 256

/-- A response buffer `unsigned char *pResponse`, read by index. -/
abbrev Buffer := Nat → Byte

/-- The byte with value `n mod 256` (used to write concrete buffers). -/
def byteOfNat (n : Nat) : Byte := ⟨n % 256, Nat.mod_lt n (by decide)⟩

/-- The buffer holding the bytes of `l` from index 0 on, and zero after them. -/
def bufferOfList (l : List Nat) : Buffer := fun i => byteOfNat (l.getD i 0)

/-- The struct `BMSData`.  `float` fields are rationals, arrays are index maps. -/
structure BMSData where
  lineNumber : Int
  dateTime : String
  batteryID : Int
  current : ℚ
  voltage : ℚ
  stateOfCharge : ℚ
  totalCapacity : ℚ
  remainingCapacity : ℚ
  cellVoltage : Nat → ℚ
  highestCellVoltage : ℚ
  lowestCellVoltage : ℚ
  temperatures : Nat → ℚ
  chargingDischargingStatus : Int
  chargingMOSStatus : Int
  dischargingMOSStatus : Int
  balancingStatus : Int
  cellBalancingStatus : Nat → Int
  alarms : Nat → String

/-- The mutable globals the decoders work on: the snapshot `bmsData` and the two
discovered counts. -/
structure State where
  bmsData : BMSData
  g_number_of_battery_cells : Int
  g_number_of_temp_sensors : Int

/-- The zero-initialised global `bmsData`. -/
def bmsDataZero : BMSData where
  lineNumber := 0
  dateTime := ""
  batteryID := 0
  current := 0
  voltage := 0
  stateOfCharge := 0
  totalCapacity := 0
  remainingCapacity := 0
  cellVoltage := fun _ => 0
  highestCellVoltage := 0
  lowestCellVoltage := 0
  temperatures := fun _ => 0
  chargingDischargingStatus := 0
  chargingMOSStatus := 0
  dischargingMOSStatus := 0
  balancingStatus := 0
  cellBalancingStatus := fun _ => 0
  alarms := fun _ => ""

/-- The globals at program start: `g_number_of_battery_cells = -1`,
`g_number_of_temp_sensors = -1`, and `bmsData` zeroed. -/
def initialState : State where
  bmsData := bmsDataZero
  g_number_of_battery_cells := -1
  g_number_of_temp_sensors := -1

/-! ## Request frames (`getBMSData`, first `switch`) -/

def REQUEST_TOTAL_VOLTAGE_CURRENT_SOC : List Nat :=
  [0xA5, 0x40, 0x90, 0x08, 0x00, 0x00, 0x00, 0x00, 0x00, 0x00, 0x00, 0x00, 0x7D]
def REQUEST_HIGHEST_LOWEST_VOLTAGE : List Nat :=
  [0xA5, 0x40, 0x91, 0x08, 0x00, 0x00, 0x00, 0x00, 0x00, 0x00, 0x00, 0x00, 0x7E]
def REQUEST_MAX_MIN_TEMP : List Nat :=
  [0xA5, 0x40, 0x92, 0x08, 0x00, 0x00, 0x00, 0x00, 0x00, 0x00, 0x00, 0x00, 0x7F]
def REQUEST_CHARGE_DISCHARGE_MOS_STATUS : List Nat :=
  [0xA5, 0x40, 0x93, 0x08, 0x00, 0x00, 0x00, 0x00, 0x00, 0x00, 0x00, 0x00, 0x80]
def REQUEST_STATUS_INFO_1 : List Nat :=
  [0xA5, 0x40, 0x94, 0x08, 0x00, 0x00, 0x00, 0x00, 0x00, 0x00, 0x00, 0x00, 0x81]
def REQUEST_SINGLE_CELL_VOLTAGE : List Nat :=
  [0xA5, 0x40, 0x95, 0x08, 0x00, 0x00, 0x00, 0x00, 0x00, 0x00, 0x00, 0x00, 0x82]
def REQUEST_SINGLE_CELL_TEMP : List Nat :=
  [0xA5, 0x40, 0x96, 0x08, 0x00, 0x00, 0x00, 0x00, 0x00, 0x00, 0x00, 0x00, 0x83]
def REQUEST_SINGLE_CELL_BALANCE_STATUS : List Nat :=
  [0xA5, 0x40, 0x97, 0x08, 0x00, 0x00, 0x00, 0x00, 0x00, 0x00, 0x00, 0x00, 0x84]
def REQUEST_SINGLE_CELL_FAILURE_STATUS : List Nat :=
  [0xA5, 0x40, 0x98, 0x08, 0x00, 0x00, 0x00, 0x00, 0x00, 0x00, 0x00, 0x00, 0x85]

/-- The first `switch` of `getBMSData`: the frame `pRequest` is pointed at, or
`none` on the `default: return 0` branch. -/
def selectRequest (requestType : Int) : Option (List Nat) :=
  if requestType = READ_BAT_TOTAL_VOLTAGE_CURRENT_SOC then
    some REQUEST_TOTAL_VOLTAGE_CURRENT_SOC
  else if requestType = READ_BAT_HIGHEST_LOWEST_VOLTAGE then
    some REQUEST_HIGHEST_LOWEST_VOLTAGE
  else if requestType = READ_BAT_MAX_MIN_TEMP then
    some REQUEST_MAX_MIN_TEMP
  else if requestType = READ_BAT_CHARGE_DISCHARGE_MOS_STATUS then
    some REQUEST_CHARGE_DISCHARGE_MOS_STATUS
  else if requestType = READ_BAT_STATUS_INFO_1 then
    some REQUEST_STATUS_INFO_1
  else if requestType = READ_BAT_SINGLE_CELL_VOLTAGE then
    some REQUEST_SINGLE_CELL_VOLTAGE
  else if requestType = READ_BAT_SINGLE_CELL_TEMP then
    some REQUEST_SINGLE_CELL_TEMP
  else if requestType = READ_BAT_SINGLE_CELL_BALANCE_STATUS then
    some REQUEST_SINGLE_CELL_BALANCE_STATUS
  else if requestType = READ_BAT_SINGLE_CELL_FAILURE_STATUS then
    some REQUEST_SINGLE_CELL_FAILURE_STATUS
  else none

/-! ## Binary32 arithmetic -/

/-- The number of times `p` has to be halved to come below `2 ^ 24`, that is the
number of low bits of `p` a 24-bit significand has no room for: zero for
`p < 2 ^ 24`, and otherwise the `e` with `2 ^ (23 + e) ≤ p < 2 ^ (24 + e)`.
`fuel` bounds the number of halvings. -/
def excessBitsFrom : Nat → Nat → Nat
  | 0, _ => 0
  | fuel + 1, p => if p < 2 ^ 24 then 0 else excessBitsFrom fuel (p / 2) + 1

/-- The number of low bits of `p` a 24-bit significand has no room for. -/
def excessBits (p : Nat) : Nat := excessBitsFrom p p

/-- The natural number `p` rounded to 24 significant bits, to nearest, ties to
even: the `excessBits p` low bits are cut off, and the rest is incremented when
the bits cut off are more than half a unit of the last place kept, or exactly
half a unit while the last bit kept is 1. -/
def roundSignificand (p : Nat) : Nat :=
  if 2 * (p % 2 ^ excessBits p) > 2 ^ excessBits p
      ∨ (2 * (p % 2 ^ excessBits p) = 2 ^ excessBits p ∧ p / 2 ^ excessBits p % 2 = 1) then
    (p / 2 ^ excessBits p + 1) * 2 ^ excessBits p
  else p / 2 ^ excessBits p * 2 ^ excessBits p

/-- The integer `n` rounded to 24 significant bits: the sign of `n` and the
rounded magnitude. -/
def roundInt (n : Int) : Int :=
  if n < 0 then -(roundSignificand n.natAbs : Int) else (roundSignificand n.natAbs : Int)

/-- The conversion of an `int` to `float`: the binary32 number nearest to `n`. -/
def intToFloat (n : Int) : ℚ := (roundInt n : ℚ)

/-- The expression `n * 0.1f` for an `int` `n` below `2 ^ 24` in magnitude.  The
operand `n` converts to `float` without rounding, the constant `0.1f` is the
binary32 number `13421773 / 2 ^ 27` (bit pattern `0x3DCCCCCD`), and the product
is the exact product `n * 13421773 / 2 ^ 27` rounded to 24 significant bits.  The
exact product has at most 48 significant bits, so a compiler that multiplies
in a wider format and rounds when the value is assigned to the `float` gets the
same number. -/
def timesTenth (n : Int) : ℚ := (roundInt (n * 13421773) : ℚ) / 2 ^ 27

/-! ## Scalar decoders -/

/-- Decoder of command 0x90. -/
def parseBmsResponseSoc (s : State) (pResponse : Buffer) : State :=
  let cumulative_total_voltage : ℚ :=
    timesTenth ((((pResponse 4).val <<< 8) + (pResponse 5).val : Nat) : Int)
  let current : ℚ :=
    timesTenth (((((pResponse 8).val <<< 8) + (pResponse 9).val : Nat) : Int) - 30000)
  let soc : ℚ :=
    timesTenth ((((pResponse 10).val <<< 8) + (pResponse 11).val : Nat) : Int)
  { s with bmsData :=
      { s.bmsData with voltage := cumulative_total_voltage, current := current,
                       stateOfCharge := soc } }

/-- The value of a 32-bit pattern read as a two's-complement `int`. -/
def toInt32 (u : Nat) : Int :=
  if u % 2 ^ 32 < 2 ^ 31 then ((u % 2 ^ 32 : Nat) : Int)
  else ((u % 2 ^ 32 : Nat) : Int) - 2 ^ 32

/-- Decoder of command 0x93.  `remaining_capacity` is an `int`: the shift of the
promoted byte `pResponse[8]` by 24 reaches the sign bit, and the assembled
pattern is read back as a signed 32-bit value.  The assignment to the `float`
field `remainingCapacity` converts it. -/
def parseBmsResponseChargeDischargeMosStatus (s : State) (pResponse : Buffer) : State :=
  let charge_discharge_status : Int := (pResponse 4).val
  let mos_tube_charging_status : Int := (pResponse 5).val
  let mos_tube_discharging_status : Int := (pResponse 6).val
  let remaining_capacity : Int :=
    toInt32 (((pResponse 8).val <<< 24) ||| ((pResponse 9).val <<< 16)
              ||| ((pResponse 10).val <<< 8) ||| (pResponse 11).val)
  { s with bmsData :=
      { s.bmsData with chargingDischargingStatus := charge_discharge_status,
                       chargingMOSStatus := mos_tube_charging_status,
                       dischargingMOSStatus := mos_tube_discharging_status,
                       remainingCapacity := intToFloat remaining_capacity } }

/-! ## Multi-subframe decoders

`parseBmsResponseSingleCellVoltage` and `parseBmsResponseSingleCellTemp` are the
same pair of nested loops with different constants.  The loops are embedded as
the sequence of stores `array[nRead] = value` they perform, oldest first; the
decoder then applies the stores to the array of the snapshot. -/

def MESSAGE_LENGTH : Nat := 13

/-- The inner loop `for (j = 0; j < CELLS_PER_FRAME; j++)`, with `fuel` the
number of iterations left.  `item readIndex` is the value the body stores, `step`
what it adds to `readIndex`. -/
def subframeCells (item : Nat → ℚ) (step : Nat) (count : Int) :
    Nat → Nat → Nat → List (Nat × ℚ)
  | 0, _, _ => []
  | fuel + 1, readIndex, nRead =>
    if (nRead : Int) = count then []
    else
      (nRead, item readIndex) ::
        subframeCells item step count fuel (readIndex + step) (nRead + 1)

/-- The outer loop `for (i = 0; i < MAX_FRAMES; i++)`, with `fuel` the number of
iterations left.  After the inner loop `nRead` has grown by the number of stores
made, since every store is followed by `nRead++`. -/
def subframes (pResponse : Buffer) (item : Nat → ℚ) (step cellsPerFrame : Nat) (count : Int) :
    Nat → Nat → Nat → List (Nat × ℚ)
  | 0, _, _ => []
  | fuel + 1, i, nRead =>
    if (nRead : Int) = count then []
    else if ((pResponse (4 + i * MESSAGE_LENGTH)).val : Int) ≠ (i : Int) + 1 then
      subframes pResponse item step cellsPerFrame count fuel (i + 1) nRead
    else
      let stores :=
        subframeCells item step count cellsPerFrame (i * MESSAGE_LENGTH + 4 + 1) nRead
      stores ++
        subframes pResponse item step cellsPerFrame count fuel (i + 1) (nRead + stores.length)

/-- Performs a sequence of stores on an array. -/
def applyStores (stores : List (Nat × ℚ)) (a : Nat → ℚ) : Nat → ℚ :=
  stores.foldl (fun b w => Function.update b w.1 w.2) a

/-- The value `(pResponse[readIndex] << 8) + pResponse[readIndex + 1]`. -/
def cellVoltageItem (pResponse : Buffer) (readIndex : Nat) : ℚ :=
  ((((pResponse readIndex).val <<< 8) + (pResponse (readIndex + 1)).val : Nat) : ℚ)

/-- The stores into `bmsData.cellVoltage` made by `parseBmsResponseSingleCellVoltage`:
`MAX_FRAMES = 16`, `CELLS_PER_FRAME = 3`, `readIndex += 2`. -/
def singleCellVoltageStores (count : Int) (pResponse : Buffer) : List (Nat × ℚ) :=
  subframes pResponse (cellVoltageItem pResponse) 2 3 count 16 0 0

/-- Decoder of command 0x95. -/
def parseBmsResponseSingleCellVoltage (s : State) (pResponse : Buffer) : State :=
  { s with bmsData :=
      { s.bmsData with
        cellVoltage :=
          applyStores (singleCellVoltageStores s.g_number_of_battery_cells pResponse)
            s.bmsData.cellVoltage } }

/-- The value `pResponse[readIndex] - TEMPERATURE_OFFSET`. -/
def cellTempItem (pResponse : Buffer) (readIndex : Nat) : ℚ :=
  ((((pResponse readIndex).val : Int) - 40 : Int) : ℚ)

/-- The stores into `bmsData.temperatures` made by `parseBmsResponseSingleCellTemp`:
`MAX_FRAMES = 3`, `CELLS_PER_FRAME = 7`, `readIndex++`. -/
def singleCellTempStores (count : Int) (pResponse : Buffer) : List (Nat × ℚ) :=
  subframes pResponse (cellTempItem pResponse) 1 7 count 3 0 0

/-- Decoder of command 0x96. -/
def parseBmsResponseSingleCellTemp (s : State) (pResponse : Buffer) : State :=
  { s with bmsData :=
      { s.bmsData with
        temperatures :=
          applyStores (singleCellTempStores s.g_number_of_temp_sensors pResponse)
            s.bmsData.temperatures } }

/-! ## Balancing status and alarms -/

/-- The loop `for (i = g_number_of_battery_cells - 1; i >= 0; i--)`: the first
argument is `i + 1`, the pair is `(isBalancing, bmsData.cellBalancingStatus)`. -/
def balancingLoop (pResponse : Buffer) : Nat → Nat × (Nat → Int) → Nat × (Nat → Int)
  | 0, st => st
  | i + 1, (isBalancing, cellBalancingStatus) =>
    balancingLoop pResponse i
      ((if isBalancing ≠ 0 ∨ (pResponse (4 + i)).val ≠ 0 then 1 else 0),
       Function.update cellBalancingStatus i ((pResponse (4 + i)).val : Int))

/-- Decoder of command 0x97. -/
def parseBmsResponseSingleCellBalancingStatus (s : State) (pResponse : Buffer) : State :=
  let r := balancingLoop pResponse s.g_number_of_battery_cells.toNat
    (0, s.bmsData.cellBalancingStatus)
  { s with bmsData :=
      { s.bmsData with cellBalancingStatus := r.2, balancingStatus := (r.1 : Int) } }

/-- The loop `for (j = 7; j >= 0; --j) currentString[j] = ((byte >> j) & 1) ? '1' : '0'`:
the first argument is `j + 1`. -/
def alarmBits (byte : Nat) : Nat → List Char → List Char
  | 0, currentString => currentString
  | j + 1, currentString =>
    alarmBits byte j (currentString.set j (if (byte >>> j) &&& 1 ≠ 0 then '1' else '0'))

/-- One row `alarms[i]` of the local array: the eight bit characters and the
terminator at index 8.  The row starts out as nine NUL characters; every one of
them is overwritten. -/
def alarmRow (byte : Nat) : List Char :=
  (alarmBits byte 8 (List.replicate 9 '\x00')).set 8 '\x00'

/-- The C function `strcpy` seen from the destination: the characters before the first NUL. -/
def strcpy (src : List Char) : String :=
  String.mk (src.takeWhile (fun c => c ≠ '\x00'))

/-- Decoder of command 0x98. -/
def parseBmsResponseBatteryFailureStatus (s : State) (pResponse : Buffer) : State :=
  { s with bmsData :=
      { s.bmsData with
        alarms := fun i =>
          if i < 8 then strcpy (alarmRow (pResponse (4 + i)).val) else s.bmsData.alarms i } }

/-! ## Remaining scalar decoders

The locals of these decoders are only printed; they are kept as records so that
the statements can speak of them. -/

/-- The locals of `parseBmsResponseHighestLowestVoltage`. -/
structure HighestLowestVoltage where
  highest_single_voltage : ℚ
  highest_voltage_cell_number : Int
  lowest_single_voltage : ℚ
  lowest_voltage_cell_number : Int

/-- The values `parseBmsResponseHighestLowestVoltage` computes from the response. -/
def highestLowestVoltage (pResponse : Buffer) : HighestLowestVoltage where
  highest_single_voltage := ((((pResponse 4).val <<< 8) + (pResponse 5).val : Nat) : ℚ)
  highest_voltage_cell_number := (pResponse 6).val
  lowest_single_voltage := ((((pResponse 7).val <<< 8) + (pResponse 8).val : Nat) : ℚ)
  lowest_voltage_cell_number := (pResponse 9).val

/-- Decoder of command 0x91. -/
def parseBmsResponseHighestLowestVoltage (s : State) (pResponse : Buffer) : State :=
  { s with bmsData :=
      { s.bmsData with
        highestCellVoltage := (highestLowestVoltage pResponse).highest_single_voltage,
        lowestCellVoltage := (highestLowestVoltage pResponse).lowest_single_voltage } }

/-- The locals of `parseBmsResponseMaxMinTemp`. -/
structure MaxMinTemp where
  max_temp : ℚ
  max_temp_cell_number : Int
  min_temp : ℚ
  min_temp_cell_number : Int

/-- The values `parseBmsResponseMaxMinTemp` computes from the response. -/
def maxMinTemp (pResponse : Buffer) : MaxMinTemp where
  max_temp := ((((pResponse 4).val : Int) - 40 : Int) : ℚ)
  max_temp_cell_number := (pResponse 5).val
  min_temp := ((((pResponse 6).val : Int) - 40 : Int) : ℚ)
  min_temp_cell_number := (pResponse 7).val

/-- Decoder of command 0x92: it prints the four values and stores nothing. -/
def parseBmsResponseMaxMinTemp (s : State) (_pResponse : Buffer) : State := s

/-- The locals of `parseBmsResponseStatusInfo1`. -/
structure StatusInfo1 where
  battery_strings : Int
  number_of_temperature : Int
  charger_status : Int
  load_status : Int
  states : Int
  DI1_state : Int
  DI2_state : Int
  DI3_state : Int
  DI4_state : Int
  DO1_state : Int
  DO2_state : Int
  DO3_state : Int
  DO4_state : Int

/-- The values `parseBmsResponseStatusInfo1` computes from the response. -/
def statusInfo1 (pResponse : Buffer) : StatusInfo1 where
  battery_strings := (pResponse 4).val
  number_of_temperature := (pResponse 5).val
  charger_status := (pResponse 6).val
  load_status := (pResponse 7).val
  states := (pResponse 8).val
  DI1_state := ((((pResponse 8).val >>> 0) &&& 1 : Nat) : Int)
  DI2_state := ((((pResponse 8).val >>> 1) &&& 1 : Nat) : Int)
  DI3_state := ((((pResponse 8).val >>> 2) &&& 1 : Nat) : Int)
  DI4_state := ((((pResponse 8).val >>> 3) &&& 1 : Nat) : Int)
  DO1_state := ((((pResponse 8).val >>> 4) &&& 1 : Nat) : Int)
  DO2_state := ((((pResponse 8).val >>> 5) &&& 1 : Nat) : Int)
  DO3_state := ((((pResponse 8).val >>> 6) &&& 1 : Nat) : Int)
  DO4_state := ((((pResponse 8).val >>> 7) &&& 1 : Nat) : Int)

/-- Decoder of command 0x94: of its locals only the two counts are stored. -/
def parseBmsResponseStatusInfo1 (s : State) (pResponse : Buffer) : State :=
  { s with
    g_number_of_battery_cells := (statusInfo1 pResponse).battery_strings,
    g_number_of_temp_sensors := (statusInfo1 pResponse).number_of_temperature }

/-! ## Serial port and `getBMSData` -/

/-- A Windows `HANDLE` as far as the program tells them apart: the invalid handle,
or the handle `CreateFile` returned for the port `COM<n>`. -/
inductive HANDLE where
  | INVALID_HANDLE_VALUE
  | comPort (n : Int)
  deriving DecidableEq, Repr

/-- The calls the program makes on the serial port, in the order it makes them. -/
inductive Event where
  | createFile (port : Int)
  | closeHandle (h : HANDLE)
  | writeFile (h : HANDLE) (bytes : List Nat)
  | readFile (h : HANDLE)
  deriving DecidableEq, Repr

/-- What the port does in one request/response round trip of `getBMSData`: the
status of `WriteFile`, the status of `ReadFile`, the number of bytes read, and
the content of the local buffer `pResponse` after the read (the bytes read,
followed by whatever the uninitialised array held). -/
structure RoundTrip where
  writeStatus : Bool
  readStatus : Bool
  bytesRead : Nat
  pResponse : Buffer

/-- The second `switch` of `getBMSData`, on `pResponse[2]`: the state after the
decoder that was called, and `some 0` on the `default: return 0` branch. -/
def decodeResponse (s : State) (pResponse : Buffer) : State × Option Int :=
  if ((pResponse 2).val : Int) = READ_BAT_TOTAL_VOLTAGE_CURRENT_SOC then
    (parseBmsResponseSoc s pResponse, none)
  else if ((pResponse 2).val : Int) = READ_BAT_HIGHEST_LOWEST_VOLTAGE then
    (parseBmsResponseHighestLowestVoltage s pResponse, none)
  else if ((pResponse 2).val : Int) = READ_BAT_MAX_MIN_TEMP then
    (parseBmsResponseMaxMinTemp s pResponse, none)
  else if ((pResponse 2).val : Int) = READ_BAT_CHARGE_DISCHARGE_MOS_STATUS then
    (parseBmsResponseChargeDischargeMosStatus s pResponse, none)
  else if ((pResponse 2).val : Int) = READ_BAT_STATUS_INFO_1 then
    (parseBmsResponseStatusInfo1 s pResponse, none)
  else if ((pResponse 2).val : Int) = READ_BAT_SINGLE_CELL_VOLTAGE then
    (parseBmsResponseSingleCellVoltage s pResponse, none)
  else if ((pResponse 2).val : Int) = READ_BAT_SINGLE_CELL_TEMP then
    (parseBmsResponseSingleCellTemp s pResponse, none)
  else if ((pResponse 2).val : Int) = READ_BAT_SINGLE_CELL_BALANCE_STATUS then
    (parseBmsResponseSingleCellBalancingStatus s pResponse, none)
  else if ((pResponse 2).val : Int) = READ_BAT_SINGLE_CELL_FAILURE_STATUS then
    (parseBmsResponseBatteryFailureStatus s pResponse, none)
  else (s, some 0)

/-- The outcome of a call of `getBMSData`: the globals afterwards, the calls made
on the port, and the value returned (`none` when the function ends without a
`return` statement). -/
structure GetResult where
  state : State
  events : List Event
  returned : Option Int

/-- The function `getBMSData`.  Its loop runs `MAX_RETRY = 1` times: one
`WriteFile`, one `ReadFile`, then the `switch` on `pResponse[2]`, whatever the
two statuses were (they are only printed). -/
def getBMSData (s : State) (hComm : HANDLE) (requestType : Int) (t : RoundTrip) : GetResult :=
  match selectRequest requestType with
  | none => { state := s, events := [], returned := some 0 }
  | some pRequest =>
    { state := (decodeResponse s t.pResponse).1,
      events := [Event.writeFile hComm pRequest, Event.readFile hComm],
      returned := (decodeResponse s t.pResponse).2 }

/-! ## Discovery (`connectToCOMPort`, `setupCOMPort`) -/

def INVALID_COM_PORT_NUMBER : Int := -2
def INVALID_DELAY_TIME_SUPPLIED : Int := -3
def NO_COM_PORT_NUMBER_SUPPLIED : Int := -1

/-- How the port `COM<n>` behaves when it is probed: the success of `CreateFile`,
`GetCommState`, `SetCommState`, `SetCommTimeouts`, `WriteFile` and `ReadFile`,
the number of bytes read, and the content of the local array `buffer` after the
read. -/
structure Candidate where
  createFile : Bool
  getCommState : Bool
  setCommState : Bool
  setCommTimeouts : Bool
  writeFile : Bool
  readFile : Bool
  bytesRead : Nat
  buffer : Buffer

/-- The function `connectToCOMPort` on the port `COM<port>`: the handle returned
and the calls made. -/
def connectToCOMPort (c : Candidate) (port : Int) : HANDLE × List Event :=
  if c.createFile = false then
    (HANDLE.INVALID_HANDLE_VALUE, [Event.createFile port])
  else if c.getCommState = false then
    (HANDLE.INVALID_HANDLE_VALUE,
      [Event.createFile port, Event.closeHandle (HANDLE.comPort port)])
  else if c.setCommState = false then
    (HANDLE.INVALID_HANDLE_VALUE,
      [Event.createFile port, Event.closeHandle (HANDLE.comPort port)])
  else if c.setCommTimeouts = false then
    (HANDLE.INVALID_HANDLE_VALUE,
      [Event.createFile port, Event.closeHandle (HANDLE.comPort port)])
  else (HANDLE.comPort port, [Event.createFile port])

/-- The array `queryData` of `setupCOMPort`. -/
def queryData : List Nat :=
  [0xA5, 0x40, 0x90, 0x08, 0x00, 0x00, 0x00, 0x00, 0x00, 0x00, 0x00, 0x00, 0x7D]

/-- How the probe of one candidate ends. -/
inductive ProbeOutcome where
  | notOpened
  | writeFailed
  | readFailed
  | accepted
  | rejected
  deriving DecidableEq, Repr

/-- The probe of one candidate, which `setupCOMPort` has once for a supplied port
and once inside its scan: connect, write the query, read, and test
`buffer[0] == 0xA5 && buffer[1] == 0x01 && buffer[2] == 0x90`.  The handle is
closed after a failed write, a failed read and a failed test. -/
def probe (c : Candidate) (port : Int) : ProbeOutcome × List Event :=
  if (connectToCOMPort c port).1 = HANDLE.INVALID_HANDLE_VALUE then
    (ProbeOutcome.notOpened, (connectToCOMPort c port).2)
  else if c.writeFile = false then
    (ProbeOutcome.writeFailed,
      (connectToCOMPort c port).2 ++
        [Event.writeFile (HANDLE.comPort port) queryData,
         Event.closeHandle (HANDLE.comPort port)])
  else if c.readFile = false then
    (ProbeOutcome.readFailed,
      (connectToCOMPort c port).2 ++
        [Event.writeFile (HANDLE.comPort port) queryData, Event.readFile (HANDLE.comPort port),
         Event.closeHandle (HANDLE.comPort port)])
  else if (c.buffer 0).val = 0xA5 ∧ (c.buffer 1).val = 0x01 ∧ (c.buffer 2).val = 0x90 then
    (ProbeOutcome.accepted,
      (connectToCOMPort c port).2 ++
        [Event.writeFile (HANDLE.comPort port) queryData, Event.readFile (HANDLE.comPort port)])
  else
    (ProbeOutcome.rejected,
      (connectToCOMPort c port).2 ++
        [Event.writeFile (HANDLE.comPort port) queryData, Event.readFile (HANDLE.comPort port),
         Event.closeHandle (HANDLE.comPort port)])

/-- The outcome of `setupCOMPort`: the handle returned (`none` when control
reaches the end of the function, which has no `return` statement there) and the
calls made. -/
structure SetupResult where
  returned : Option HANDLE
  events : List Event

/-- The scan `for (i = 1; i <= 256; ++i)` of `setupCOMPort`, with `fuel` the number
of iterations left.  An accepted candidate is returned; after any other outcome
the loop goes on; after the last iteration control reaches the end of the
function. -/
def scanPorts (env : Int → Candidate) : Nat → Nat → SetupResult
  | 0, _ => { returned := none, events := [] }
  | fuel + 1, i =>
    if (probe (env (i : Int)) (i : Int)).1 = ProbeOutcome.accepted then
      { returned := some (HANDLE.comPort (i : Int)),
        events := (probe (env (i : Int)) (i : Int)).2 }
    else
      { returned := (scanPorts env fuel (i + 1)).returned,
        events := (probe (env (i : Int)) (i : Int)).2 ++ (scanPorts env fuel (i + 1)).events }

/-- The function `setupCOMPort`.  With a supplied port, a port that does not open
and a failed write or read return `INVALID_HANDLE_VALUE`; a rejected answer
closes the handle and leaves the `if`, after which the function ends. -/
def setupCOMPort (env : Int → Candidate) (portNumber : Int) : SetupResult :=
  if portNumber ≠ -1 then
    match (probe (env portNumber) portNumber).1 with
    | ProbeOutcome.accepted =>
      { returned := some (HANDLE.comPort portNumber),
        events := (probe (env portNumber) portNumber).2 }
    | ProbeOutcome.rejected =>
      { returned := none, events := (probe (env portNumber) portNumber).2 }
    | _ =>
      { returned := some HANDLE.INVALID_HANDLE_VALUE,
        events := (probe (env portNumber) portNumber).2 }
  else scanPorts env 256 1

/-! ## The sink and the poll loop (`outputBMSDataToCsv`, `main`) -/

/-- The function `getDateTime`; `now` is the formatted local time. -/
def getDateTime (s : State) (now : String) : State :=
  { s with bmsData := { s.bmsData with dateTime := now } }

/-- One row of the CSV file, as the values handed to `fprintf` in column order
(their rendering by `%.2f`, `%d` and `%s` is not modelled).  A blank column
`" , "` is `none`. -/
structure CsvRow where
  lineNumber : Int
  dateTime : String
  batteryID : Int
  current : ℚ
  voltage : ℚ
  stateOfCharge : ℚ
  totalCapacity : ℚ
  remainingCapacity : ℚ
  cellVoltage : List (Option ℚ)
  highestCellVoltage : ℚ
  lowestCellVoltage : ℚ
  temperatures : List (Option ℚ)
  chargingDischargingStatus : Int
  chargingMOSStatus : Int
  dischargingMOSStatus : Int
  balancingStatus : Int
  cellBalancingStr : Nat → Byte
  alarms : List String

/-- The local array `cellBalancingStr` when it is printed: `stack` is what the
uninitialised array held, index 16 gets the terminator, and the loop
`for (i = 0; i < g_number_of_battery_cells; i++)` stores
`cellBalancingStatus[i] + '0'`, narrowed to a `char`. -/
def cellBalancingStr (s : State) (stack : Nat → Byte) : Nat → Byte :=
  (List.range s.g_number_of_battery_cells.toNat).foldl
    (fun str i =>
      Function.update str i (byteOfNat ((s.bmsData.cellBalancingStatus i + 48) % 256).toNat))
    (Function.update stack G_MAX_NUMBER_OF_CELLS 0)

/-- The statement `n++` on a 32-bit `int`.  At `INT_MAX`, where C leaves the
result of the addition undefined, the value wraps to `INT_MIN`, as the
two's-complement addition of the machine does. -/
def incrementInt (n : Int) : Int := toInt32 ((n + 1) % 2 ^ 32).toNat

/-- The function `outputBMSDataToCsv`: the row written and the globals afterwards. -/
def outputBMSDataToCsv (s : State) (stack : Nat → Byte) : CsvRow × State :=
  ({ lineNumber := s.bmsData.lineNumber
     dateTime := s.bmsData.dateTime
     batteryID := s.bmsData.batteryID
     current := s.bmsData.current
     voltage := s.bmsData.voltage
     stateOfCharge := s.bmsData.stateOfCharge
     totalCapacity := s.bmsData.totalCapacity
     remainingCapacity := s.bmsData.remainingCapacity
     cellVoltage := (List.range G_MAX_NUMBER_OF_CELLS).map (fun (i : Nat) =>
       if (i : Int) ≥ s.g_number_of_battery_cells then none
       else some (s.bmsData.cellVoltage i))
     highestCellVoltage := s.bmsData.highestCellVoltage
     lowestCellVoltage := s.bmsData.lowestCellVoltage
     temperatures := (List.range G_MAX_NUMBER_OF_TEMP_SENSORS).map (fun (i : Nat) =>
       if (i : Int) ≥ s.g_number_of_temp_sensors then none
       else some (s.bmsData.temperatures i))
     chargingDischargingStatus := s.bmsData.chargingDischargingStatus
     chargingMOSStatus := s.bmsData.chargingMOSStatus
     dischargingMOSStatus := s.bmsData.dischargingMOSStatus
     balancingStatus := s.bmsData.balancingStatus
     cellBalancingStr := cellBalancingStr s stack
     alarms := (List.range 8).map s.bmsData.alarms },
   { s with bmsData := { s.bmsData with lineNumber := incrementInt s.bmsData.lineNumber } })

/-- The request types of the nine `getBMSData` calls in the body of the poll loop,
in program order. -/
def pollRequests : List Int :=
  [READ_BAT_TOTAL_VOLTAGE_CURRENT_SOC, READ_BAT_HIGHEST_LOWEST_VOLTAGE, READ_BAT_MAX_MIN_TEMP,
   READ_BAT_CHARGE_DISCHARGE_MOS_STATUS, READ_BAT_STATUS_INFO_1, READ_BAT_SINGLE_CELL_VOLTAGE,
   READ_BAT_SINGLE_CELL_TEMP, READ_BAT_SINGLE_CELL_BALANCE_STATUS,
   READ_BAT_SINGLE_CELL_FAILURE_STATUS]

/-- A run of consecutive `getBMSData` calls; `trips k` is what the port does in
call number `k`. -/
def issueRequests (hComm : HANDLE) (trips : Nat → RoundTrip) :
    List Int → Nat → State → State × List Event
  | [], _, s => (s, [])
  | requestType :: rest, k, s =>
    ((issueRequests hComm trips rest (k + 1)
        (getBMSData s hComm requestType (trips k)).state).1,
     (getBMSData s hComm requestType (trips k)).events ++
       (issueRequests hComm trips rest (k + 1)
        (getBMSData s hComm requestType (trips k)).state).2)

/-- The outcome of one iteration of the poll loop. -/
structure CycleResult where
  row : CsvRow
  state : State
  events : List Event

/-- The body of `while (1)` in `main`: `getDateTime`, the nine `getBMSData` calls,
`outputBMSDataToCsv` (the `Sleep` has no effect on the globals). -/
def pollCycle (s : State) (hComm : HANDLE) (now : String) (trips : Nat → RoundTrip)
    (stack : Nat → Byte) : CycleResult :=
  { row := (outputBMSDataToCsv
        (issueRequests hComm trips pollRequests 0 (getDateTime s now)).1 stack).1
    state := (outputBMSDataToCsv
        (issueRequests hComm trips pollRequests 0 (getDateTime s now)).1 stack).2
    events := (issueRequests hComm trips pollRequests 0 (getDateTime s now)).2 }

/-- What surrounds the program during the poll loop: for cycle `c` (counted from
0) the clock reading, the behaviour of the port in each of its round trips, and
the content of the uninitialised local of the sink. -/
structure PollEnv where
  clock : Nat → String
  trips : Nat → Nat → RoundTrip
  stack : Nat → Nat → Byte

/-- The first `n` iterations of `while (1)`: the rows written, oldest first, and
the globals afterwards. -/
def pollLoop (hComm : HANDLE) (e : PollEnv) : Nat → State → List CsvRow × State
  | 0, s => ([], s)
  | n + 1, s =>
    ((pollLoop hComm e n s).1 ++
        [(pollCycle (pollLoop hComm e n s).2 hComm (e.clock n) (e.trips n) (e.stack n)).row],
     (pollCycle (pollLoop hComm e n s).2 hComm (e.clock n) (e.trips n) (e.stack n)).state)

/-- The globals when `main` enters the poll loop: `bmsData.lineNumber = 1`, all
else as at program start. -/
def mainState : State :=
  { initialState with bmsData := { initialState.bmsData with lineNumber := 1 } }

/-- How `main` goes on after discovery. -/
inductive MainOutcome where
  | returned (status : Int)
  | polling (hComm : HANDLE)
  | indeterminate
  deriving DecidableEq, Repr

/-- The function `main` from the point where `readProgramParams` has returned
`comPort`: it returns 1 on the two error codes and on `INVALID_HANDLE_VALUE`, and
enters the poll loop with any other handle.  When `setupCOMPort` ended without a
`return` statement, `hComm` holds no determined value. -/
def mainFrom (env : Int → Candidate) (comPort : Int) : MainOutcome :=
  if comPort = INVALID_COM_PORT_NUMBER ∨ comPort = INVALID_DELAY_TIME_SUPPLIED then
    MainOutcome.returned 1
  else
    match (setupCOMPort env comPort).returned with
    | none => MainOutcome.indeterminate
    | some hComm =>
      if hComm = HANDLE.INVALID_HANDLE_VALUE then MainOutcome.returned 1
      else MainOutcome.polling hComm

/-! ## Indices read by the loops

The same loops once more, this time with what they do outside `bmsData`: the
indices of `pResponse` they read, in program order, and their stores into the
local array (`cell_voltages`, `cell_temps`), which has `G_MAX_NUMBER_OF_CELLS`
slots.  A store into the local array at an index past its slots writes over the
other locals of the function, among them `i`, `readIndex` and the counter
itself; what the program reads after such a store is not determined by the
source, and the run is followed up to that store only.  Up to there the stores
into `bmsData.cellVoltage` and `bmsData.temperatures` reach at most index 15,
which lies inside the object `bmsData`, so they leave the locals alone. -/

/-- The run of a subframe loop as far as the source determines it: the indices of
`pResponse` read so far, the value of the counter (`nCellsRead`, `nRead`), and
the index of the store that left the local array, if there was one. -/
structure LoopRun where
  reads : List Nat
  nRead : Nat
  outside : Option Nat
  deriving DecidableEq, Repr

/-- The inner loop `for (j = 0; j < CELLS_PER_FRAME; j++)`, with `fuel` the
number of iterations left; `itemReads readIndex` are the indices the right-hand
side of `local[nRead] = ...` reads, `slots` the size of the local array. -/
def subframeCellRun (itemReads : Nat → List Nat) (step : Nat) (count : Int) (slots : Nat) :
    Nat → Nat → Nat → LoopRun
  | 0, _, nRead => { reads := [], nRead := nRead, outside := none }
  | fuel + 1, readIndex, nRead =>
    if (nRead : Int) = count then { reads := [], nRead := nRead, outside := none }
    else if slots ≤ nRead then
      { reads := itemReads readIndex, nRead := nRead, outside := some nRead }
    else
      { reads := itemReads readIndex ++
          (subframeCellRun itemReads step count slots fuel (readIndex + step) (nRead + 1)).reads
        nRead :=
          (subframeCellRun itemReads step count slots fuel (readIndex + step) (nRead + 1)).nRead
        outside :=
          (subframeCellRun itemReads step count slots fuel (readIndex + step) (nRead + 1)).outside }

/-- The outer loop `for (i = 0; i < MAX_FRAMES; i++)`, with `fuel` the number of
iterations left: the sequence byte `pResponse[4 + i * MESSAGE_LENGTH]` of every
subframe looked at is read, and the inner loop runs for the subframes whose
sequence byte is right.  The run ends where the inner loop has stored outside
the local array. -/
def subframeRun (pResponse : Buffer) (itemReads : Nat → List Nat) (step cellsPerFrame : Nat)
    (count : Int) (slots : Nat) : Nat → Nat → Nat → LoopRun
  | 0, _, nRead => { reads := [], nRead := nRead, outside := none }
  | fuel + 1, i, nRead =>
    if (nRead : Int) = count then { reads := [], nRead := nRead, outside := none }
    else if ((pResponse (4 + i * MESSAGE_LENGTH)).val : Int) ≠ (i : Int) + 1 then
      { reads := (4 + i * MESSAGE_LENGTH) ::
          (subframeRun pResponse itemReads step cellsPerFrame count slots fuel (i + 1) nRead).reads
        nRead :=
          (subframeRun pResponse itemReads step cellsPerFrame count slots fuel (i + 1) nRead).nRead
        outside :=
          (subframeRun pResponse itemReads step cellsPerFrame count slots fuel (i + 1)
            nRead).outside }
    else if (subframeCellRun itemReads step count slots cellsPerFrame
        (i * MESSAGE_LENGTH + 4 + 1) nRead).outside.isSome then
      { reads := (4 + i * MESSAGE_LENGTH) ::
          (subframeCellRun itemReads step count slots cellsPerFrame
            (i * MESSAGE_LENGTH + 4 + 1) nRead).reads
        nRead :=
          (subframeCellRun itemReads step count slots cellsPerFrame
            (i * MESSAGE_LENGTH + 4 + 1) nRead).nRead
        outside :=
          (subframeCellRun itemReads step count slots cellsPerFrame
            (i * MESSAGE_LENGTH + 4 + 1) nRead).outside }
    else
      { reads := (4 + i * MESSAGE_LENGTH) ::
          ((subframeCellRun itemReads step count slots cellsPerFrame
              (i * MESSAGE_LENGTH + 4 + 1) nRead).reads ++
            (subframeRun pResponse itemReads step cellsPerFrame count slots fuel (i + 1)
              (subframeCellRun itemReads step count slots cellsPerFrame
                (i * MESSAGE_LENGTH + 4 + 1) nRead).nRead).reads)
        nRead :=
          (subframeRun pResponse itemReads step cellsPerFrame count slots fuel (i + 1)
            (subframeCellRun itemReads step count slots cellsPerFrame
              (i * MESSAGE_LENGTH + 4 + 1) nRead).nRead).nRead
        outside :=
          (subframeRun pResponse itemReads step cellsPerFrame count slots fuel (i + 1)
            (subframeCellRun itemReads step count slots cellsPerFrame
              (i * MESSAGE_LENGTH + 4 + 1) nRead).nRead).outside }

/-- The run of `parseBmsResponseSingleCellVoltage`: `MAX_FRAMES = 16`,
`CELLS_PER_FRAME = 3`, every item reads `pResponse[readIndex]` and
`pResponse[readIndex + 1]` and is stored into `cell_voltages[nCellsRead]`, a local
array of `G_MAX_NUMBER_OF_CELLS` slots. -/
def singleCellVoltageRun (count : Int) (pResponse : Buffer) : LoopRun :=
  subframeRun pResponse (fun readIndex => [readIndex, readIndex + 1]) 2 3 count
    G_MAX_NUMBER_OF_CELLS 16 0 0

/-- The run of `parseBmsResponseSingleCellTemp`: `MAX_FRAMES = 3`,
`CELLS_PER_FRAME = 7`, every item reads `pResponse[readIndex]` and is stored into
`cell_temps[nRead]`, a local array of `G_MAX_NUMBER_OF_CELLS` slots. -/
def singleCellTempRun (count : Int) (pResponse : Buffer) : LoopRun :=
  subframeRun pResponse (fun readIndex => [readIndex]) 1 7 count G_MAX_NUMBER_OF_CELLS 3 0 0

/-- The indices the loop of `parseBmsResponseSingleCellBalancingStatus` reads; the
first argument is `i + 1`, the second `isBalancing`.  In
`isBalancing || pResponse[4 + i]` the byte is read only while `isBalancing` is 0;
the assignment to `cellBalancingStatus[i]` reads it in any case. -/
def balancingReads (pResponse : Buffer) : Nat → Nat → List Nat
  | 0, _ => []
  | i + 1, isBalancing =>
    (if isBalancing = 0 then [4 + i] else []) ++ [4 + i] ++
      balancingReads pResponse i
        (if isBalancing ≠ 0 ∨ (pResponse (4 + i)).val ≠ 0 then 1 else 0)

/-- The indices `parseBmsResponseSingleCellBalancingStatus` reads. -/
def singleCellBalancingStatusReads (count : Int) (pResponse : Buffer) : List Nat :=
  balancingReads pResponse count.toNat 0

/-! ## Program parameters (`isInteger`, `readProgramParams`, `main`) -/

def MIN_DELAY_TIME : Int := 0
def MAX_COM_PORT_NUMBER : Int := 256
def MIN_COM_PORT_NUMBER : Int := 1
def NO_DELAY_TIME_SUPPLIED : Int := -1

/-- The two functions of the C library that the parameter handling calls; they
are not part of the program and are taken as given.  `strtolEnd str` is the
number of characters of `str` in front of the `endptr` that
`strtol(str, &endptr, 10)` sets, `atoi str` the value `atoi(str)` returns. -/
structure CLibrary where
  strtolEnd : String → Nat
  atoi : String → Int

/-- The function `isInteger`: 0 when `endptr == str` (nothing converted) and when
`*endptr != '\0'` (characters left over), 1 otherwise. -/
def isInteger (L : CLibrary) (str : String) : Int :=
  if L.strtolEnd str = 0 then 0
  else if str.data.drop (L.strtolEnd str) ≠ [] then 0
  else 1

/-- What `readProgramParams` leaves behind: the value returned and the global
`g_delay_time_ms`. -/
structure ParamsResult where
  returned : Int
  g_delay_time_ms : Int
  deriving DecidableEq, Repr

/-- The loop `for (i = 1; i < argc; i++)` of `readProgramParams` on the arguments
`argv[i], argv[i + 1], ...`, with the locals `suppliedComPortNumber` and
`suppliedDelayTime` and the global `g_delay_time_ms`.  An option in the last
place has no value (`i + 1 < argc` fails) and is only reported.  After `-c` and after `-t`
with an integer value the value is consumed (`++i`); after `-t` with a value
that is no integer the loop goes on with that value (`continue`). -/
def readProgramParamsLoop (L : CLibrary) :
    List String → Int → Int → Int → ParamsResult
  | [], suppliedComPortNumber, _, g_delay_time_ms =>
    { returned := suppliedComPortNumber, g_delay_time_ms := g_delay_time_ms }
  | [_], suppliedComPortNumber, _, g_delay_time_ms =>
    { returned := suppliedComPortNumber, g_delay_time_ms := g_delay_time_ms }
  | arg :: value :: rest, suppliedComPortNumber, suppliedDelayTime, g_delay_time_ms =>
    if arg = "-c" then
      if isInteger L value = 0 then
        { returned := INVALID_COM_PORT_NUMBER, g_delay_time_ms := g_delay_time_ms }
      else if L.atoi value < MIN_COM_PORT_NUMBER then
        readProgramParamsLoop L rest INVALID_COM_PORT_NUMBER suppliedDelayTime g_delay_time_ms
      else if L.atoi value > MAX_COM_PORT_NUMBER then
        readProgramParamsLoop L rest INVALID_COM_PORT_NUMBER suppliedDelayTime g_delay_time_ms
      else readProgramParamsLoop L rest (L.atoi value) suppliedDelayTime g_delay_time_ms
    else if arg = "-t" then
      if isInteger L value = 0 then
        readProgramParamsLoop L (value :: rest) suppliedComPortNumber suppliedDelayTime
          g_delay_time_ms
      else if L.atoi value < MIN_DELAY_TIME then
        { returned := INVALID_DELAY_TIME_SUPPLIED, g_delay_time_ms := g_delay_time_ms }
      else readProgramParamsLoop L rest suppliedComPortNumber (L.atoi value) (L.atoi value)
    else
      readProgramParamsLoop L (value :: rest) suppliedComPortNumber suppliedDelayTime
        g_delay_time_ms

/-- The function `readProgramParams`; `argv` includes the program name, and
`g_delay_time_ms` is the value of the global at the call. -/
def readProgramParams (L : CLibrary) (argv : List String) (g_delay_time_ms : Int) :
    ParamsResult :=
  readProgramParamsLoop L (argv.drop 1) NO_COM_PORT_NUMBER_SUPPLIED NO_DELAY_TIME_SUPPLIED
    g_delay_time_ms

/-- The function `main` up to the poll loop: the global `g_delay_time_ms` starts
at 2000. -/
def main (L : CLibrary) (env : Int → Candidate) (argv : List String) : MainOutcome :=
  mainFrom env (readProgramParams L argv 2000).returned

/-! ## Vocabulary of the statements -/

/-- The items of one subframe as the inner loop meets them: `fuel` items, the
first at `readIndex`, each `step` bytes after the one before. -/
def frameItems (item : Nat → ℚ) (step : Nat) : Nat → Nat → List ℚ
  | 0, _ => []
  | fuel + 1, readIndex => item readIndex :: frameItems item step fuel (readIndex + step)

/-- Subframe `i` carries the sequence number `i + 1` at its payload offset 0. -/
def sequenceOk (pResponse : Buffer) (i : Nat) : Bool :=
  decide ((pResponse (4 + i * MESSAGE_LENGTH)).val = i + 1)

/-- The three items of subframe `i` of a cell-voltage response, in wire order. -/
def voltageSubframeItems (pResponse : Buffer) (i : Nat) : List ℚ :=
  [cellVoltageItem pResponse (13 * i + 5), cellVoltageItem pResponse (13 * i + 7),
   cellVoltageItem pResponse (13 * i + 9)]

/-- The subframes `i < 16` of a cell-voltage response whose sequence byte is `i + 1`. -/
def matchingVoltageSubframes (pResponse : Buffer) : List Nat :=
  (List.range 16).filter (sequenceOk pResponse)

/-- The items of the matching subframes, concatenated in arrival order. -/
def matchingVoltageItems (pResponse : Buffer) : List ℚ :=
  (matchingVoltageSubframes pResponse).flatMap (voltageSubframeItems pResponse)

/-- A cell-voltage response of two subframes: cells 3100, 3101, 3102 mV under
sequence number 1, then 3103, 3104, 3105 mV under sequence number 2. -/
def voltageResponseInOrder : Buffer :=
  bufferOfList [0xA5, 0x01, 0x95, 0x08, 1, 0x0C, 0x1C, 0x0C, 0x1D, 0x0C, 0x1E, 0, 0,
                0xA5, 0x01, 0x95, 0x08, 2, 0x0C, 0x1F, 0x0C, 0x20, 0x0C, 0x21, 0, 0]

/-- The same response with the second subframe numbered 3 instead of 2. -/
def voltageResponseSkipped : Buffer :=
  bufferOfList [0xA5, 0x01, 0x95, 0x08, 1, 0x0C, 0x1C, 0x0C, 0x1D, 0x0C, 0x1E, 0, 0,
                0xA5, 0x01, 0x95, 0x08, 3, 0x0C, 0x1F, 0x0C, 0x20, 0x0C, 0x21, 0, 0]

/-- The state after a status-info response that announced `cells` cells and
`sensors` sensors, on a zeroed snapshot. -/
def stateWithCounts (cells sensors : Int) : State where
  bmsData := bmsDataZero
  g_number_of_battery_cells := cells
  g_number_of_temp_sensors := sensors

/-- A cell-voltage response whose subframes `i = 0, 1, 2, ...` all carry the
sequence number `i + 1`; every other byte is 1, so every cell reads 257 mV. -/
def voltageResponseAllFrames : Buffer :=
  fun k => if k % 13 = 4 then byteOfNat (k / 13 + 1) else byteOfNat 1

/-- A temperature response of one subframe numbered 1 with the seven raw bytes
60..66, that is 20..26 degrees. -/
def tempResponseOneFrame : Buffer :=
  bufferOfList [0xA5, 0x01, 0x96, 0x08, 1, 60, 61, 62, 63, 64, 65, 66, 0]

/-- A response to command 0x90 with payload `00 96 00 00 75 30 27 10`. -/
def socResponse : Buffer :=
  bufferOfList [0xA5, 0x01, 0x90, 0x08, 0x00, 0x96, 0x00, 0x00, 0x75, 0x30, 0x27, 0x10, 0]

/-- A response to command 0x98 whose first payload byte is `0b10110000`. -/
def alarmResponse : Buffer :=
  bufferOfList [0xA5, 0x01, 0x98, 0x08, 0xB0, 0, 0, 0, 0, 0, 0, 0, 0]

/-- A response to command 0x97 with payload `00 01 00 01` and then `01`. -/
def balancingResponse : Buffer :=
  bufferOfList [0xA5, 0x01, 0x97, 0x08, 0, 1, 0, 1, 1, 0, 0, 0, 0]

/-- A response to command 0x93 whose capacity bytes are `80 00 00 00`. -/
def mosResponseHighBit : Buffer :=
  bufferOfList [0xA5, 0x01, 0x93, 0x08, 1, 1, 1, 100, 0x80, 0x00, 0x00, 0x00, 0]

/-- A response to command 0x94: 7 cells, 3 sensors, charger and load status 1 and
0, io byte `0b10100101`. -/
def statusInfoResponse : Buffer :=
  bufferOfList [0xA5, 0x01, 0x94, 0x08, 7, 3, 1, 0, 0xA5, 0, 0, 0, 0]

/-- A response to command 0x91: highest cell 3300 mV (cell 2), lowest cell 3100 mV
(cell 5). -/
def highestLowestResponse : Buffer :=
  bufferOfList [0xA5, 0x01, 0x91, 0x08, 0x0C, 0xE4, 2, 0x0C, 0x1C, 5, 0, 0, 0]

/-- A response to command 0x92 with the raw maximum `0x28` and the raw minimum `0x00`. -/
def maxMinTempResponse : Buffer :=
  bufferOfList [0xA5, 0x01, 0x92, 0x08, 0x28, 1, 0x00, 2, 0, 0, 0, 0, 0]

/-- A round trip whose read succeeds with a status-info payload (7 cells, 3
sensors) under a wrong sync byte `00` and a wrong device address `02`. -/
def badFrameTrip : RoundTrip where
  writeStatus := true
  readStatus := true
  bytesRead := 13
  pResponse := bufferOfList [0x00, 0x02, 0x94, 0x08, 7, 3, 1, 0, 0xA5, 0, 0, 0, 0]

/-- A round trip whose read fails: no byte arrives, and the local buffer holds
what was there before, here the bytes of `mosResponseHighBit`. -/
def failedReadTrip : RoundTrip where
  writeStatus := true
  readStatus := false
  bytesRead := 0
  pResponse := mosResponseHighBit

/-- A round trip whose read delivers only the three bytes `A5 01 94`; the rest of
the local buffer is what was there before. -/
def shortReadTrip : RoundTrip where
  writeStatus := true
  readStatus := true
  bytesRead := 3
  pResponse := bufferOfList [0xA5, 0x01, 0x94, 0x08, 9, 2, 0, 0, 0, 0, 0, 0, 0]

/-- A round trip answered with the unknown command code `0x99`. -/
def unknownCommandTrip : RoundTrip where
  writeStatus := true
  readStatus := true
  bytesRead := 13
  pResponse := bufferOfList [0xA5, 0x01, 0x99, 0x08, 7, 3, 1, 0, 0xA5, 0, 0, 0, 0]

/-- The ports `COM<n>` on which `CreateFile` was called, in call order. -/
def probedPorts (events : List Event) : List Int :=
  events.filterMap (fun e => match e with
    | Event.createFile port => some port
    | _ => none)

/-- The probe of the candidate `COM<j>` ends in acceptance. -/
def accepts (env : Int → Candidate) (j : Nat) : Bool :=
  decide ((probe (env (j : Int)) (j : Int)).1 = ProbeOutcome.accepted)

/-- The candidate opens: `connectToCOMPort` gets through all four calls. -/
def connects (c : Candidate) : Prop :=
  c.createFile = true ∧ c.getCommState = true ∧ c.setCommState = true ∧
    c.setCommTimeouts = true

/-- A candidate that opens, takes the query and answers `bytesRead` bytes, after
which the local buffer holds `bytes`. -/
def answeringCandidate (bytesRead : Nat) (bytes : List Nat) : Candidate where
  createFile := true
  getCommState := true
  setCommState := true
  setCommTimeouts := true
  writeFile := true
  readFile := true
  bytesRead := bytesRead
  buffer := bufferOfList bytes

/-- A candidate on which `CreateFile` fails. -/
def absentCandidate : Candidate where
  createFile := false
  getCommState := false
  setCommState := false
  setCommTimeouts := false
  writeFile := false
  readFile := false
  bytesRead := 0
  buffer := bufferOfList []

/-- Every port opens and answers 13 bytes; only `COM5` answers as the BMS does. -/
def onlyFiveAccepts : Int → Candidate :=
  fun n =>
    if n = 5 then answeringCandidate 13 [0xA5, 0x01, 0x90, 0x08, 0, 0x96, 0, 0, 0x75, 0x30, 0x27, 0x10, 0]
    else answeringCandidate 13 [0xA5, 0x02, 0x90, 0x08, 0, 0, 0, 0, 0, 0, 0, 0, 0]

/-- Every port opens; what is read from each is the three bytes `A5 01 90`. -/
def threeByteAnswers : Int → Candidate :=
  fun _ => answeringCandidate 3 [0xA5, 0x01, 0x90]

/-- No port opens. -/
def nothingOpens : Int → Candidate := fun _ => absentCandidate

/-- Every port opens and answers 13 bytes under the device address `02`. -/
def wrongAddressEverywhere : Int → Candidate :=
  fun _ => answeringCandidate 13 [0xA5, 0x02, 0x90, 0x08, 0, 0, 0, 0, 0, 0, 0, 0, 0]

/-- The calls on the port that one `getBMSData` call with the request type `r`
makes: one write of the request frame and one read, or nothing for a request
type without a frame. -/
def requestEvents (hComm : HANDLE) (requestType : Int) : List Event :=
  match selectRequest requestType with
  | none => []
  | some pRequest => [Event.writeFile hComm pRequest, Event.readFile hComm]

/-- A port that answers every request of every cycle with the frame of
`statusInfoResponse` (7 cells, 3 sensors). -/
def steadyPollEnv : PollEnv where
  clock := fun _ => "2023-10-05 12:00:00"
  trips := fun _ _ =>
    { writeStatus := true, readStatus := true, bytesRead := 13, pResponse := statusInfoResponse }
  stack := fun _ _ => 0

/-- The state after a two-subframe cell-voltage response was decoded with five
cells and two sensors announced. -/
def fiveCellState : State :=
  parseBmsResponseSingleCellTemp
    (parseBmsResponseSingleCellVoltage (stateWithCounts 5 2) voltageResponseInOrder)
    tempResponseOneFrame

/-- A round trip answered with a well-formed status-info frame (7 cells, 3 sensors). -/
def statusInfoTrip : RoundTrip where
  writeStatus := true
  readStatus := true
  bytesRead := 13
  pResponse := statusInfoResponse

/-- The number an alarm string stands for when the character at index `j` is
read as bit `j`: the sum of `2 ^ j` over the indices `j < 8` that hold '1'. -/
def alarmValue (str : String) : Nat :=
  ((List.range 8).map (fun j => if str.data[j]? = some '1' then 2 ^ j else 0)).sum

/-- The fields no decoder writes, `lineNumber`, `dateTime`, `batteryID` and
`totalCapacity`, are the same in two snapshots. -/
def sameRowIdentity (a b : BMSData) : Prop :=
  a.lineNumber = b.lineNumber ∧ a.dateTime = b.dateTime ∧ a.batteryID = b.batteryID ∧
    a.totalCapacity = b.totalCapacity

/-- The pairs of an option and the value given to it that the loop of
`readProgramParams` meets in the arguments, in order. -/
def optionValues (L : CLibrary) : List String → List (String × String)
  | [] => []
  | [_] => []
  | arg :: value :: rest =>
    if arg = "-c" then (arg, value) :: optionValues L rest
    else if arg = "-t" then
      if isInteger L value = 0 then (arg, value) :: optionValues L (value :: rest)
      else (arg, value) :: optionValues L rest
    else optionValues L (value :: rest)

/-- The port number a value given to `-c` stands for: the value itself inside
1..256 and `INVALID_COM_PORT_NUMBER` outside. -/
def checkedPort (L : CLibrary) (value : String) : Int :=
  if L.atoi value < MIN_COM_PORT_NUMBER then INVALID_COM_PORT_NUMBER
  else if L.atoi value > MAX_COM_PORT_NUMBER then INVALID_COM_PORT_NUMBER
  else L.atoi value

/-- The outcome of the loop of `readProgramParams` in terms of the option values
met. -/
def evalOptionValues (L : CLibrary) : List (String × String) → Int → Int → ParamsResult
  | [], port, delay => { returned := port, g_delay_time_ms := delay }
  | (flag, value) :: rest, port, delay =>
    if flag = "-c" then
      if isInteger L value = 0 then
        { returned := INVALID_COM_PORT_NUMBER, g_delay_time_ms := delay }
      else evalOptionValues L rest (checkedPort L value) delay
    else if isInteger L value = 0 then evalOptionValues L rest port delay
    else if L.atoi value < MIN_DELAY_TIME then
      { returned := INVALID_DELAY_TIME_SUPPLIED, g_delay_time_ms := delay }
    else evalOptionValues L rest port (L.atoi value)

/-- The characters `isspace` accepts. -/
def isBlank (c : Char) : Bool :=
  c = ' ' || c = '\t' || c = '\n' || c = '\x0b' || c = '\x0c' || c = '\r'

/-- The sign character in front of a number, if there is one. -/
def signLength (cs : List Char) : Nat :=
  match cs with
  | '+' :: _ => 1
  | '-' :: _ => 1
  | _ => 0

/-- The value of a run of decimal digits. -/
def digitsValue (cs : List Char) : Nat :=
  cs.foldl (fun n c => 10 * n + (c.toNat - '0'.toNat)) 0

/-- A C library for the examples: `strtol` and `atoi` skip blanks, take an
optional sign and then decimal digits (the values of the examples are far inside
the range of `int`). -/
def decimalLibrary : CLibrary where
  strtolEnd := fun str =>
    let blanks := str.data.takeWhile isBlank
    let body := str.data.dropWhile isBlank
    let digits := (body.drop (signLength body)).takeWhile Char.isDigit
    if digits = [] then 0 else blanks.length + signLength body + digits.length
  atoi := fun str =>
    let body := str.data.dropWhile isBlank
    let digits := (body.drop (signLength body)).takeWhile Char.isDigit
    match body with
    | '-' :: _ => -(digitsValue digits : Int)
    | _ => (digitsValue digits : Int)

/-- The value is one of the two error codes of `readProgramParams`. -/
def isErrorCode (r : Int) : Prop :=
  r = INVALID_COM_PORT_NUMBER ∨ r = INVALID_DELAY_TIME_SUPPLIED

/-- A response to command 0x90 with payload `00 01 00 00 75 31 00 03`: the raw
values 1, 30001 and 3. -/
def socResponseOddTenths : Buffer :=
  bufferOfList [0xA5, 0x01, 0x90, 0x08, 0x00, 0x01, 0x00, 0x00, 0x75, 0x31, 0x00, 0x03, 0]

/-- A response to command 0x93 with status bytes 1, 1, 0 and the capacity bytes
`00 00 4E 20`, that is 20000 mAh. -/
def mosResponse : Buffer :=
  bufferOfList [0xA5, 0x01, 0x93, 0x08, 1, 1, 0, 100, 0x00, 0x00, 0x4E, 0x20, 0]

/-- A port that answers each of the nine requests of every cycle with a frame of
the command asked for: `socResponse`, `highestLowestResponse`,
`maxMinTempResponse`, `mosResponse`, `statusInfoResponse` (7 cells, 3 sensors),
`voltageResponseInOrder`, `tempResponseOneFrame`, `balancingResponse` and
`alarmResponse`. -/
def answeringPollEnv : PollEnv where
  clock := fun _ => "2023-10-05 12:00:00"
  trips := fun _ k =>
    { writeStatus := true, readStatus := true, bytesRead := 13,
      pResponse :=
        [socResponse, highestLowestResponse, maxMinTempResponse, mosResponse,
         statusInfoResponse, voltageResponseInOrder, tempResponseOneFrame, balancingResponse,
         alarmResponse].getD k (bufferOfList []) }
  stack := fun _ _ => 0

/-- The globals when the row counter has reached `INT_MAX`. -/
def lastLineState : State :=
  { mainState with bmsData := { mainState.bmsData with lineNumber := 2147483647 } }

/-- A response in which only the sequence bytes at index 30 (subframe `i = 2`,
value 3) and at index 199 (subframe `i = 15`, value 16) are right: the last
subframe the decoder of command 0x96 looks at, and the last one the decoder of
command 0x95 looks at. -/
def lastSubframesResponse : Buffer :=
  fun k => if k = 199 then byteOfNat 16 else if k = 30 then byteOfNat 3 else byteOfNat 0

/-! ## Lemmas on the subframe loops -/

theorem frameItems_length (item : Nat → ℚ) (step fuel readIndex : Nat) :
    (frameItems item step fuel readIndex).length = fuel := by
  induction fuel generalizing readIndex with
  | zero => rfl
  | succ fuel ih => simp [frameItems, ih]

theorem applyStores_enumFrom (l : List ℚ) (n : Nat) (a : Nat → ℚ) (k : Nat) :
    applyStores (List.enumFrom n l) a k = if n ≤ k then (l[k - n]?).getD (a k) else a k := by
  induction l generalizing n a with
  | nil => simp [applyStores]
  | cons x l ih =>
    have step : applyStores (List.enumFrom n (x :: l)) a
        = applyStores (List.enumFrom (n + 1) l) (Function.update a n x) := by
      simp [applyStores, List.enumFrom_cons]
    rw [step, ih]
    by_cases h1 : n + 1 ≤ k
    · have h2 : n ≤ k := by omega
      have h3 : k ≠ n := by omega
      have h4 : k - n = (k - (n + 1)) + 1 := by omega
      simp [h1, h2, h3, h4, Function.update_noteq]
    · by_cases h2 : n ≤ k
      · have h3 : k = n := by omega
        subst h3
        simp
      · have h3 : k ≠ n := by omega
        simp [h1, h2, h3, Function.update_noteq]

theorem subframeCells_eq (item : Nat → ℚ) (step c : Nat) (fuel readIndex nRead : Nat)
    (h : nRead ≤ c) :
    subframeCells item step (c : Int) fuel readIndex nRead
      = List.enumFrom nRead (List.take (c - nRead) (frameItems item step fuel readIndex)) := by
  induction fuel generalizing readIndex nRead with
  | zero => simp [subframeCells, frameItems]
  | succ fuel ih =>
    by_cases hc : nRead = c
    · subst hc
      simp [subframeCells]
    · have hlt : nRead + 1 ≤ c := by omega
      have hne : ¬ ((nRead : Int) = (c : Int)) := by exact_mod_cast hc
      have hsub : c - nRead = (c - (nRead + 1)) + 1 := by omega
      simp only [subframeCells, hne, if_false, frameItems]
      rw [ih _ _ hlt, hsub, List.take_succ_cons, List.enumFrom_cons]

theorem subframes_eq (pResponse : Buffer) (item : Nat → ℚ) (step cellsPerFrame c : Nat)
    (fuel i nRead : Nat) (h : nRead ≤ c) :
    subframes pResponse item step cellsPerFrame (c : Int) fuel i nRead
      = List.enumFrom nRead (List.take (c - nRead)
          (((List.range' i fuel).filter (sequenceOk pResponse)).flatMap
            (fun k => frameItems item step cellsPerFrame (k * MESSAGE_LENGTH + 4 + 1)))) := by
  induction fuel generalizing i nRead with
  | zero => simp [subframes]
  | succ fuel ih =>
    by_cases hc : nRead = c
    · subst hc
      simp [subframes]
    · have hne : ¬ ((nRead : Int) = (c : Int)) := by exact_mod_cast hc
      by_cases hs : (pResponse (4 + i * MESSAGE_LENGTH)).val = i + 1
      · have hs1 : ¬ (((pResponse (4 + i * MESSAGE_LENGTH)).val : Int) ≠ (i : Int) + 1) := by
          simp only [ne_eq, not_not]; exact_mod_cast hs
        have hs2 : sequenceOk pResponse i = true := by simp [sequenceOk, hs]
        simp only [subframes, hne, if_false, hs1, List.range'_succ, List.filter_cons, hs2,
          if_true, List.flatMap_cons]
        rw [subframeCells_eq _ _ _ _ _ _ h, List.take_append_eq_append_take,
          List.enumFrom_append, frameItems_length]
        congr 1
        rw [ih _ _ (by simp [List.length_take, frameItems_length]; omega)]
        simp only [List.enumFrom_length, List.length_take, frameItems_length]
        congr 2
        omega
      · have hs1 : ((pResponse (4 + i * MESSAGE_LENGTH)).val : Int) ≠ (i : Int) + 1 := by
          exact_mod_cast hs
        have hs2 : sequenceOk pResponse i = false := by simp [sequenceOk, hs]
        simp only [subframes, hne, if_false, hs1, ne_eq, not_true_eq_false, not_false_eq_true,
          if_true, List.range'_succ, List.filter_cons, hs2]
        exact ih (i + 1) nRead h

theorem take_flatMap_filter (F : Nat → List ℚ) (cpf : Nat) (hF : ∀ j, (F j).length = cpf)
    (ok : Nat → Bool) (fuel i t : Nat)
    (h : ∀ j, i ≤ j → cpf * (j - i) < t → ok j = true) :
    List.take t (((List.range' i fuel).filter ok).flatMap F)
      = List.take t ((List.range' i fuel).flatMap F) := by
  induction fuel generalizing i t with
  | zero => simp
  | succ fuel ih =>
    by_cases ht : t = 0
    · subst ht; simp
    · have hi : ok i = true := h i (Nat.le_refl i) (by simp; omega)
      simp only [List.range'_succ, List.filter_cons, hi, if_true, List.flatMap_cons,
        List.take_append_eq_append_take, hF]
      congr 1
      apply ih
      intro j hj hlt
      apply h j (by omega)
      have e : j - i = (j - (i + 1)) + 1 := by omega
      rw [e, Nat.mul_succ]
      omega

/-- Once the count is a learned value `c ≥ 0`, every store of the subframe loops
goes to an index below `c`. -/
theorem subframes_index_lt (pResponse : Buffer) (item : Nat → ℚ) (step cellsPerFrame c : Nat)
    (fuel : Nat) (w : Nat × ℚ)
    (hw : w ∈ subframes pResponse item step cellsPerFrame (c : Int) fuel 0 0) : w.1 < c := by
  rw [subframes_eq _ _ _ _ _ _ _ _ (Nat.zero_le c)] at hw
  have h := List.fst_lt_add_of_mem_enumFrom hw
  rw [List.length_take] at h
  omega

theorem voltageFrameItems_eq (pResponse : Buffer) :
    (fun k => frameItems (cellVoltageItem pResponse) 2 3 (k * MESSAGE_LENGTH + 4 + 1))
      = voltageSubframeItems pResponse := by
  funext k
  have e1 : k * 13 + 4 + 1 = 13 * k + 5 := by omega
  have e2 : 13 * k + 5 + 2 = 13 * k + 7 := by omega
  have e3 : 13 * k + 7 + 2 = 13 * k + 9 := by omega
  simp only [frameItems, voltageSubframeItems, MESSAGE_LENGTH, e1, e2, e3]

theorem voltageStores_eq (pResponse : Buffer) (n : Nat) :
    singleCellVoltageStores (n : Int) pResponse
      = List.enumFrom 0 (List.take n (matchingVoltageItems pResponse)) := by
  unfold singleCellVoltageStores
  rw [subframes_eq _ _ _ _ _ _ _ _ (Nat.zero_le n), voltageFrameItems_eq, Nat.sub_zero,
    matchingVoltageItems, matchingVoltageSubframes, List.range_eq_range']

theorem allVoltageItems_eq (pResponse : Buffer) :
    (List.range' 0 16).flatMap (voltageSubframeItems pResponse)
      = (List.range 48).map
          (fun k => cellVoltageItem pResponse (13 * (k / 3) + 5 + 2 * (k % 3))) := by
  rfl

theorem cellVoltageItem_eq (pResponse : Buffer) (r : Nat) :
    cellVoltageItem pResponse r
      = 256 * ((pResponse r).val : ℚ) + ((pResponse (r + 1)).val : ℚ) := by
  unfold cellVoltageItem
  rw [Nat.shiftLeft_eq]
  push_cast
  ring

/-! ## Request frames -/

/-- C1: for every command code `c` in 0x90..0x98 the request frame selected by
`getBMSData` is the 13 bytes `A5 40 c 08 00 00 00 00 00 00 00 00 k`, with `k` the
sum of the twelve bytes before it modulo 256. -/
theorem request_frame_layout (c : Int) (hlo : 0x90 ≤ c) (hhi : c ≤ 0x98) :
    selectRequest c
      = some [0xA5, 0x40, c.toNat, 0x08, 0, 0, 0, 0, 0, 0, 0, 0,
              (0xA5 + 0x40 + c.toNat + 0x08 + 0 + 0 + 0 + 0 + 0 + 0 + 0 + 0) % 256] := by
  interval_cases c <;> rfl

/-- C1 at the command code 0x93, whose checksum wraps to 0x80. -/
theorem request_frame_layout_witness :
    ((0x90 : Int) ≤ 0x93 ∧ (0x93 : Int) ≤ 0x98) ∧
    selectRequest 0x93
      = some [0xA5, 0x40, 0x93, 0x08, 0, 0, 0, 0, 0, 0, 0, 0, 0x80] :=
  ⟨by decide, request_frame_layout 0x93 (by decide) (by decide)⟩

/-! ## Cell-voltage reassembly -/

/-- C2: with a cell count `n ≤ 16` and the sequence byte of subframe `i` equal to
`i + 1` for every `i < ⌈n / 3⌉`, the decoder of command 0x95 leaves
`cellVoltage[k] = 256 * resp[13 * (k / 3) + 5 + 2 * (k % 3)] + resp[13 * (k / 3) + 6 + 2 * (k % 3)]`
for every `k < n` and leaves every entry at an index `≥ n` as it was. -/
theorem voltage_reassembly_in_order (s : State) (pResponse : Buffer) (n : Nat)
    (hn : n ≤ 16) (hcount : s.g_number_of_battery_cells = (n : Int))
    (hseq : ∀ i, i < (n + 2) / 3 → (pResponse (4 + 13 * i)).val = i + 1) :
    (∀ k, k < n →
        (parseBmsResponseSingleCellVoltage s pResponse).bmsData.cellVoltage k
          = 256 * ((pResponse (13 * (k / 3) + 5 + 2 * (k % 3))).val : ℚ)
              + ((pResponse (13 * (k / 3) + 6 + 2 * (k % 3))).val : ℚ)) ∧
    (∀ k, n ≤ k →
        (parseBmsResponseSingleCellVoltage s pResponse).bmsData.cellVoltage k
          = s.bmsData.cellVoltage k) := by
  have hok : ∀ j, 0 ≤ j → 3 * (j - 0) < n → sequenceOk pResponse j = true := by
    intro j _ hj
    have h1 : j < (n + 2) / 3 := by omega
    have h2 := hseq j h1
    have h3 : 4 + j * MESSAGE_LENGTH = 4 + 13 * j := by simp [MESSAGE_LENGTH]; omega
    simp [sequenceOk, h3, h2]
  have hstores : singleCellVoltageStores (n : Int) pResponse
      = List.enumFrom 0 (List.take n ((List.range 48).map
          (fun k => cellVoltageItem pResponse (13 * (k / 3) + 5 + 2 * (k % 3))))) := by
    rw [voltageStores_eq, matchingVoltageItems, matchingVoltageSubframes, List.range_eq_range',
      take_flatMap_filter (voltageSubframeItems pResponse) 3 (fun _ => rfl) _ 16 0 n hok,
      allVoltageItems_eq]
  have hval : ∀ k, (parseBmsResponseSingleCellVoltage s pResponse).bmsData.cellVoltage k
      = ((List.take n ((List.range 48).map
          (fun k => cellVoltageItem pResponse (13 * (k / 3) + 5 + 2 * (k % 3)))))[k]?).getD
          (s.bmsData.cellVoltage k) := by
    intro k
    simp only [parseBmsResponseSingleCellVoltage, hcount, hstores, applyStores_enumFrom]
    simp
  constructor
  · intro k hk
    have hk48 : k < 48 := by omega
    rw [hval k, List.getElem?_take_of_lt hk]
    simp only [List.getElem?_map, List.getElem?_range hk48, Option.map_some', Option.getD_some]
    rw [cellVoltageItem_eq]
    have e : 13 * (k / 3) + 5 + 2 * (k % 3) + 1 = 13 * (k / 3) + 6 + 2 * (k % 3) := by omega
    rw [e]
  · intro k hk
    rw [hval k]
    have : (List.take n ((List.range 48).map
        (fun k => cellVoltageItem pResponse (13 * (k / 3) + 5 + 2 * (k % 3)))))[k]? = none := by
      apply List.getElem?_eq_none
      simp only [List.length_take, List.length_map, List.length_range]
      omega
    rw [this]
    rfl

/-- C2 on five cells spread over two subframes (3 + 2 items) numbered 1 and 2:
the five entries are 3100..3104 in order and entry 5 is untouched. -/
theorem voltage_reassembly_in_order_witness :
    ((5 : Nat) ≤ 16 ∧ (stateWithCounts 5 4).g_number_of_battery_cells = ((5 : Nat) : Int) ∧
      (∀ i, i < (5 + 2) / 3 → (voltageResponseInOrder (4 + 13 * i)).val = i + 1)) ∧
    (List.range 6).map
        (parseBmsResponseSingleCellVoltage (stateWithCounts 5 4) voltageResponseInOrder).bmsData.cellVoltage
      = [3100, 3101, 3102, 3103, 3104, 0] := by
  have hseq : ∀ i, i < (5 + 2) / 3 → (voltageResponseInOrder (4 + 13 * i)).val = i + 1 := by
    decide
  have h := voltage_reassembly_in_order (stateWithCounts 5 4) voltageResponseInOrder 5
    (by decide) rfl hseq
  refine ⟨⟨by decide, rfl, hseq⟩, ?_⟩
  simp only [List.range, List.range.loop, List.map]
  rw [h.1 0 (by decide), h.1 1 (by decide), h.1 2 (by decide), h.1 3 (by decide),
    h.1 4 (by decide), h.2 5 (by decide)]
  norm_num [voltageResponseInOrder, bufferOfList, byteOfNat, stateWithCounts, bmsDataZero,
    Fin.coe_ofNat_eq_mod]

/-- C3: with a cell count `n ≤ 16`, the stores made by the decoder of command 0x95
are, in order, the first `n` items of the concatenation of the items of the
subframes `i < 16` whose sequence byte is `i + 1` (a subframe with another
sequence byte contributes nothing, and subframe `i + 1` is still expected to
carry `i + 2`); the number of items placed is `min n (3 * m)` for `m` matching
subframes, item `k` lands at index `k`, and the other entries stay as they were. -/
theorem voltage_sequence_mismatch_policy (s : State) (pResponse : Buffer) (n : Nat)
    (_hn : n ≤ 16) (hcount : s.g_number_of_battery_cells = (n : Int)) :
    singleCellVoltageStores s.g_number_of_battery_cells pResponse
        = List.enum (List.take n (matchingVoltageItems pResponse)) ∧
    (singleCellVoltageStores s.g_number_of_battery_cells pResponse).length
        = min n (3 * (matchingVoltageSubframes pResponse).length) ∧
    (∀ k, (parseBmsResponseSingleCellVoltage s pResponse).bmsData.cellVoltage k
        = ((List.take n (matchingVoltageItems pResponse))[k]?).getD (s.bmsData.cellVoltage k)) := by
  have hlen : (matchingVoltageItems pResponse).length
      = 3 * (matchingVoltageSubframes pResponse).length := by
    unfold matchingVoltageItems
    generalize matchingVoltageSubframes pResponse = l
    induction l with
    | nil => rfl
    | cons x l ih => simp [List.flatMap_cons, ih, voltageSubframeItems]; omega
  refine ⟨?_, ?_, ?_⟩
  · rw [hcount, voltageStores_eq]; rfl
  · rw [hcount, voltageStores_eq, List.enumFrom_length, List.length_take, hlen]
  · intro k
    simp only [parseBmsResponseSingleCellVoltage, hcount, voltageStores_eq, applyStores_enumFrom]
    simp

/-- C3 on five cells when the second subframe carries sequence number 3 where 2
was expected: its three items 3103, 3104, 3105 are dropped, only the three items
of the first subframe are placed, and entries 3 and 4 keep their old value. -/
theorem voltage_sequence_mismatch_policy_witness :
    ((5 : Nat) ≤ 16 ∧ (stateWithCounts 5 4).g_number_of_battery_cells = ((5 : Nat) : Int)) ∧
    singleCellVoltageStores (stateWithCounts 5 4).g_number_of_battery_cells voltageResponseSkipped
        = List.enum (List.take 5 (matchingVoltageItems voltageResponseSkipped)) ∧
    List.enum (List.take 5 (matchingVoltageItems voltageResponseSkipped))
        = [(0, 3100), (1, 3101), (2, 3102)] :=
  ⟨⟨by decide, rfl⟩,
   (voltage_sequence_mismatch_policy (stateWithCounts 5 4) voltageResponseSkipped 5
      (by decide) rfl).1,
   by decide⟩



/-! ## Capacity and discovered counts -/

/-- C4, evaluated on the code: with a reported cell count of 17 and six correctly
numbered subframes the decoder of command 0x95 stores at the indices 0..16, so
index 16 (past `G_MAX_NUMBER_OF_CELLS`) is written; with a reported sensor count
of 5 the decoder of command 0x96 stores at the indices 0..4, so index 4 (past
`G_MAX_NUMBER_OF_TEMP_SENSORS`) is written.  Both decoders return the new state
only: no error is signalled. -/
theorem capacity_exceeded_stores_past_the_arrays :
    (singleCellVoltageStores 17 voltageResponseAllFrames).map Prod.fst = List.range 17 ∧
    (stateWithCounts 17 5).bmsData.cellVoltage G_MAX_NUMBER_OF_CELLS = 0 ∧
    (parseBmsResponseSingleCellVoltage (stateWithCounts 17 5)
        voltageResponseAllFrames).bmsData.cellVoltage G_MAX_NUMBER_OF_CELLS = 257 ∧
    (singleCellTempStores 5 tempResponseOneFrame).map Prod.fst = List.range 5 ∧
    (stateWithCounts 17 5).bmsData.temperatures G_MAX_NUMBER_OF_TEMP_SENSORS = 0 ∧
    (parseBmsResponseSingleCellTemp (stateWithCounts 17 5)
        tempResponseOneFrame).bmsData.temperatures G_MAX_NUMBER_OF_TEMP_SENSORS = 24 := by
  decide

/-- C5, evaluated on the code: in the initial state, where both counts are still
-1, the decoder of command 0x95 stores all six items of a two-subframe response
(indices 0..5), and the decoder of command 0x96 stores all seven items of a
one-subframe response (indices 0..6): the test `nRead == count` never holds. -/
theorem stores_before_the_counts_are_learned :
    initialState.g_number_of_battery_cells = -1 ∧
    initialState.g_number_of_temp_sensors = -1 ∧
    singleCellVoltageStores initialState.g_number_of_battery_cells voltageResponseInOrder
      = [(0, 3100), (1, 3101), (2, 3102), (3, 3103), (4, 3104), (5, 3105)] ∧
    (parseBmsResponseSingleCellVoltage initialState voltageResponseInOrder).bmsData.cellVoltage 0
      = 3100 ∧
    singleCellTempStores initialState.g_number_of_temp_sensors tempResponseOneFrame
      = [(0, 20), (1, 21), (2, 22), (3, 23), (4, 24), (5, 25), (6, 26)] ∧
    (parseBmsResponseSingleCellTemp initialState tempResponseOneFrame).bmsData.temperatures 0
      = 20 := by
  decide

/-! ## Temperature reassembly -/

theorem tempFrameItems_eq (pResponse : Buffer) :
    frameItems (cellTempItem pResponse) 1 7 (0 * MESSAGE_LENGTH + 4 + 1)
      = (List.range 7).map (fun j => cellTempItem pResponse (5 + j)) := by
  rfl

theorem tempStores_eq (pResponse : Buffer) (n : Nat) (hn : n ≤ 4)
    (hseq : (pResponse 4).val = 1) :
    singleCellTempStores (n : Int) pResponse
      = List.enumFrom 0 (List.take n
          ((List.range 7).map (fun j => cellTempItem pResponse (5 + j)))) := by
  have hok : sequenceOk pResponse 0 = true := by
    simp [sequenceOk, MESSAGE_LENGTH, hseq]
  unfold singleCellTempStores
  rw [subframes_eq _ _ _ _ _ _ _ _ (Nat.zero_le n)]
  simp only [List.range'_succ, List.filter_cons, hok, if_true, List.flatMap_cons, Nat.sub_zero]
  rw [List.take_append_of_le_length (by rw [frameItems_length]; omega), tempFrameItems_eq]

/-- C6: with a sensor count `n ≤ 4` and the first subframe carrying sequence
byte 1, the decoder of command 0x96 leaves `temperatures[k] = resp[5 + k] - 40`,
an integer between -40 and 215, for every `k < n`, and leaves every entry at an
index `≥ n` as it was. -/
theorem temperature_reassembly (s : State) (pResponse : Buffer) (n : Nat)
    (hn : n ≤ 4) (hcount : s.g_number_of_temp_sensors = (n : Int))
    (hseq : (pResponse 4).val = 1) :
    (∀ k, k < n →
        (parseBmsResponseSingleCellTemp s pResponse).bmsData.temperatures k
            = (((((pResponse (5 + k)).val : Int) - 40 : Int)) : ℚ) ∧
        -40 ≤ ((pResponse (5 + k)).val : Int) - 40 ∧
        ((pResponse (5 + k)).val : Int) - 40 ≤ 215) ∧
    (∀ k, n ≤ k →
        (parseBmsResponseSingleCellTemp s pResponse).bmsData.temperatures k
          = s.bmsData.temperatures k) := by
  have hval : ∀ k, (parseBmsResponseSingleCellTemp s pResponse).bmsData.temperatures k
      = ((List.take n ((List.range 7).map
          (fun j => cellTempItem pResponse (5 + j))))[k]?).getD (s.bmsData.temperatures k) := by
    intro k
    simp only [parseBmsResponseSingleCellTemp, hcount, tempStores_eq pResponse n hn hseq,
      applyStores_enumFrom]
    simp
  constructor
  · intro k hk
    have hk7 : k < 7 := by omega
    have hb := (pResponse (5 + k)).isLt
    refine ⟨?_, by omega, by omega⟩
    rw [hval k, List.getElem?_take_of_lt hk]
    simp only [List.getElem?_map, List.getElem?_range hk7, Option.map_some', Option.getD_some]
    rfl
  · intro k hk
    rw [hval k]
    have : (List.take n ((List.range 7).map
        (fun j => cellTempItem pResponse (5 + j))))[k]? = none := by
      apply List.getElem?_eq_none
      simp only [List.length_take, List.length_map, List.length_range]
      omega
    rw [this]
    rfl

/-- C6 on four sensors and the raw bytes 60, 61, 62, 63: the four entries are
20, 21, 22, 23 degrees and entry 4 is untouched. -/
theorem temperature_reassembly_witness :
    ((4 : Nat) ≤ 4 ∧ (stateWithCounts 16 4).g_number_of_temp_sensors = ((4 : Nat) : Int) ∧
      (tempResponseOneFrame 4).val = 1) ∧
    (List.range 5).map
        (parseBmsResponseSingleCellTemp (stateWithCounts 16 4) tempResponseOneFrame).bmsData.temperatures
      = [20, 21, 22, 23, 0] := by
  have h := temperature_reassembly (stateWithCounts 16 4) tempResponseOneFrame 4
    (by decide) rfl rfl
  refine ⟨⟨by decide, rfl, rfl⟩, ?_⟩
  simp only [List.range, List.range.loop, List.map]
  rw [(h.1 0 (by decide)).1, (h.1 1 (by decide)).1, (h.1 2 (by decide)).1,
    (h.1 3 (by decide)).1, h.2 4 (by decide)]
  norm_num [tempResponseOneFrame, bufferOfList, byteOfNat, stateWithCounts, bmsDataZero,
    Fin.coe_ofNat_eq_mod]


/-! ## Binary32 rounding -/

theorem excessBitsFrom_spec (fuel p : Nat) (h : p < 2 ^ 24 * 2 ^ fuel) :
    p < 2 ^ 24 * 2 ^ excessBitsFrom fuel p ∧
    (excessBitsFrom fuel p ≠ 0 → 2 ^ 23 * 2 ^ excessBitsFrom fuel p ≤ p) := by
  induction fuel generalizing p with
  | zero => simpa [excessBitsFrom] using h
  | succ fuel ih =>
    simp only [excessBitsFrom]
    split_ifs with hp
    · simpa using hp
    · have h2 : p / 2 < 2 ^ 24 * 2 ^ fuel := by
        rw [pow_succ] at h
        omega
      obtain ⟨i1, i2⟩ := ih (p / 2) h2
      refine ⟨?_, fun _ => ?_⟩
      · rw [pow_succ]
        omega
      · rw [pow_succ]
        by_cases he : excessBitsFrom fuel (p / 2) = 0
        · rw [he]
          norm_num at hp ⊢
          omega
        · have := i2 he
          omega

theorem excessBits_spec (p : Nat) :
    p < 2 ^ 24 * 2 ^ excessBits p ∧ (excessBits p ≠ 0 → 2 ^ 23 * 2 ^ excessBits p ≤ p) := by
  apply excessBitsFrom_spec
  have : p < 2 ^ p := Nat.lt_two_pow p
  have : 0 < 2 ^ 24 := by norm_num
  nlinarith

theorem roundSignificand_error (p : Nat) :
    2 ^ 24 * (roundSignificand p - p) ≤ p ∧ 2 ^ 24 * (p - roundSignificand p) ≤ p := by
  obtain ⟨_, h2⟩ := excessBits_spec p
  unfold roundSignificand
  have hD : 0 < 2 ^ excessBits p := by positivity
  have hdm := Nat.div_add_mod p (2 ^ excessBits p)
  have hr := Nat.mod_lt p hD
  have e1 : (p / 2 ^ excessBits p + 1) * 2 ^ excessBits p
      = 2 ^ excessBits p * (p / 2 ^ excessBits p) + 2 ^ excessBits p := by ring
  have e2 : p / 2 ^ excessBits p * 2 ^ excessBits p
      = 2 ^ excessBits p * (p / 2 ^ excessBits p) := by ring
  rw [e1, e2]
  by_cases he : excessBits p = 0
  · rw [he] at hdm hr ⊢
    simp only [pow_zero] at hdm hr ⊢
    split_ifs with hc <;> omega
  · have hb := h2 he
    generalize 2 ^ excessBits p = D at *
    generalize D * (p / D) = X at *
    generalize p % D = r at *
    norm_num at hb ⊢
    split_ifs with hc <;> omega

theorem roundSignificand_tenths (k : Nat) (hk : k < 2 ^ 14) :
    roundSignificand (k * 67108865) = k * 67108864 := by
  obtain ⟨h1, h2⟩ := excessBits_spec (k * 67108865)
  unfold roundSignificand
  generalize excessBits (k * 67108865) = e at *
  by_cases he : e = 0
  · subst he
    simp only [pow_zero, Nat.mod_one, Nat.div_one, mul_one] at h1 ⊢
    split_ifs <;> omega
  · have hb := h2 he
    have he18 : e < 18 := by
      have : 2 ^ e < 2 ^ 18 := by
        norm_num at hk hb ⊢
        omega
      exact (Nat.pow_lt_pow_iff_right (by norm_num)).mp this
    interval_cases e <;> norm_num at h1 hb hk ⊢ <;> split_ifs <;> omega

theorem roundInt_natCast (m : Nat) : roundInt (m : Int) = (roundSignificand m : Int) := by
  unfold roundInt
  rw [if_neg (by omega), Int.natAbs_ofNat]

theorem roundInt_neg (n : Int) : roundInt (-n) = -roundInt n := by
  have h0 : roundSignificand 0 = 0 := by decide
  unfold roundInt
  rw [Int.natAbs_neg]
  rcases lt_trichotomy n 0 with h | h | h
  · rw [if_neg (by omega), if_pos h]; omega
  · subst h; simp [h0]
  · rw [if_pos (by omega), if_neg (by omega)]

theorem timesTenth_neg (n : Int) : timesTenth (-n) = -timesTenth n := by
  unfold timesTenth
  rw [neg_mul, roundInt_neg]
  push_cast
  ring

theorem timesTenth_natCast (m : Nat) :
    timesTenth (m : Int) = (roundSignificand (m * 13421773) : ℚ) / 2 ^ 27 := by
  unfold timesTenth
  have : ((m : Int) * 13421773) = ((m * 13421773 : Nat) : Int) := by push_cast; ring
  rw [this, roundInt_natCast]
  push_cast
  rfl

theorem timesTenth_natCast_error (m : Nat) :
    |timesTenth (m : Int) - (m : ℚ) / 10| ≤ (m : ℚ) / 10 / 2 ^ 23 := by
  rw [timesTenth_natCast]
  obtain ⟨hu, hd⟩ := roundSignificand_error (m * 13421773)
  generalize roundSignificand (m * 13421773) = R at *
  have hA : 16777216 * R ≤ 16777217 * (m * 13421773) := by norm_num at hu; omega
  have hB : 16777215 * (m * 13421773) ≤ 16777216 * R := by norm_num at hd; omega
  have hA' : (16777216 : ℚ) * R ≤ 16777217 * (m * 13421773) := by exact_mod_cast hA
  have hB' : (16777215 : ℚ) * (m * 13421773) ≤ 16777216 * R := by exact_mod_cast hB
  have hm : (0 : ℚ) ≤ m := by positivity
  rw [abs_le]
  constructor
  · norm_num
    linarith
  · norm_num
    linarith

theorem timesTenth_natCast_exact_iff (m : Nat) (hm : m < 81920) :
    timesTenth (m : Int) = (m : ℚ) / 10 ↔ 5 ∣ m := by
  rw [timesTenth_natCast]
  constructor
  · generalize roundSignificand (m * 13421773) = R
    intro h
    have h2 : (10 : ℚ) * (R : ℚ) = (m : ℚ) * 134217728 := by
      field_simp at h
      norm_num at h
      linarith
    have h3 : 10 * R = m * 134217728 := by exact_mod_cast h2
    have h4 : 5 ∣ m * 134217728 := Dvd.intro (2 * R) (by rw [← h3]; ring)
    exact Nat.Coprime.dvd_of_dvd_mul_right (by norm_num) h4
  · intro hd
    obtain ⟨k, hk⟩ := hd
    have hk14 : k < 2 ^ 14 := by norm_num; omega
    have e : m * 13421773 = k * 67108865 := by rw [hk]; ring
    rw [e, roundSignificand_tenths k hk14, hk]
    push_cast
    norm_num
    ring

theorem timesTenth_error (n : Int) :
    |timesTenth n - (n : ℚ) / 10| ≤ |(n : ℚ)| / 10 / 2 ^ 23 := by
  obtain ⟨m, rfl | rfl⟩ := Int.eq_nat_or_neg n
  · have := timesTenth_natCast_error m
    simpa using this
  · have := timesTenth_natCast_error m
    rw [timesTenth_neg]
    push_cast
    rw [show -timesTenth (m : Int) - -(m : ℚ) / 10
          = -(timesTenth (m : Int) - (m : ℚ) / 10) by ring, abs_neg, abs_neg]
    simpa using this

theorem timesTenth_exact_iff (n : Int) (hn : n.natAbs < 81920) :
    timesTenth n = (n : ℚ) / 10 ↔ (5 : Int) ∣ n := by
  obtain ⟨m, rfl | rfl⟩ := Int.eq_nat_or_neg n
  · have key := timesTenth_natCast_exact_iff m (by simpa using hn)
    rw [Int.cast_natCast, key]
    exact (Int.natCast_dvd_natCast (m := 5) (n := m)).symm
  · have key := timesTenth_natCast_exact_iff m (by simpa using hn)
    rw [timesTenth_neg, Int.cast_neg, Int.cast_natCast, dvd_neg]
    rw [show ((5 : Int) ∣ (m : Int)) ↔ 5 ∣ m from Int.natCast_dvd_natCast (m := 5) (n := m),
      ← key]
    constructor
    · intro hh
      linarith
    · intro hh
      linarith

/-! ## Command 0x90 -/

theorem shiftLeft_pair (a b : Byte) :
    ((a.val <<< 8) + b.val) = 256 * a.val + b.val ∧ 256 * a.val + b.val < 65536 := by
  have ha := a.isLt
  have hb := b.isLt
  rw [Nat.shiftLeft_eq]
  omega

/-- C7, counterexample: on the payload `00 01 00 00 75 31 00 03` (raw
values 1, 30001, 3) the decoder of command 0x90 stores the binary32 products
`13421773 / 2^27` for `voltage` and `current` and `5033165 / 2^24` for
`stateOfCharge`, none of which is the tenth of the raw value. -/
theorem soc_decode_not_exact :
    (parseBmsResponseSoc initialState socResponseOddTenths).bmsData.voltage
      = 13421773 / 134217728 ∧
    (parseBmsResponseSoc initialState socResponseOddTenths).bmsData.voltage
      ≠ (256 * ((socResponseOddTenths 4).val : ℚ) + ((socResponseOddTenths 5).val : ℚ)) / 10 ∧
    (parseBmsResponseSoc initialState socResponseOddTenths).bmsData.current
      = 13421773 / 134217728 ∧
    (parseBmsResponseSoc initialState socResponseOddTenths).bmsData.current
      ≠ (256 * ((socResponseOddTenths 8).val : ℚ) + ((socResponseOddTenths 9).val : ℚ)
          - 30000) / 10 ∧
    (parseBmsResponseSoc initialState socResponseOddTenths).bmsData.stateOfCharge
      = 5033165 / 16777216 ∧
    (parseBmsResponseSoc initialState socResponseOddTenths).bmsData.stateOfCharge
      ≠ (256 * ((socResponseOddTenths 10).val : ℚ) + ((socResponseOddTenths 11).val : ℚ))
          / 10 := by
  have hv : (parseBmsResponseSoc initialState socResponseOddTenths).bmsData.voltage
      = 13421773 / 134217728 := by
    have h : roundInt ((((((socResponseOddTenths 4).val <<< 8)
        + (socResponseOddTenths 5).val : Nat) : Int)) * 13421773) = 13421773 := by decide
    simp only [parseBmsResponseSoc, timesTenth, h]
    norm_num
  have hc : (parseBmsResponseSoc initialState socResponseOddTenths).bmsData.current
      = 13421773 / 134217728 := by
    have h : roundInt ((((((socResponseOddTenths 8).val <<< 8)
        + (socResponseOddTenths 9).val : Nat) : Int) - 30000) * 13421773) = 13421773 := by
      decide
    simp only [parseBmsResponseSoc, timesTenth, h]
    norm_num
  have hs : (parseBmsResponseSoc initialState socResponseOddTenths).bmsData.stateOfCharge
      = 5033165 / 16777216 := by
    have h : roundInt ((((((socResponseOddTenths 10).val <<< 8)
        + (socResponseOddTenths 11).val : Nat) : Int)) * 13421773) = 40265320 := by decide
    simp only [parseBmsResponseSoc, timesTenth, h]
    norm_num
  refine ⟨hv, ?_, hc, ?_, hs, ?_⟩
  · rw [hv]
    norm_num [socResponseOddTenths, bufferOfList, byteOfNat, Fin.coe_ofNat_eq_mod]
  · rw [hc]
    norm_num [socResponseOddTenths, bufferOfList, byteOfNat, Fin.coe_ofNat_eq_mod]
  · rw [hs]
    norm_num [socResponseOddTenths, bufferOfList, byteOfNat, Fin.coe_ofNat_eq_mod]

/-- C7, amended: the decoder of command 0x90 sets `voltage`, `current` and
`stateOfCharge` to the binary32 products of the raw values `256 * resp[4] + resp[5]`,
`256 * resp[8] + resp[9] - 30000` and `256 * resp[10] + resp[11]` with `0.1f`, that
is to `raw * 13421773 / 2^27` rounded to 24 significant bits.  Each of them
differs from the tenth of its raw value by at most that tenth times `2^-23`, and
equals it exactly when the raw value is a multiple of 5.  Every other field of
the snapshot and both discovered counts stay as they were. -/
theorem soc_decode_binary32 (s : State) (pResponse : Buffer) :
    ((parseBmsResponseSoc s pResponse).bmsData.voltage
        = (roundSignificand ((256 * (pResponse 4).val + (pResponse 5).val) * 13421773) : ℚ)
            / 2 ^ 27 ∧
      |(parseBmsResponseSoc s pResponse).bmsData.voltage
          - (256 * ((pResponse 4).val : ℚ) + ((pResponse 5).val : ℚ)) / 10|
        ≤ (256 * ((pResponse 4).val : ℚ) + ((pResponse 5).val : ℚ)) / 10 / 2 ^ 23 ∧
      ((parseBmsResponseSoc s pResponse).bmsData.voltage
          = (256 * ((pResponse 4).val : ℚ) + ((pResponse 5).val : ℚ)) / 10
        ↔ 5 ∣ 256 * (pResponse 4).val + (pResponse 5).val)) ∧
    ((parseBmsResponseSoc s pResponse).bmsData.current
        = (roundInt ((256 * ((pResponse 8).val : Int) + ((pResponse 9).val : Int) - 30000)
            * 13421773) : ℚ) / 2 ^ 27 ∧
      |(parseBmsResponseSoc s pResponse).bmsData.current
          - (256 * ((pResponse 8).val : ℚ) + ((pResponse 9).val : ℚ) - 30000) / 10|
        ≤ |256 * ((pResponse 8).val : ℚ) + ((pResponse 9).val : ℚ) - 30000| / 10 / 2 ^ 23 ∧
      ((parseBmsResponseSoc s pResponse).bmsData.current
          = (256 * ((pResponse 8).val : ℚ) + ((pResponse 9).val : ℚ) - 30000) / 10
        ↔ (5 : Int) ∣ 256 * ((pResponse 8).val : Int) + ((pResponse 9).val : Int) - 30000)) ∧
    ((parseBmsResponseSoc s pResponse).bmsData.stateOfCharge
        = (roundSignificand ((256 * (pResponse 10).val + (pResponse 11).val) * 13421773) : ℚ)
            / 2 ^ 27 ∧
      |(parseBmsResponseSoc s pResponse).bmsData.stateOfCharge
          - (256 * ((pResponse 10).val : ℚ) + ((pResponse 11).val : ℚ)) / 10|
        ≤ (256 * ((pResponse 10).val : ℚ) + ((pResponse 11).val : ℚ)) / 10 / 2 ^ 23 ∧
      ((parseBmsResponseSoc s pResponse).bmsData.stateOfCharge
          = (256 * ((pResponse 10).val : ℚ) + ((pResponse 11).val : ℚ)) / 10
        ↔ 5 ∣ 256 * (pResponse 10).val + (pResponse 11).val)) ∧
    (parseBmsResponseSoc s pResponse).bmsData.lineNumber = s.bmsData.lineNumber ∧
    (parseBmsResponseSoc s pResponse).bmsData.dateTime = s.bmsData.dateTime ∧
    (parseBmsResponseSoc s pResponse).bmsData.batteryID = s.bmsData.batteryID ∧
    (parseBmsResponseSoc s pResponse).bmsData.totalCapacity = s.bmsData.totalCapacity ∧
    (parseBmsResponseSoc s pResponse).bmsData.remainingCapacity
      = s.bmsData.remainingCapacity ∧
    (parseBmsResponseSoc s pResponse).bmsData.cellVoltage = s.bmsData.cellVoltage ∧
    (parseBmsResponseSoc s pResponse).bmsData.highestCellVoltage
      = s.bmsData.highestCellVoltage ∧
    (parseBmsResponseSoc s pResponse).bmsData.lowestCellVoltage
      = s.bmsData.lowestCellVoltage ∧
    (parseBmsResponseSoc s pResponse).bmsData.temperatures = s.bmsData.temperatures ∧
    (parseBmsResponseSoc s pResponse).bmsData.chargingDischargingStatus
      = s.bmsData.chargingDischargingStatus ∧
    (parseBmsResponseSoc s pResponse).bmsData.chargingMOSStatus
      = s.bmsData.chargingMOSStatus ∧
    (parseBmsResponseSoc s pResponse).bmsData.dischargingMOSStatus
      = s.bmsData.dischargingMOSStatus ∧
    (parseBmsResponseSoc s pResponse).bmsData.balancingStatus = s.bmsData.balancingStatus ∧
    (parseBmsResponseSoc s pResponse).bmsData.cellBalancingStatus
      = s.bmsData.cellBalancingStatus ∧
    (parseBmsResponseSoc s pResponse).bmsData.alarms = s.bmsData.alarms ∧
    (parseBmsResponseSoc s pResponse).g_number_of_battery_cells
      = s.g_number_of_battery_cells ∧
    (parseBmsResponseSoc s pResponse).g_number_of_temp_sensors
      = s.g_number_of_temp_sensors := by
  have natField : ∀ a b : Byte,
      timesTenth (((a.val <<< 8) + b.val : Nat) : Int)
          = (roundSignificand ((256 * a.val + b.val) * 13421773) : ℚ) / 2 ^ 27 ∧
        |timesTenth (((a.val <<< 8) + b.val : Nat) : Int)
            - (256 * (a.val : ℚ) + (b.val : ℚ)) / 10|
          ≤ (256 * (a.val : ℚ) + (b.val : ℚ)) / 10 / 2 ^ 23 ∧
        (timesTenth (((a.val <<< 8) + b.val : Nat) : Int)
            = (256 * (a.val : ℚ) + (b.val : ℚ)) / 10
          ↔ 5 ∣ 256 * a.val + b.val) := by
    intro a b
    obtain ⟨e, hlt⟩ := shiftLeft_pair a b
    rw [e]
    have hcast : (256 * (a.val : ℚ) + (b.val : ℚ)) = ((256 * a.val + b.val : Nat) : ℚ) := by
      push_cast
      ring
    rw [hcast]
    exact ⟨timesTenth_natCast _, timesTenth_natCast_error _,
      timesTenth_natCast_exact_iff _ (by omega)⟩
  have intField : ∀ a b : Byte,
      timesTenth ((((a.val <<< 8) + b.val : Nat) : Int) - 30000)
          = (roundInt ((256 * (a.val : Int) + (b.val : Int) - 30000) * 13421773) : ℚ) / 2 ^ 27 ∧
        |timesTenth ((((a.val <<< 8) + b.val : Nat) : Int) - 30000)
            - (256 * (a.val : ℚ) + (b.val : ℚ) - 30000) / 10|
          ≤ |256 * (a.val : ℚ) + (b.val : ℚ) - 30000| / 10 / 2 ^ 23 ∧
        (timesTenth ((((a.val <<< 8) + b.val : Nat) : Int) - 30000)
            = (256 * (a.val : ℚ) + (b.val : ℚ) - 30000) / 10
          ↔ (5 : Int) ∣ 256 * (a.val : Int) + (b.val : Int) - 30000) := by
    intro a b
    obtain ⟨e, hlt⟩ := shiftLeft_pair a b
    rw [e]
    have hint : (((256 * a.val + b.val : Nat) : Int) - 30000)
        = 256 * (a.val : Int) + (b.val : Int) - 30000 := by
      push_cast
      ring
    have hcast : (256 * (a.val : ℚ) + (b.val : ℚ) - 30000)
        = ((256 * (a.val : Int) + (b.val : Int) - 30000 : Int) : ℚ) := by
      push_cast
      ring
    rw [hint, hcast]
    exact ⟨rfl, timesTenth_error _, timesTenth_exact_iff _ (by omega)⟩
  exact ⟨natField _ _, intField _ _, natField _ _, rfl, rfl, rfl, rfl, rfl, rfl, rfl, rfl, rfl,
    rfl, rfl, rfl, rfl, rfl, rfl, rfl, rfl⟩

/-- C7 on the payload `00 96 00 00 75 30 27 10`, whose raw values 150, 0 and 10000
are multiples of 5: voltage 15.0 V, current 0.0 A, state of charge 1000.0. -/
theorem soc_decode_binary32_witness :
    (parseBmsResponseSoc initialState socResponse).bmsData.voltage = 15 ∧
    (parseBmsResponseSoc initialState socResponse).bmsData.current = 0 ∧
    (parseBmsResponseSoc initialState socResponse).bmsData.stateOfCharge = 1000 := by
  obtain ⟨⟨_, _, hv⟩, ⟨_, _, hc⟩, ⟨_, _, hs⟩, _⟩ := soc_decode_binary32 initialState socResponse
  rw [hv.mpr (by decide), hc.mpr (by decide), hs.mpr (by decide)]
  norm_num [socResponse, bufferOfList, byteOfNat, Fin.coe_ofNat_eq_mod]

/-! ## Alarms -/

theorem alarmRow_eq (byte : Nat) :
    alarmRow byte
      = [if (byte >>> 0) &&& 1 ≠ 0 then '1' else '0', if (byte >>> 1) &&& 1 ≠ 0 then '1' else '0',
         if (byte >>> 2) &&& 1 ≠ 0 then '1' else '0', if (byte >>> 3) &&& 1 ≠ 0 then '1' else '0',
         if (byte >>> 4) &&& 1 ≠ 0 then '1' else '0', if (byte >>> 5) &&& 1 ≠ 0 then '1' else '0',
         if (byte >>> 6) &&& 1 ≠ 0 then '1' else '0', if (byte >>> 7) &&& 1 ≠ 0 then '1' else '0',
         '\x00'] := by
  rfl

theorem bitChar_eq (byte j : Nat) :
    (if (byte >>> j) &&& 1 ≠ 0 then '1' else '0') = (if Nat.testBit byte j then '1' else '0') := by
  have h : Nat.testBit byte j = (1 &&& byte >>> j != 0) := rfl
  rw [h, Nat.land_comm]
  by_cases hb : 1 &&& byte >>> j = 0 <;> simp [hb]

theorem takeWhile_bitChars (b0 b1 b2 b3 b4 b5 b6 b7 : Bool) :
    List.takeWhile (fun c => c ≠ '\x00')
        [if b0 then '1' else '0', if b1 then '1' else '0', if b2 then '1' else '0',
         if b3 then '1' else '0', if b4 then '1' else '0', if b5 then '1' else '0',
         if b6 then '1' else '0', if b7 then '1' else '0', '\x00']
      = [if b0 then '1' else '0', if b1 then '1' else '0', if b2 then '1' else '0',
         if b3 then '1' else '0', if b4 then '1' else '0', if b5 then '1' else '0',
         if b6 then '1' else '0', if b7 then '1' else '0'] := by
  cases b0 <;> cases b1 <;> cases b2 <;> cases b3 <;> cases b4 <;> cases b5 <;> cases b6 <;>
    cases b7 <;> rfl

theorem strcpy_alarmRow (byte : Nat) :
    (strcpy (alarmRow byte)).data
      = (List.range 8).map (fun j => if Nat.testBit byte j then '1' else '0') := by
  rw [alarmRow_eq]
  simp only [bitChar_eq, strcpy]
  rw [takeWhile_bitChars]
  rfl

/-- C8, counterexample: for the payload byte `0b10110000` the decoder of command
0x98 stores the string "00001101", not "10110000"; its leftmost character is '0'
although bit 7 of the byte is set, and its rightmost character is '1' although
bit 0 is clear. -/
theorem alarm_string_not_msb_first :
    (alarmResponse 4).val = 0b10110000 ∧
    (parseBmsResponseBatteryFailureStatus initialState alarmResponse).bmsData.alarms 0
      = "00001101" ∧
    (parseBmsResponseBatteryFailureStatus initialState alarmResponse).bmsData.alarms 0
      ≠ "10110000" ∧
    Nat.testBit 0b10110000 7 = true ∧
    ((parseBmsResponseBatteryFailureStatus initialState alarmResponse).bmsData.alarms 0).data[0]?
      = some '0' ∧
    Nat.testBit 0b10110000 0 = false ∧
    ((parseBmsResponseBatteryFailureStatus initialState alarmResponse).bmsData.alarms 0).data[7]?
      = some '1' := by
  decide

/-- C8, amended: for every response buffer and every `i < 8` the decoder of
command 0x98 stores in `alarms[i]` a string of eight characters '0'/'1' whose
character at index `j` is bit `j` of the payload byte `resp[4 + i]`: the least
significant bit comes first (index 0 is bit 0, index 7 is bit 7). -/
theorem alarm_string_lsb_first (s : State) (pResponse : Buffer) (i j : Nat)
    (hi : i < 8) (hj : j < 8) :
    ((parseBmsResponseBatteryFailureStatus s pResponse).bmsData.alarms i).length = 8 ∧
    ((parseBmsResponseBatteryFailureStatus s pResponse).bmsData.alarms i).data[j]?
      = some (if Nat.testBit (pResponse (4 + i)).val j then '1' else '0') := by
  have hrow : ((parseBmsResponseBatteryFailureStatus s pResponse).bmsData.alarms i).data
      = (List.range 8).map (fun j => if Nat.testBit (pResponse (4 + i)).val j then '1' else '0') := by
    simp only [parseBmsResponseBatteryFailureStatus, hi, if_true]
    exact strcpy_alarmRow _
  constructor
  · rw [String.length, hrow]; simp
  · rw [hrow, List.getElem?_map, List.getElem?_range hj]; rfl

/-- C8 amended, on the payload byte `0b10110000`: the string is "00001101", and
its character at index 4 is bit 4 of the byte, a '1'. -/
theorem alarm_string_lsb_first_witness :
    ((0 : Nat) < 8 ∧ (4 : Nat) < 8) ∧
    (((parseBmsResponseBatteryFailureStatus initialState alarmResponse).bmsData.alarms 0).length
        = 8 ∧
      ((parseBmsResponseBatteryFailureStatus initialState alarmResponse).bmsData.alarms 0).data[4]?
        = some (if Nat.testBit (alarmResponse (4 + 0)).val 4 then '1' else '0')) ∧
    (if Nat.testBit (alarmResponse (4 + 0)).val 4 then '1' else '0') = '1' :=
  ⟨by decide, alarm_string_lsb_first initialState alarmResponse 0 4 (by decide) (by decide),
   by decide⟩


/-! ## Balancing status -/

theorem balancingLoop_eq (pResponse : Buffer) (m : Nat) (isBalancing : Nat)
    (cellBalancingStatus : Nat → Int) (hb : isBalancing ≤ 1) :
    ((balancingLoop pResponse m (isBalancing, cellBalancingStatus)).1 ≤ 1) ∧
    ((balancingLoop pResponse m (isBalancing, cellBalancingStatus)).1 = 1 ↔
      (isBalancing = 1 ∨ ∃ i, i < m ∧ (pResponse (4 + i)).val ≠ 0)) ∧
    (∀ k, (balancingLoop pResponse m (isBalancing, cellBalancingStatus)).2 k
      = if k < m then ((pResponse (4 + k)).val : Int) else cellBalancingStatus k) := by
  induction m generalizing isBalancing cellBalancingStatus with
  | zero => simp [balancingLoop, hb]
  | succ m ih =>
    have hb2 : (if isBalancing ≠ 0 ∨ (pResponse (4 + m)).val ≠ 0 then 1 else 0) ≤ 1 := by
      split <;> omega
    obtain ⟨h1, h2, h3⟩ := ih (if isBalancing ≠ 0 ∨ (pResponse (4 + m)).val ≠ 0 then 1 else 0)
      (Function.update cellBalancingStatus m ((pResponse (4 + m)).val : Int)) hb2
    refine ⟨h1, ?_, ?_⟩
    · rw [balancingLoop, h2]
      constructor
      · rintro (h | ⟨i, hi, hne⟩)
        · by_cases hc : isBalancing ≠ 0 ∨ (pResponse (4 + m)).val ≠ 0
          · rcases hc with hc | hc
            · left; omega
            · right; exact ⟨m, by omega, hc⟩
          · simp [hc] at h
        · right; exact ⟨i, by omega, hne⟩
      · rintro (h | ⟨i, hi, hne⟩)
        · left
          have : isBalancing ≠ 0 := by omega
          simp [this]
        · by_cases him : i = m
          · subst him
            left
            simp [hne]
          · right; exact ⟨i, by omega, hne⟩
    · intro k
      rw [balancingLoop, h3]
      by_cases hk : k < m
      · have : k < m + 1 := by omega
        simp [hk, this]
      · by_cases hkm : k = m
        · subst hkm
          simp
        · have : ¬ k < m + 1 := by omega
          simp [hk, this, Function.update_noteq hkm]

/-- C9: with a cell count `n ≤ 16` the decoder of command 0x97 sets
`cellBalancingStatus[i] = resp[4 + i]` for every `i < n` (offset `i` to index `i`,
not reversed), leaves the entries at an index `≥ n` as they were, and sets
`balancingStatus` to 1 if some `resp[4 + i]` with `i < n` is non-zero and to 0
otherwise. -/
theorem balancing_decode (s : State) (pResponse : Buffer) (n : Nat)
    (_hn : n ≤ 16) (hcount : s.g_number_of_battery_cells = (n : Int)) :
    (∀ i, i < n →
      (parseBmsResponseSingleCellBalancingStatus s pResponse).bmsData.cellBalancingStatus i
        = ((pResponse (4 + i)).val : Int)) ∧
    (∀ i, n ≤ i →
      (parseBmsResponseSingleCellBalancingStatus s pResponse).bmsData.cellBalancingStatus i
        = s.bmsData.cellBalancingStatus i) ∧
    ((∃ i, i < n ∧ (pResponse (4 + i)).val ≠ 0) →
      (parseBmsResponseSingleCellBalancingStatus s pResponse).bmsData.balancingStatus = 1) ∧
    ((∀ i, i < n → (pResponse (4 + i)).val = 0) →
      (parseBmsResponseSingleCellBalancingStatus s pResponse).bmsData.balancingStatus = 0) := by
  obtain ⟨h1, h2, h3⟩ := balancingLoop_eq pResponse n 0 s.bmsData.cellBalancingStatus
    (by decide)
  have hto : s.g_number_of_battery_cells.toNat = n := by rw [hcount]; rfl
  refine ⟨?_, ?_, ?_, ?_⟩
  · intro i hi
    simp only [parseBmsResponseSingleCellBalancingStatus, hto, h3, hi, if_true]
  · intro i hi
    have : ¬ i < n := by omega
    simp only [parseBmsResponseSingleCellBalancingStatus, hto, h3, this, if_false]
  · intro hex
    have := h2.mpr (Or.inr hex)
    simp only [parseBmsResponseSingleCellBalancingStatus, hto, this]
    rfl
  · intro hall
    have hne : ¬ ((balancingLoop pResponse n (0, s.bmsData.cellBalancingStatus)).1 = 1) := by
      rw [h2]
      rintro (h | ⟨i, hi, hne⟩)
      · omega
      · exact hne (hall i hi)
    have h0 : (balancingLoop pResponse n (0, s.bmsData.cellBalancingStatus)).1 = 0 := by omega
    simp only [parseBmsResponseSingleCellBalancingStatus, hto, h0]
    rfl

/-- C9 on four cells and the payload `00 01 00 01`: the four entries are
0, 1, 0, 1, entry 4 keeps its old value although the payload goes on with `01`,
and `balancingStatus` is 1. -/
theorem balancing_decode_witness :
    ((4 : Nat) ≤ 16 ∧ (stateWithCounts 4 4).g_number_of_battery_cells = ((4 : Nat) : Int)) ∧
    (List.range 5).map
        (parseBmsResponseSingleCellBalancingStatus (stateWithCounts 4 4)
          balancingResponse).bmsData.cellBalancingStatus
      = [0, 1, 0, 1, 0] ∧
    (parseBmsResponseSingleCellBalancingStatus (stateWithCounts 4 4)
        balancingResponse).bmsData.balancingStatus = 1 := by
  have h := balancing_decode (stateWithCounts 4 4) balancingResponse 4 (by decide) rfl
  refine ⟨⟨by decide, rfl⟩, ?_, h.2.2.1 ⟨1, by decide, by decide⟩⟩
  simp only [List.range, List.range.loop, List.map]
  rw [h.1 0 (by decide), h.1 1 (by decide), h.1 2 (by decide), h.1 3 (by decide),
    h.2.1 4 (by decide)]
  decide

/-! ## Remaining capacity -/

/-- C10, evaluated on the code: for the capacity bytes `80 00 00 00` the decoder
of command 0x93 stores the three status bytes as they are, but
`remainingCapacity` becomes -2147483648, not the unsigned big-endian value
`2^24 * 0x80 = 2147483648`. -/
theorem remaining_capacity_negative_at_high_bit :
    (mosResponseHighBit 8).val = 0x80 ∧
    (parseBmsResponseChargeDischargeMosStatus initialState
        mosResponseHighBit).bmsData.chargingDischargingStatus = 1 ∧
    (parseBmsResponseChargeDischargeMosStatus initialState
        mosResponseHighBit).bmsData.chargingMOSStatus = 1 ∧
    (parseBmsResponseChargeDischargeMosStatus initialState
        mosResponseHighBit).bmsData.dischargingMOSStatus = 1 ∧
    (parseBmsResponseChargeDischargeMosStatus initialState
        mosResponseHighBit).bmsData.remainingCapacity = -2147483648 ∧
    (parseBmsResponseChargeDischargeMosStatus initialState
        mosResponseHighBit).bmsData.remainingCapacity
      ≠ ((2 ^ 24 * (mosResponseHighBit 8).val + 2 ^ 16 * (mosResponseHighBit 9).val
          + 2 ^ 8 * (mosResponseHighBit 10).val + (mosResponseHighBit 11).val : Nat) : ℚ) := by
  decide

/-! ## Status information, extreme voltages and temperatures -/

/-- C11: the decoder of command 0x94 sets `g_number_of_battery_cells = resp[4]` and
`g_number_of_temp_sensors = resp[5]`, reads the charger status `resp[6]`, the
load status `resp[7]` and the io byte `s = resp[8]`, and splits `s` into
`DI1..DI4` = bits 0..3 and `DO1..DO4` = bits 4..7, each 0 or 1, with
`DI1 + 2 DI2 + 4 DI3 + 8 DI4 + 16 DO1 + 32 DO2 + 64 DO3 + 128 DO4 = s`. -/
theorem status_info_decode (s : State) (pResponse : Buffer) :
    (parseBmsResponseStatusInfo1 s pResponse).g_number_of_battery_cells
      = ((pResponse 4).val : Int) ∧
    (parseBmsResponseStatusInfo1 s pResponse).g_number_of_temp_sensors
      = ((pResponse 5).val : Int) ∧
    (statusInfo1 pResponse).charger_status = ((pResponse 6).val : Int) ∧
    (statusInfo1 pResponse).load_status = ((pResponse 7).val : Int) ∧
    (statusInfo1 pResponse).states = ((pResponse 8).val : Int) ∧
    (statusInfo1 pResponse).DI1_state = (((pResponse 8).val / 2 ^ 0 % 2 : Nat) : Int) ∧
    (statusInfo1 pResponse).DI2_state = (((pResponse 8).val / 2 ^ 1 % 2 : Nat) : Int) ∧
    (statusInfo1 pResponse).DI3_state = (((pResponse 8).val / 2 ^ 2 % 2 : Nat) : Int) ∧
    (statusInfo1 pResponse).DI4_state = (((pResponse 8).val / 2 ^ 3 % 2 : Nat) : Int) ∧
    (statusInfo1 pResponse).DO1_state = (((pResponse 8).val / 2 ^ 4 % 2 : Nat) : Int) ∧
    (statusInfo1 pResponse).DO2_state = (((pResponse 8).val / 2 ^ 5 % 2 : Nat) : Int) ∧
    (statusInfo1 pResponse).DO3_state = (((pResponse 8).val / 2 ^ 6 % 2 : Nat) : Int) ∧
    (statusInfo1 pResponse).DO4_state = (((pResponse 8).val / 2 ^ 7 % 2 : Nat) : Int) ∧
    (statusInfo1 pResponse).DI1_state + 2 * (statusInfo1 pResponse).DI2_state
        + 4 * (statusInfo1 pResponse).DI3_state + 8 * (statusInfo1 pResponse).DI4_state
        + 16 * (statusInfo1 pResponse).DO1_state + 32 * (statusInfo1 pResponse).DO2_state
        + 64 * (statusInfo1 pResponse).DO3_state + 128 * (statusInfo1 pResponse).DO4_state
      = (statusInfo1 pResponse).states := by
  have hb := (pResponse 8).isLt
  simp only [parseBmsResponseStatusInfo1, statusInfo1, Nat.shiftRight_eq_div_pow,
    Nat.and_one_is_mod, true_and]
  norm_num
  omega

/-- C11 on the io byte `0b10100101`, with 7 cells and 3 sensors announced: the
inputs are 1, 0, 1, 0 and the outputs 0, 1, 0, 1. -/
theorem status_info_decode_witness :
    (parseBmsResponseStatusInfo1 initialState statusInfoResponse).g_number_of_battery_cells = 7 ∧
    (parseBmsResponseStatusInfo1 initialState statusInfoResponse).g_number_of_temp_sensors = 3 ∧
    [(statusInfo1 statusInfoResponse).DI1_state, (statusInfo1 statusInfoResponse).DI2_state,
     (statusInfo1 statusInfoResponse).DI3_state, (statusInfo1 statusInfoResponse).DI4_state,
     (statusInfo1 statusInfoResponse).DO1_state, (statusInfo1 statusInfoResponse).DO2_state,
     (statusInfo1 statusInfoResponse).DO3_state, (statusInfo1 statusInfoResponse).DO4_state]
      = [1, 0, 1, 0, 0, 1, 0, 1] := by
  obtain ⟨h1, h2, _, _, _, d1, d2, d3, d4, o1, o2, o3, o4, _⟩ :=
    status_info_decode initialState statusInfoResponse
  rw [h1, h2, d1, d2, d3, d4, o1, o2, o3, o4]
  decide

/-- C12: the decoder of command 0x91 sets `highestCellVoltage = 256 * resp[4] + resp[5]`
and `lowestCellVoltage = 256 * resp[7] + resp[8]`; the two cell numbers are
`resp[6]` and `resp[9]` and stay locals; every other field of the snapshot and
both discovered counts are left as they were. -/
theorem highest_lowest_voltage_decode (s : State) (pResponse : Buffer) :
    (parseBmsResponseHighestLowestVoltage s pResponse).bmsData.highestCellVoltage
      = 256 * ((pResponse 4).val : ℚ) + ((pResponse 5).val : ℚ) ∧
    (parseBmsResponseHighestLowestVoltage s pResponse).bmsData.lowestCellVoltage
      = 256 * ((pResponse 7).val : ℚ) + ((pResponse 8).val : ℚ) ∧
    (highestLowestVoltage pResponse).highest_voltage_cell_number = ((pResponse 6).val : Int) ∧
    (highestLowestVoltage pResponse).lowest_voltage_cell_number = ((pResponse 9).val : Int) ∧
    parseBmsResponseHighestLowestVoltage s pResponse
      = { s with bmsData :=
            { s.bmsData with
              highestCellVoltage :=
                (parseBmsResponseHighestLowestVoltage s pResponse).bmsData.highestCellVoltage,
              lowestCellVoltage :=
                (parseBmsResponseHighestLowestVoltage s pResponse).bmsData.lowestCellVoltage } } ∧
    (parseBmsResponseHighestLowestVoltage s pResponse).bmsData.lineNumber
      = s.bmsData.lineNumber ∧
    (parseBmsResponseHighestLowestVoltage s pResponse).bmsData.dateTime = s.bmsData.dateTime ∧
    (parseBmsResponseHighestLowestVoltage s pResponse).bmsData.batteryID
      = s.bmsData.batteryID ∧
    (parseBmsResponseHighestLowestVoltage s pResponse).bmsData.current = s.bmsData.current ∧
    (parseBmsResponseHighestLowestVoltage s pResponse).bmsData.voltage = s.bmsData.voltage ∧
    (parseBmsResponseHighestLowestVoltage s pResponse).bmsData.stateOfCharge
      = s.bmsData.stateOfCharge ∧
    (parseBmsResponseHighestLowestVoltage s pResponse).bmsData.totalCapacity
      = s.bmsData.totalCapacity ∧
    (parseBmsResponseHighestLowestVoltage s pResponse).bmsData.remainingCapacity
      = s.bmsData.remainingCapacity ∧
    (parseBmsResponseHighestLowestVoltage s pResponse).bmsData.cellVoltage
      = s.bmsData.cellVoltage ∧
    (parseBmsResponseHighestLowestVoltage s pResponse).bmsData.temperatures
      = s.bmsData.temperatures ∧
    (parseBmsResponseHighestLowestVoltage s pResponse).bmsData.chargingDischargingStatus
      = s.bmsData.chargingDischargingStatus ∧
    (parseBmsResponseHighestLowestVoltage s pResponse).bmsData.chargingMOSStatus
      = s.bmsData.chargingMOSStatus ∧
    (parseBmsResponseHighestLowestVoltage s pResponse).bmsData.dischargingMOSStatus
      = s.bmsData.dischargingMOSStatus ∧
    (parseBmsResponseHighestLowestVoltage s pResponse).bmsData.balancingStatus
      = s.bmsData.balancingStatus ∧
    (parseBmsResponseHighestLowestVoltage s pResponse).bmsData.cellBalancingStatus
      = s.bmsData.cellBalancingStatus ∧
    (parseBmsResponseHighestLowestVoltage s pResponse).bmsData.alarms = s.bmsData.alarms ∧
    (parseBmsResponseHighestLowestVoltage s pResponse).g_number_of_battery_cells
      = s.g_number_of_battery_cells ∧
    (parseBmsResponseHighestLowestVoltage s pResponse).g_number_of_temp_sensors
      = s.g_number_of_temp_sensors := by
  refine ⟨?_, ?_, rfl, rfl, rfl, rfl, rfl, rfl, rfl, rfl, rfl, rfl, rfl, rfl, rfl, rfl, rfl, rfl,
    rfl, rfl, rfl, rfl, rfl⟩
  · simp only [parseBmsResponseHighestLowestVoltage, highestLowestVoltage, Nat.shiftLeft_eq]
    push_cast
    ring
  · simp only [parseBmsResponseHighestLowestVoltage, highestLowestVoltage, Nat.shiftLeft_eq]
    push_cast
    ring

/-- C12 on the payload `0C E4 02 0C 1C 05`: highest 3300 mV, lowest 3100 mV. -/
theorem highest_lowest_voltage_decode_witness :
    (parseBmsResponseHighestLowestVoltage initialState
        highestLowestResponse).bmsData.highestCellVoltage = 3300 ∧
    (parseBmsResponseHighestLowestVoltage initialState
        highestLowestResponse).bmsData.lowestCellVoltage = 3100 := by
  obtain ⟨hh, hl, _⟩ := highest_lowest_voltage_decode initialState highestLowestResponse
  rw [hh, hl]
  norm_num [highestLowestResponse, bufferOfList, byteOfNat, Fin.coe_ofNat_eq_mod]

/-- C13: the decoder of command 0x92 computes the maximum temperature
`resp[4] - 40` and the minimum temperature `resp[6] - 40`, integers between -40
and 215, and leaves the snapshot and both counts as they were. -/
theorem max_min_temp_decode (s : State) (pResponse : Buffer) :
    (maxMinTemp pResponse).max_temp = (((((pResponse 4).val : Int) - 40 : Int)) : ℚ) ∧
    (-40 ≤ ((pResponse 4).val : Int) - 40 ∧ ((pResponse 4).val : Int) - 40 ≤ 215) ∧
    (maxMinTemp pResponse).min_temp = (((((pResponse 6).val : Int) - 40 : Int)) : ℚ) ∧
    (-40 ≤ ((pResponse 6).val : Int) - 40 ∧ ((pResponse 6).val : Int) - 40 ≤ 215) ∧
    parseBmsResponseMaxMinTemp s pResponse = s := by
  have h4 := (pResponse 4).isLt
  have h6 := (pResponse 6).isLt
  exact ⟨rfl, ⟨by omega, by omega⟩, rfl, ⟨by omega, by omega⟩, rfl⟩

/-- C13 on the raw bytes `0x28` and `0x00`: 0 degrees and -40 degrees. -/
theorem max_min_temp_decode_witness :
    (maxMinTempResponse 4).val = 0x28 ∧ (maxMinTemp maxMinTempResponse).max_temp = 0 ∧
    (maxMinTempResponse 6).val = 0x00 ∧ (maxMinTemp maxMinTempResponse).min_temp = -40 := by
  obtain ⟨hmax, _, hmin, _, _⟩ := max_min_temp_decode initialState maxMinTempResponse
  refine ⟨rfl, ?_, rfl, ?_⟩
  · rw [hmax]; decide
  · rw [hmin]; decide


/-! ## `getBMSData` -/

/-- C14, evaluated on the code: `getBMSData` decodes whatever the buffer holds.  A
status-info answer under the sync byte `00` and the address `02` changes both
counts from -1 to 7 and 3; after a failed read the stale bytes of a 0x93 answer
change the three status fields from 0 to 1; an answer of three bytes `A5 01 94`
is decoded from the stale rest of the buffer and sets the counts to 9 and 2. -/
theorem malformed_response_is_decoded :
    ((badFrameTrip.pResponse 0).val ≠ 0xA5 ∧ (badFrameTrip.pResponse 1).val ≠ 0x01) ∧
    selectRequest READ_BAT_STATUS_INFO_1 = some REQUEST_STATUS_INFO_1 ∧
    (initialState.g_number_of_battery_cells = -1 ∧ initialState.g_number_of_temp_sensors = -1) ∧
    ((getBMSData initialState (HANDLE.comPort 1) READ_BAT_STATUS_INFO_1
        badFrameTrip).state.g_number_of_battery_cells = 7 ∧
     (getBMSData initialState (HANDLE.comPort 1) READ_BAT_STATUS_INFO_1
        badFrameTrip).state.g_number_of_temp_sensors = 3) ∧
    failedReadTrip.readStatus = false ∧
    initialState.bmsData.chargingMOSStatus = 0 ∧
    (getBMSData initialState (HANDLE.comPort 1) READ_BAT_CHARGE_DISCHARGE_MOS_STATUS
        failedReadTrip).state.bmsData.chargingMOSStatus = 1 ∧
    shortReadTrip.bytesRead < 13 ∧
    ((getBMSData initialState (HANDLE.comPort 1) READ_BAT_STATUS_INFO_1
        shortReadTrip).state.g_number_of_battery_cells = 9 ∧
     (getBMSData initialState (HANDLE.comPort 1) READ_BAT_STATUS_INFO_1
        shortReadTrip).state.g_number_of_temp_sensors = 2) := by
  decide

/-- C15: a response whose command byte `resp[2]` lies outside 0x90..0x98 leaves the
snapshot and both counts as they were, and `getBMSData` returns 0; and for a
request type outside 0x90..0x98 `getBMSData` returns 0 with the globals
untouched and without any call on the port. -/
theorem unknown_command_no_op (s : State) (hComm : HANDLE) (requestType : Int) (t : RoundTrip) :
    (((t.pResponse 2).val < 0x90 ∨ 0x98 < (t.pResponse 2).val) →
        (getBMSData s hComm requestType t).state = s ∧
        (getBMSData s hComm requestType t).returned = some 0) ∧
    ((requestType < 0x90 ∨ 0x98 < requestType) →
        getBMSData s hComm requestType t = { state := s, events := [], returned := some 0 }) := by
  constructor
  · intro hcmd
    have hd : decodeResponse s t.pResponse = (s, some 0) := by
      have h0 : ¬ (((t.pResponse 2).val : Int) = 0x90) := by omega
      have h1 : ¬ (((t.pResponse 2).val : Int) = 0x91) := by omega
      have h2 : ¬ (((t.pResponse 2).val : Int) = 0x92) := by omega
      have h3 : ¬ (((t.pResponse 2).val : Int) = 0x93) := by omega
      have h4 : ¬ (((t.pResponse 2).val : Int) = 0x94) := by omega
      have h5 : ¬ (((t.pResponse 2).val : Int) = 0x95) := by omega
      have h6 : ¬ (((t.pResponse 2).val : Int) = 0x96) := by omega
      have h7 : ¬ (((t.pResponse 2).val : Int) = 0x97) := by omega
      have h8 : ¬ (((t.pResponse 2).val : Int) = 0x98) := by omega
      simp only [decodeResponse, READ_BAT_TOTAL_VOLTAGE_CURRENT_SOC,
        READ_BAT_HIGHEST_LOWEST_VOLTAGE, READ_BAT_MAX_MIN_TEMP,
        READ_BAT_CHARGE_DISCHARGE_MOS_STATUS, READ_BAT_STATUS_INFO_1,
        READ_BAT_SINGLE_CELL_VOLTAGE, READ_BAT_SINGLE_CELL_TEMP,
        READ_BAT_SINGLE_CELL_BALANCE_STATUS, READ_BAT_SINGLE_CELL_FAILURE_STATUS,
        h0, h1, h2, h3, h4, h5, h6, h7, h8, if_false]
    unfold getBMSData
    cases selectRequest requestType with
    | none => exact ⟨rfl, rfl⟩
    | some pRequest => simp only [hd, and_self]
  · intro hreq
    have hsel : selectRequest requestType = none := by
      have h0 : ¬ (requestType = 0x90) := by omega
      have h1 : ¬ (requestType = 0x91) := by omega
      have h2 : ¬ (requestType = 0x92) := by omega
      have h3 : ¬ (requestType = 0x93) := by omega
      have h4 : ¬ (requestType = 0x94) := by omega
      have h5 : ¬ (requestType = 0x95) := by omega
      have h6 : ¬ (requestType = 0x96) := by omega
      have h7 : ¬ (requestType = 0x97) := by omega
      have h8 : ¬ (requestType = 0x98) := by omega
      simp only [selectRequest, READ_BAT_TOTAL_VOLTAGE_CURRENT_SOC,
        READ_BAT_HIGHEST_LOWEST_VOLTAGE, READ_BAT_MAX_MIN_TEMP,
        READ_BAT_CHARGE_DISCHARGE_MOS_STATUS, READ_BAT_STATUS_INFO_1,
        READ_BAT_SINGLE_CELL_VOLTAGE, READ_BAT_SINGLE_CELL_TEMP,
        READ_BAT_SINGLE_CELL_BALANCE_STATUS, READ_BAT_SINGLE_CELL_FAILURE_STATUS,
        h0, h1, h2, h3, h4, h5, h6, h7, h8, if_false]
    unfold getBMSData
    rw [hsel]

/-- C15 on a response with the command byte `0x99` to the request 0x90, and on the
request type `0x99`. -/
theorem unknown_command_no_op_witness :
    (((unknownCommandTrip.pResponse 2).val < 0x90 ∨ 0x98 < (unknownCommandTrip.pResponse 2).val) ∧
      (getBMSData initialState (HANDLE.comPort 1) 0x90 unknownCommandTrip).state = initialState ∧
      (getBMSData initialState (HANDLE.comPort 1) 0x90 unknownCommandTrip).returned = some 0 ∧
      (getBMSData initialState (HANDLE.comPort 1) 0x90 unknownCommandTrip).events
        = [Event.writeFile (HANDLE.comPort 1) REQUEST_TOTAL_VOLTAGE_CURRENT_SOC,
           Event.readFile (HANDLE.comPort 1)]) ∧
    ((((0x99 : Int) < 0x90 ∨ (0x98 : Int) < 0x99)) ∧
      getBMSData initialState (HANDLE.comPort 1) 0x99 unknownCommandTrip
        = { state := initialState, events := [], returned := some 0 }) := by
  have h := unknown_command_no_op initialState (HANDLE.comPort 1) 0x90 unknownCommandTrip
  have h2 := unknown_command_no_op initialState (HANDLE.comPort 1) 0x99 unknownCommandTrip
  have hc : (unknownCommandTrip.pResponse 2).val < 0x90 ∨
      0x98 < (unknownCommandTrip.pResponse 2).val := by decide
  exact ⟨⟨hc, (h.1 hc).1, (h.1 hc).2, rfl⟩, ⟨by decide, h2.2 (by decide)⟩⟩

/-! ## Discovery -/

theorem probe_probedPorts (c : Candidate) (port : Int) :
    probedPorts (probe c port).2 = [port] := by
  unfold probe connectToCOMPort probedPorts
  split_ifs <;> simp_all

theorem probe_count_close_other (c : Candidate) (port q : Int) (h : q ≠ port) :
    (probe c port).2.count (Event.closeHandle (HANDLE.comPort q)) = 0 := by
  have hne : ¬ (port = q) := fun e => h e.symm
  unfold probe connectToCOMPort
  split_ifs <;> simp_all [List.count_cons, List.count_nil]

theorem probe_count_close_self (c : Candidate) (port : Int) :
    (probe c port).2.count (Event.closeHandle (HANDLE.comPort port))
      = if c.createFile = true ∧ (probe c port).1 ≠ ProbeOutcome.accepted then 1 else 0 := by
  unfold probe connectToCOMPort
  split_ifs <;> simp_all [List.count_cons, List.count_nil]

/-- The probe of a candidate that opens and whose write and read succeed. -/
theorem probe_of_connects (c : Candidate) (port : Int) (hc : connects c)
    (hw : c.writeFile = true) (hr : c.readFile = true) :
    probe c port
      = if (c.buffer 0).val = 0xA5 ∧ (c.buffer 1).val = 0x01 ∧ (c.buffer 2).val = 0x90 then
          (ProbeOutcome.accepted,
            [Event.createFile port, Event.writeFile (HANDLE.comPort port) queryData,
             Event.readFile (HANDLE.comPort port)])
        else
          (ProbeOutcome.rejected,
            [Event.createFile port, Event.writeFile (HANDLE.comPort port) queryData,
             Event.readFile (HANDLE.comPort port), Event.closeHandle (HANDLE.comPort port)]) := by
  obtain ⟨h1, h2, h3, h4⟩ := hc
  simp [probe, connectToCOMPort, h1, h2, h3, h4, hw, hr]

/-- The outcome of the probe of a candidate that opens and whose write and read
succeed is decided by the first three bytes of the buffer alone. -/
theorem probe_accepted_iff (c : Candidate) (port : Int) (hc : connects c)
    (hw : c.writeFile = true) (hr : c.readFile = true) :
    (probe c port).1 = ProbeOutcome.accepted ↔
      ((c.buffer 0).val = 0xA5 ∧ (c.buffer 1).val = 0x01 ∧ (c.buffer 2).val = 0x90) := by
  rw [probe_of_connects c port hc hw hr]
  split_ifs with hb
  · simp [hb]
  · simp [hb]

theorem probe_rejected_of_not_accepted (c : Candidate) (port : Int) (hc : connects c)
    (hw : c.writeFile = true) (hr : c.readFile = true)
    (hn : (probe c port).1 ≠ ProbeOutcome.accepted) :
    (probe c port).1 = ProbeOutcome.rejected := by
  rw [probe_of_connects c port hc hw hr] at hn ⊢
  split_ifs at hn ⊢ with hb
  · exact absurd rfl hn
  · rfl

theorem scanPorts_succ_accepted (env : Int → Candidate) (fuel i : Nat)
    (h : accepts env i = true) :
    scanPorts env (fuel + 1) i
      = { returned := some (HANDLE.comPort (i : Int)),
          events := (probe (env (i : Int)) (i : Int)).2 } := by
  have h' : (probe (env (i : Int)) (i : Int)).1 = ProbeOutcome.accepted := by
    simpa [accepts] using h
  simp only [scanPorts, h', if_true]

theorem scanPorts_succ_not_accepted (env : Int → Candidate) (fuel i : Nat)
    (h : accepts env i = false) :
    scanPorts env (fuel + 1) i
      = { returned := (scanPorts env fuel (i + 1)).returned,
          events := (probe (env (i : Int)) (i : Int)).2 ++ (scanPorts env fuel (i + 1)).events } := by
  have h' : ¬ ((probe (env (i : Int)) (i : Int)).1 = ProbeOutcome.accepted) := by
    simpa [accepts] using h
  simp only [scanPorts, h', if_false]

/-- A handle returned by the scan is the handle of an accepted candidate inside
the range scanned. -/
theorem scanPorts_returned (env : Int → Candidate) (fuel i : Nat) (h : HANDLE)
    (hret : (scanPorts env fuel i).returned = some h) :
    ∃ k : Nat, h = HANDLE.comPort (k : Int) ∧ i ≤ k ∧ k < i + fuel ∧ accepts env k = true := by
  induction fuel generalizing i with
  | zero => simp [scanPorts] at hret
  | succ fuel ih =>
    cases hacc : accepts env i with
    | true =>
      rw [scanPorts_succ_accepted env fuel i hacc] at hret
      simp only [Option.some.injEq] at hret
      exact ⟨i, hret.symm, Nat.le_refl i, by omega, hacc⟩
    | false =>
      rw [scanPorts_succ_not_accepted env fuel i hacc] at hret
      obtain ⟨k, hk, h1, h2, h3⟩ := ih (i + 1) hret
      exact ⟨k, hk, by omega, by omega, h3⟩

/-- When no candidate of the range is accepted the scan ends without a handle. -/
theorem scanPorts_none (env : Int → Candidate) (fuel i : Nat)
    (hno : ∀ j, i ≤ j → j < i + fuel → accepts env j = false) :
    (scanPorts env fuel i).returned = none := by
  cases hret : (scanPorts env fuel i).returned with
  | none => rfl
  | some h =>
    obtain ⟨k, _, h1, h2, h3⟩ := scanPorts_returned env fuel i h hret
    rw [hno k h1 h2] at h3
    exact absurd h3 (by decide)

/-- The scan up to its first accepted candidate `k`: the handle of `k` is
returned, the ports probed are `i, i + 1, ..., k`, and a port `q` is closed once
if it lies before `k` and `CreateFile` succeeded on it, and not at all otherwise. -/
theorem scanPorts_found (env : Int → Candidate) (fuel i k : Nat) (hik : i ≤ k)
    (hk : k < i + fuel) (hacc : accepts env k = true)
    (hbefore : ∀ j, i ≤ j → j < k → accepts env j = false) :
    (scanPorts env fuel i).returned = some (HANDLE.comPort (k : Int)) ∧
    probedPorts (scanPorts env fuel i).events
      = (List.range' i (k + 1 - i)).map (fun j => (j : Int)) ∧
    ∀ q : Nat, (scanPorts env fuel i).events.count (Event.closeHandle (HANDLE.comPort (q : Int)))
      = if i ≤ q ∧ q < k ∧ (env (q : Int)).createFile = true then 1 else 0 := by
  induction fuel generalizing i with
  | zero => omega
  | succ fuel ih =>
    by_cases hki : k = i
    · subst hki
      rw [scanPorts_succ_accepted env fuel k hacc]
      have hacc' : (probe (env (k : Int)) (k : Int)).1 = ProbeOutcome.accepted := by
        simpa [accepts] using hacc
      refine ⟨rfl, ?_, ?_⟩
      · have e : k + 1 - k = 1 := by omega
        simp [probe_probedPorts, e]
      · intro q
        have hcond : ¬ (k ≤ q ∧ q < k ∧ (env (q : Int)).createFile = true) := by omega
        rw [if_neg hcond]
        by_cases hq : q = k
        · subst hq
          simp only [probe_count_close_self, hacc', ne_eq, not_true_eq_false, and_false, if_false]
        · exact probe_count_close_other _ _ _ (by exact_mod_cast hq)
    · have hlt : i < k := by omega
      have hi : accepts env i = false := hbefore i (Nat.le_refl i) hlt
      have hi' : (probe (env (i : Int)) (i : Int)).1 ≠ ProbeOutcome.accepted := by
        simpa [accepts] using hi
      rw [scanPorts_succ_not_accepted env fuel i hi]
      obtain ⟨h1, h2, h3⟩ := ih (i + 1) (by omega) (by omega)
        (fun j hj hjk => hbefore j (by omega) hjk)
      refine ⟨h1, ?_, ?_⟩
      · have e : k + 1 - i = (k + 1 - (i + 1)) + 1 := by omega
        simp only [probedPorts, List.filterMap_append] at h2 ⊢
        rw [h2, e, List.range'_succ]
        have hp := probe_probedPorts (env (i : Int)) (i : Int)
        simp only [probedPorts] at hp
        rw [hp]
        rfl
      · intro q
        simp only [List.count_append]
        rw [h3 q]
        by_cases hq : q = i
        · subst hq
          have hc1 : ¬ (q + 1 ≤ q ∧ q < k ∧ (env (q : Int)).createFile = true) := by omega
          rw [if_neg hc1, probe_count_close_self]
          by_cases hcf : (env (q : Int)).createFile = true
          · simp [hcf, hi', hlt]
          · simp [hcf]
        · rw [probe_count_close_other _ _ _ (by exact_mod_cast hq)]
          by_cases hiq : i ≤ q
          · have e1 : (i + 1 ≤ q) := by omega
            simp [hiq, e1]
          · have e1 : ¬ (i + 1 ≤ q) := by omega
            simp [hiq, e1]

theorem scanPorts_count_close_before (env : Int → Candidate) (fuel i q : Nat) (hq : q < i) :
    (scanPorts env fuel i).events.count (Event.closeHandle (HANDLE.comPort (q : Int))) = 0 := by
  induction fuel generalizing i with
  | zero => simp [scanPorts]
  | succ fuel ih =>
    have hqi : (q : Int) ≠ (i : Int) := by exact_mod_cast (by omega : q ≠ i)
    cases hacc : accepts env i with
    | true =>
      rw [scanPorts_succ_accepted env fuel i hacc]
      exact probe_count_close_other _ _ _ hqi
    | false =>
      rw [scanPorts_succ_not_accepted env fuel i hacc]
      simp only [List.count_append]
      rw [probe_count_close_other _ _ _ hqi, ih (i + 1) (by omega)]

/-- A candidate the scan gets to is closed by the scan as often as by its own probe. -/
theorem scanPorts_count_close_reached (env : Int → Candidate) (fuel i q : Nat) (hiq : i ≤ q)
    (hq : q < i + fuel) (hbefore : ∀ j, i ≤ j → j < q → accepts env j = false) :
    (scanPorts env fuel i).events.count (Event.closeHandle (HANDLE.comPort (q : Int)))
      = (probe (env (q : Int)) (q : Int)).2.count (Event.closeHandle (HANDLE.comPort (q : Int))) := by
  induction fuel generalizing i with
  | zero => omega
  | succ fuel ih =>
    by_cases hqi : q = i
    · subst hqi
      cases hacc : accepts env q with
      | true => rw [scanPorts_succ_accepted env fuel q hacc]
      | false =>
        rw [scanPorts_succ_not_accepted env fuel q hacc]
        simp only [List.count_append]
        rw [scanPorts_count_close_before env fuel (q + 1) q (by omega)]
        rfl
    · have hi : accepts env i = false := hbefore i (Nat.le_refl i) (by omega)
      rw [scanPorts_succ_not_accepted env fuel i hi]
      simp only [List.count_append]
      rw [probe_count_close_other _ _ _ (by exact_mod_cast hqi),
        ih (i + 1) (by omega) (by omega) (fun j hj hjq => hbefore j (by omega) hjq)]
      omega

/-- C16, counterexample: a candidate that opens, takes the query and answers with
the three bytes `A5 01 90` only is accepted, as a supplied port and in the scan,
although fewer than 13 bytes are present. -/
theorem discovery_accepts_short_answer :
    connects (threeByteAnswers 7) ∧ (threeByteAnswers 7).writeFile = true ∧
    (threeByteAnswers 7).readFile = true ∧ (threeByteAnswers 7).bytesRead < 13 ∧
    (setupCOMPort threeByteAnswers 7).returned = some (HANDLE.comPort 7) ∧
    (setupCOMPort threeByteAnswers (-1)).returned = some (HANDLE.comPort 1) := by
  unfold connects
  decide

/-- C16, amended: for a candidate that opens and whose write and read succeed,
`setupCOMPort` accepts the candidate (returns its handle) if and only if byte 0
of the buffer is `0xA5`, byte 1 is `0x01` and byte 2 is `0x90`, however many
bytes were read; a candidate that is not accepted is closed, exactly once.  This
holds for a supplied port `p` and for every port `k` in 1..256 the scan gets to. -/
theorem discovery_acceptance (env : Int → Candidate) (p : Int) (k : Nat) :
    (p ≠ -1 → connects (env p) → (env p).writeFile = true → (env p).readFile = true →
      ((setupCOMPort env p).returned = some (HANDLE.comPort p) ↔
        (((env p).buffer 0).val = 0xA5 ∧ ((env p).buffer 1).val = 0x01 ∧
          ((env p).buffer 2).val = 0x90)) ∧
      ((setupCOMPort env p).returned ≠ some (HANDLE.comPort p) →
        (setupCOMPort env p).events.count (Event.closeHandle (HANDLE.comPort p)) = 1)) ∧
    (1 ≤ k → k ≤ 256 → (∀ j, 1 ≤ j → j < k → accepts env j = false) →
      connects (env (k : Int)) → (env (k : Int)).writeFile = true →
      (env (k : Int)).readFile = true →
      ((setupCOMPort env (-1)).returned = some (HANDLE.comPort (k : Int)) ↔
        (((env (k : Int)).buffer 0).val = 0xA5 ∧ ((env (k : Int)).buffer 1).val = 0x01 ∧
          ((env (k : Int)).buffer 2).val = 0x90)) ∧
      ((setupCOMPort env (-1)).returned ≠ some (HANDLE.comPort (k : Int)) →
        (setupCOMPort env (-1)).events.count (Event.closeHandle (HANDLE.comPort (k : Int)))
          = 1)) := by
  constructor
  · intro hp hc hw hr
    have hpr := probe_of_connects (env p) p hc hw hr
    by_cases hb : ((env p).buffer 0).val = 0xA5 ∧ ((env p).buffer 1).val = 0x01 ∧
        ((env p).buffer 2).val = 0x90
    · rw [if_pos hb] at hpr
      have hret : (setupCOMPort env p).returned = some (HANDLE.comPort p) := by
        simp only [setupCOMPort, hp, ne_eq, not_false_eq_true, if_true, hpr]
      exact ⟨⟨fun _ => hb, fun _ => hret⟩, fun hne => absurd hret hne⟩
    · rw [if_neg hb] at hpr
      have hret : (setupCOMPort env p).returned = none := by
        simp only [setupCOMPort, hp, ne_eq, not_false_eq_true, if_true, hpr]
      have hev : (setupCOMPort env p).events
          = [Event.createFile p, Event.writeFile (HANDLE.comPort p) queryData,
             Event.readFile (HANDLE.comPort p), Event.closeHandle (HANDLE.comPort p)] := by
        simp only [setupCOMPort, hp, ne_eq, not_false_eq_true, if_true, hpr]
      refine ⟨⟨fun h => ?_, fun h => absurd h hb⟩, fun _ => ?_⟩
      · rw [hret] at h; exact absurd h (by simp)
      · rw [hev]; simp [List.count_cons]
  · intro hk1 hk2 hbefore hc hw hr
    have hset : setupCOMPort env (-1) = scanPorts env 256 1 := by
      simp [setupCOMPort]
    have hiff := probe_accepted_iff (env (k : Int)) (k : Int) hc hw hr
    rw [hset]
    by_cases hb : ((env (k : Int)).buffer 0).val = 0xA5 ∧ ((env (k : Int)).buffer 1).val = 0x01 ∧
        ((env (k : Int)).buffer 2).val = 0x90
    · have hacc : accepts env k = true := by
        simp only [accepts, decide_eq_true_eq]; exact hiff.mpr hb
      have hret := (scanPorts_found env 256 1 k hk1 (by omega) hacc hbefore).1
      exact ⟨⟨fun _ => hb, fun _ => hret⟩, fun hne => absurd hret hne⟩
    · have hnacc : (probe (env (k : Int)) (k : Int)).1 ≠ ProbeOutcome.accepted :=
        fun h => hb (hiff.mp h)
      refine ⟨⟨fun h => ?_, fun h => absurd h hb⟩, fun _ => ?_⟩
      · obtain ⟨k', hk', _, _, hacc'⟩ := scanPorts_returned env 256 1 _ h
        have hkk : (k : Int) = (k' : Int) := by
          simpa using hk'
        have hkk' : k = k' := by exact_mod_cast hkk
        subst hkk'
        simp only [accepts, decide_eq_true_eq] at hacc'
        exact absurd hacc' hnacc
      · rw [scanPorts_count_close_reached env 256 1 k hk1 (by omega) hbefore,
          probe_count_close_self]
        simp [hc.1, hnacc]

/-- C16 amended, on `COM5` of a system where every port opens and only `COM5`
answers `A5 01 90 ...`: it is accepted as a supplied port and by the scan, and
`COM3`, which answers under the address `02`, is closed once by the scan. -/
theorem discovery_acceptance_witness :
    (setupCOMPort onlyFiveAccepts 5).returned = some (HANDLE.comPort 5) ∧
    (setupCOMPort onlyFiveAccepts (-1)).returned = some (HANDLE.comPort ((5 : Nat) : Int)) ∧
    (setupCOMPort onlyFiveAccepts 3).events.count (Event.closeHandle (HANDLE.comPort 3)) = 1 := by
  have hc5 : connects (onlyFiveAccepts 5) := by unfold connects; decide
  have hc3 : connects (onlyFiveAccepts 3) := by unfold connects; decide
  have hbefore : ∀ j, 1 ≤ j → j < 5 → accepts onlyFiveAccepts j = false := by
    intro j h1 h5
    interval_cases j <;> decide
  have h5 := discovery_acceptance onlyFiveAccepts 5 5
  have h3 := discovery_acceptance onlyFiveAccepts 3 5
  refine ⟨?_, ?_, ?_⟩
  · exact ((h5.1 (by decide) hc5 rfl rfl).1).mpr (by decide)
  · exact ((h5.2 (by decide) (by decide) hbefore hc5 rfl rfl).1).mpr (by decide)
  · apply (h3.1 (by decide) hc3 rfl rfl).2
    rw [Ne, (h3.1 (by decide) hc3 rfl rfl).1]
    decide

/-- When no candidate of the range is accepted the scan probes every one of them. -/
theorem scanPorts_none_probed (env : Int → Candidate) (fuel i : Nat)
    (hno : ∀ j, i ≤ j → j < i + fuel → accepts env j = false) :
    probedPorts (scanPorts env fuel i).events
      = (List.range' i fuel).map (fun j => (j : Int)) := by
  induction fuel generalizing i with
  | zero => simp [scanPorts, probedPorts]
  | succ fuel ih =>
    rw [scanPorts_succ_not_accepted env fuel i (hno i (Nat.le_refl i) (by omega))]
    have h2 := ih (i + 1) (fun j hj hjk => hno j (by omega) (by omega))
    have hp := probe_probedPorts (env (i : Int)) (i : Int)
    simp only [probedPorts, List.filterMap_append] at h2 hp ⊢
    rw [h2, hp, List.range'_succ]
    rfl

theorem setupCOMPort_scan (env : Int → Candidate) :
    setupCOMPort env (-1) = scanPorts env 256 1 := by
  simp [setupCOMPort]

theorem mainFrom_of_no_return (env : Int → Candidate) (comPort : Int)
    (h1 : comPort ≠ INVALID_COM_PORT_NUMBER) (h2 : comPort ≠ INVALID_DELAY_TIME_SUPPLIED)
    (hret : (setupCOMPort env comPort).returned = none) :
    mainFrom env comPort = MainOutcome.indeterminate := by
  simp [mainFrom, h1, h2, hret]

/-- C17: without a supplied port (`portNumber = -1`), if `k` in 1..256 is the
smallest identifier whose probe ends in acceptance, `setupCOMPort` returns the
handle of `COM<k>`, has probed exactly `COM1, COM2, ..., COM<k>` in this order
(nothing above `k`), and has closed every `COM<j>` with `j < k` exactly once if
it was opened and never if it was not; with a supplied port `p`, only `COM<p>`
is probed. -/
theorem discovery_scan_order (env : Int → Candidate) (k : Nat) (p : Int) :
    (1 ≤ k → k ≤ 256 → accepts env k = true →
      (∀ j, 1 ≤ j → j < k → accepts env j = false) →
      (setupCOMPort env (-1)).returned = some (HANDLE.comPort (k : Int)) ∧
      probedPorts (setupCOMPort env (-1)).events = (List.range' 1 k).map (fun j => (j : Int)) ∧
      (∀ j : Nat, 1 ≤ j → j < k →
        (setupCOMPort env (-1)).events.count (Event.closeHandle (HANDLE.comPort (j : Int)))
          = if (env (j : Int)).createFile = true then 1 else 0)) ∧
    (p ≠ -1 → probedPorts (setupCOMPort env p).events = [p]) := by
  constructor
  · intro hk1 hk2 hacc hbefore
    have hset := setupCOMPort_scan env
    obtain ⟨h1, h2, h3⟩ := scanPorts_found env 256 1 k hk1 (by omega) hacc hbefore
    rw [hset]
    refine ⟨h1, ?_, ?_⟩
    · rw [h2]
      have e : k + 1 - 1 = k := by omega
      rw [e]
    · intro j hj1 hjk
      rw [h3 j]
      by_cases hcf : (env (j : Int)).createFile = true
      · simp [hcf, hj1, hjk]
      · simp [hcf]
  · intro hp
    have hev : (setupCOMPort env p).events = (probe (env p) p).2 := by
      simp only [setupCOMPort, hp, ne_eq, not_false_eq_true, if_true]
      cases (probe (env p) p).1 <;> rfl
    rw [hev, probe_probedPorts]

/-- C17 on a system where every port opens and only `COM5` answers as the BMS
does: `COM5` is found, the ports probed are 1, 2, 3, 4, 5, and each of
`COM1..COM4` has been closed once. -/
theorem discovery_scan_order_witness :
    ((1 ≤ 5 ∧ 5 ≤ 256 ∧ accepts onlyFiveAccepts 5 = true ∧
      ∀ j, 1 ≤ j → j < 5 → accepts onlyFiveAccepts j = false) ∧ (7 : Int) ≠ -1) ∧
    (setupCOMPort onlyFiveAccepts (-1)).returned = some (HANDLE.comPort 5) ∧
    probedPorts (setupCOMPort onlyFiveAccepts (-1)).events = [1, 2, 3, 4, 5] ∧
    (List.range' 1 4).map (fun j : Nat =>
        (setupCOMPort onlyFiveAccepts (-1)).events.count
          (Event.closeHandle (HANDLE.comPort (j : Int))))
      = [1, 1, 1, 1] ∧
    probedPorts (setupCOMPort onlyFiveAccepts 7).events = [7] := by
  have hbefore : ∀ j, 1 ≤ j → j < 5 → accepts onlyFiveAccepts j = false := by
    intro j h1 h5
    interval_cases j <;> decide
  have h := discovery_scan_order onlyFiveAccepts 5 7
  obtain ⟨hret, hprobed, hclose⟩ := h.1 (by decide) (by decide) (by decide) hbefore
  refine ⟨⟨⟨by decide, by decide, by decide, hbefore⟩, by decide⟩, hret, ?_, ?_,
    h.2 (by decide)⟩
  · rw [hprobed]; rfl
  · simp only [List.range', List.map]
    rw [hclose 1 (by decide) (by decide), hclose 2 (by decide) (by decide),
      hclose 3 (by decide) (by decide), hclose 4 (by decide) (by decide)]
    decide

/-- C18, evaluated on the code: when no port opens, and when every port answers
under a wrong address, the scan of `setupCOMPort` runs through all 256
identifiers and the function ends without a `return` statement; likewise for a
supplied port that opens and answers with a frame that is not accepted (its
handle is closed, then the function ends).  `INVALID_HANDLE_VALUE` is not
returned, and the test of `main` is made on an indeterminate value.  Only a
supplied port that does not open returns `INVALID_HANDLE_VALUE` and makes `main`
return 1. -/
theorem discovery_exhaustion_returns_nothing :
    (setupCOMPort nothingOpens (-1)).returned = none ∧
    probedPorts (setupCOMPort nothingOpens (-1)).events
      = (List.range' 1 256).map (fun j => (j : Int)) ∧
    mainFrom nothingOpens NO_COM_PORT_NUMBER_SUPPLIED = MainOutcome.indeterminate ∧
    (setupCOMPort wrongAddressEverywhere (-1)).returned = none ∧
    mainFrom wrongAddressEverywhere NO_COM_PORT_NUMBER_SUPPLIED = MainOutcome.indeterminate ∧
    (setupCOMPort wrongAddressEverywhere 3).returned = none ∧
    (setupCOMPort wrongAddressEverywhere 3).events
      = [Event.createFile 3, Event.writeFile (HANDLE.comPort 3) queryData,
         Event.readFile (HANDLE.comPort 3), Event.closeHandle (HANDLE.comPort 3)] ∧
    mainFrom wrongAddressEverywhere 3 = MainOutcome.indeterminate ∧
    (setupCOMPort nothingOpens 3).returned = some HANDLE.INVALID_HANDLE_VALUE ∧
    mainFrom nothingOpens 3 = MainOutcome.returned 1 := by
  have hno1 : ∀ j, 1 ≤ j → j < 1 + 256 → accepts nothingOpens j = false := by
    intro j _ _; rfl
  have hno2 : ∀ j, 1 ≤ j → j < 1 + 256 → accepts wrongAddressEverywhere j = false := by
    intro j _ _; rfl
  have hr1 : (setupCOMPort nothingOpens (-1)).returned = none := by
    rw [setupCOMPort_scan]; exact scanPorts_none _ _ _ hno1
  have hr2 : (setupCOMPort wrongAddressEverywhere (-1)).returned = none := by
    rw [setupCOMPort_scan]; exact scanPorts_none _ _ _ hno2
  have hr3 : (setupCOMPort wrongAddressEverywhere 3).returned = none := by decide
  refine ⟨hr1, ?_, ?_, hr2, ?_, hr3, by decide, ?_, by decide, by decide⟩
  · rw [setupCOMPort_scan]; exact scanPorts_none_probed _ _ _ hno1
  · exact mainFrom_of_no_return _ _ (by decide) (by decide) hr1
  · exact mainFrom_of_no_return _ _ (by decide) (by decide) hr2
  · exact mainFrom_of_no_return _ _ (by decide) (by decide) hr3

/-! ## The poll loop and the sink -/

theorem decodeResponse_lineNumber (s : State) (pResponse : Buffer) :
    (decodeResponse s pResponse).1.bmsData.lineNumber = s.bmsData.lineNumber := by
  unfold decodeResponse
  split_ifs <;> rfl

theorem getBMSData_lineNumber (s : State) (hComm : HANDLE) (requestType : Int) (t : RoundTrip) :
    (getBMSData s hComm requestType t).state.bmsData.lineNumber = s.bmsData.lineNumber := by
  unfold getBMSData
  cases selectRequest requestType with
  | none => rfl
  | some pRequest => exact decodeResponse_lineNumber s t.pResponse

theorem getBMSData_events (s : State) (hComm : HANDLE) (requestType : Int) (t : RoundTrip) :
    (getBMSData s hComm requestType t).events = requestEvents hComm requestType := by
  unfold getBMSData requestEvents
  cases selectRequest requestType <;> rfl

theorem issueRequests_lineNumber (hComm : HANDLE) (trips : Nat → RoundTrip)
    (requests : List Int) (k : Nat) (s : State) :
    (issueRequests hComm trips requests k s).1.bmsData.lineNumber = s.bmsData.lineNumber := by
  induction requests generalizing k s with
  | nil => rfl
  | cons r rest ih =>
    simp only [issueRequests]
    rw [ih, getBMSData_lineNumber]

theorem issueRequests_events (hComm : HANDLE) (trips : Nat → RoundTrip)
    (requests : List Int) (k : Nat) (s : State) :
    (issueRequests hComm trips requests k s).2 = requests.flatMap (requestEvents hComm) := by
  induction requests generalizing k s with
  | nil => rfl
  | cons r rest ih =>
    simp only [issueRequests, List.flatMap_cons]
    rw [ih, getBMSData_events]

theorem incrementInt_of_lt (n : Int) (hlo : -2147483648 ≤ n) (hhi : n < 2147483647) :
    incrementInt n = n + 1 := by
  simp only [incrementInt, toInt32]
  norm_num
  split_ifs <;> omega

theorem incrementInt_incrementInt (n : Int) :
    incrementInt (incrementInt n) = incrementInt (n + 1) := by
  simp only [incrementInt, toInt32]
  norm_num
  split_ifs <;> omega

theorem incrementInt_pred (n : Int) (hlo : -2147483648 ≤ n) (hhi : n ≤ 2147483647) :
    incrementInt (n - 1) = n := by
  simp only [incrementInt, toInt32]
  norm_num
  split_ifs <;> omega

theorem pollCycle_lineNumber (s : State) (hComm : HANDLE) (now : String)
    (trips : Nat → RoundTrip) (stack : Nat → Byte) :
    (pollCycle s hComm now trips stack).row.lineNumber = s.bmsData.lineNumber ∧
    (pollCycle s hComm now trips stack).state.bmsData.lineNumber
      = incrementInt s.bmsData.lineNumber := by
  simp only [pollCycle, outputBMSDataToCsv, issueRequests_lineNumber, getDateTime, and_self]

/-- The row counter along the poll loop: after `n` cycles it holds the start value
incremented `n` times, and row `k` (counted from 0) carries the start value
incremented `k` times. -/
theorem pollLoop_rows (hComm : HANDLE) (e : PollEnv) (n : Nat) (s : State)
    (hlo : -2147483648 ≤ s.bmsData.lineNumber) (hhi : s.bmsData.lineNumber ≤ 2147483647) :
    (pollLoop hComm e n s).2.bmsData.lineNumber = incrementInt (s.bmsData.lineNumber + n - 1) ∧
    (pollLoop hComm e n s).1.length = n ∧
    ∀ k, k < n →
      ((pollLoop hComm e n s).1[k]?).map CsvRow.lineNumber
        = some (incrementInt (s.bmsData.lineNumber + k - 1)) := by
  induction n with
  | zero =>
    refine ⟨?_, rfl, fun k hk => absurd hk (Nat.not_lt_zero k)⟩
    simp only [pollLoop, Nat.cast_zero, add_zero]
    exact (incrementInt_pred _ hlo hhi).symm
  | succ n ih =>
    obtain ⟨h1, h2, h3⟩ := ih
    have hc := pollCycle_lineNumber (pollLoop hComm e n s).2 hComm (e.clock n) (e.trips n)
      (e.stack n)
    refine ⟨?_, ?_, ?_⟩
    · simp only [pollLoop, hc.2, h1, incrementInt_incrementInt]
      congr 1
      push_cast
      ring
    · simp only [pollLoop, List.length_append, h2, List.length_singleton]
    · intro k hk
      simp only [pollLoop]
      by_cases hkn : k < n
      · rw [List.getElem?_append_left (by omega)]
        exact h3 k hkn
      · have hkeq : k = n := by omega
        subst hkeq
        rw [List.getElem?_append_right (by omega), h2]
        simp [hc.1, h1]

/-- C19, counterexample: at `lineNumber = 2147483647` the sink does
not add 1 but leaves `lineNumber = -2147483648`, and with `lineNumber = 1` when
the loop is entered the row of cycle number `2^31` carries the line number
`-2147483648`, not `2147483648`. -/
theorem line_number_wraps_after_int_max :
    lastLineState.bmsData.lineNumber = 2147483647 ∧
    (outputBMSDataToCsv lastLineState (fun _ => 0)).1.lineNumber = 2147483647 ∧
    (outputBMSDataToCsv lastLineState (fun _ => 0)).2.bmsData.lineNumber = -2147483648 ∧
    (outputBMSDataToCsv lastLineState (fun _ => 0)).2.bmsData.lineNumber
      ≠ lastLineState.bmsData.lineNumber + 1 ∧
    ((pollLoop (HANDLE.comPort 5) steadyPollEnv 2147483648 mainState).1[2147483648 - 1]?).map
        CsvRow.lineNumber = some (-2147483648) ∧
    ((pollLoop (HANDLE.comPort 5) steadyPollEnv 2147483648 mainState).1[2147483648 - 1]?).map
        CsvRow.lineNumber ≠ some ((2147483648 : Nat) : Int) := by
  have hrow := (pollLoop_rows (HANDLE.comPort 5) steadyPollEnv 2147483648 mainState
    (by decide) (by decide)).2.2 (2147483648 - 1) (by omega)
  have hval : incrementInt (mainState.bmsData.lineNumber + ((2147483648 - 1 : Nat) : Int) - 1)
      = -2147483648 := by decide
  rw [hval] at hrow
  refine ⟨rfl, rfl, by decide, by decide, hrow, ?_⟩
  rw [hrow]
  decide

/-- C19, amended: one iteration of the poll loop makes exactly the eighteen calls
write/read for the requests 0x90, 0x91, ..., 0x98 in this order; the snapshot the
sink gets is the one these nine round trips have produced from the snapshot of
the cycle before, stamped with the time of this cycle; the sink puts
`lineNumber` into the row, increments it by 1 as long as it is below
`2^31 - 1` (at `2^31 - 1` the 32-bit counter wraps), and leaves every other field
of the snapshot and both counts as they were; and with `lineNumber = 1` when
the loop is entered, the row of the `k`-th completed cycle carries the line
number `k` for every `k ≤ 2^31 - 1`. -/
theorem poll_cycle_requests_and_line_number (hComm : HANDLE) (e : PollEnv) (s : State)
    (now : String) (trips : Nat → RoundTrip) (stack : Nat → Byte) (n k : Nat) :
    (pollCycle s hComm now trips stack).events
      = [Event.writeFile hComm REQUEST_TOTAL_VOLTAGE_CURRENT_SOC, Event.readFile hComm,
         Event.writeFile hComm REQUEST_HIGHEST_LOWEST_VOLTAGE, Event.readFile hComm,
         Event.writeFile hComm REQUEST_MAX_MIN_TEMP, Event.readFile hComm,
         Event.writeFile hComm REQUEST_CHARGE_DISCHARGE_MOS_STATUS, Event.readFile hComm,
         Event.writeFile hComm REQUEST_STATUS_INFO_1, Event.readFile hComm,
         Event.writeFile hComm REQUEST_SINGLE_CELL_VOLTAGE, Event.readFile hComm,
         Event.writeFile hComm REQUEST_SINGLE_CELL_TEMP, Event.readFile hComm,
         Event.writeFile hComm REQUEST_SINGLE_CELL_BALANCE_STATUS, Event.readFile hComm,
         Event.writeFile hComm REQUEST_SINGLE_CELL_FAILURE_STATUS, Event.readFile hComm] ∧
    (let s0 := getDateTime s now
     let s1 := (getBMSData s0 hComm READ_BAT_TOTAL_VOLTAGE_CURRENT_SOC (trips 0)).state
     let s2 := (getBMSData s1 hComm READ_BAT_HIGHEST_LOWEST_VOLTAGE (trips 1)).state
     let s3 := (getBMSData s2 hComm READ_BAT_MAX_MIN_TEMP (trips 2)).state
     let s4 := (getBMSData s3 hComm READ_BAT_CHARGE_DISCHARGE_MOS_STATUS (trips 3)).state
     let s5 := (getBMSData s4 hComm READ_BAT_STATUS_INFO_1 (trips 4)).state
     let s6 := (getBMSData s5 hComm READ_BAT_SINGLE_CELL_VOLTAGE (trips 5)).state
     let s7 := (getBMSData s6 hComm READ_BAT_SINGLE_CELL_TEMP (trips 6)).state
     let s8 := (getBMSData s7 hComm READ_BAT_SINGLE_CELL_BALANCE_STATUS (trips 7)).state
     let s9 := (getBMSData s8 hComm READ_BAT_SINGLE_CELL_FAILURE_STATUS (trips 8)).state
     (pollCycle s hComm now trips stack).row = (outputBMSDataToCsv s9 stack).1 ∧
     (pollCycle s hComm now trips stack).state = (outputBMSDataToCsv s9 stack).2) ∧
    ((outputBMSDataToCsv s stack).1.lineNumber = s.bmsData.lineNumber ∧
      (outputBMSDataToCsv s stack).2
        = { s with bmsData :=
              { s.bmsData with
                lineNumber := (outputBMSDataToCsv s stack).2.bmsData.lineNumber } } ∧
      (-2147483648 ≤ s.bmsData.lineNumber → s.bmsData.lineNumber < 2147483647 →
        (outputBMSDataToCsv s stack).2.bmsData.lineNumber = s.bmsData.lineNumber + 1)) ∧
    mainState.bmsData.lineNumber = 1 ∧
    (1 ≤ k → k ≤ n → k ≤ 2147483647 →
      ((pollLoop hComm e n mainState).1[k - 1]?).map CsvRow.lineNumber = some (k : Int)) := by
  refine ⟨?_, ⟨rfl, rfl⟩, ⟨rfl, rfl, fun hlo hhi => incrementInt_of_lt _ hlo hhi⟩, rfl, ?_⟩
  · simp only [pollCycle, issueRequests_events]
    rfl
  · intro hk1 hkn hk
    have h := (pollLoop_rows hComm e n mainState (by decide) (by decide)).2.2 (k - 1) (by omega)
    rw [h]
    have e1 : mainState.bmsData.lineNumber = 1 := rfl
    rw [e1, incrementInt_of_lt _ (by omega) (by omega)]
    congr 1
    omega

/-- C19 on three cycles against a port that answers every request with a frame of
the command asked for: the three rows carry the line numbers 1, 2, 3, the counter
goes from 1 to 2 in the first cycle, and the first row holds what the round trips
of the first cycle have decoded. -/
theorem poll_cycle_requests_and_line_number_witness :
    ((1 : Nat) ≤ 3 ∧ (3 : Nat) ≤ 3 ∧ (3 : Nat) ≤ 2147483647) ∧
    ((pollLoop (HANDLE.comPort 5) answeringPollEnv 3 mainState).1[3 - 1]?).map CsvRow.lineNumber
      = some ((3 : Nat) : Int) ∧
    (((-2147483648 : Int) ≤ mainState.bmsData.lineNumber ∧
        mainState.bmsData.lineNumber < 2147483647) ∧
      (outputBMSDataToCsv mainState (fun _ => 0)).2.bmsData.lineNumber
        = mainState.bmsData.lineNumber + 1) ∧
    (pollLoop (HANDLE.comPort 5) answeringPollEnv 3 mainState).1.map CsvRow.lineNumber
      = [1, 2, 3] ∧
    (pollLoop (HANDLE.comPort 5) answeringPollEnv 1 mainState).1.map CsvRow.dateTime
      = ["2023-10-05 12:00:00"] ∧
    (pollLoop (HANDLE.comPort 5) answeringPollEnv 1 mainState).1.map CsvRow.highestCellVoltage
      = [3300] ∧
    (pollLoop (HANDLE.comPort 5) answeringPollEnv 1 mainState).1.map CsvRow.remainingCapacity
      = [20000] ∧
    (pollLoop (HANDLE.comPort 5) answeringPollEnv 1 mainState).1.map CsvRow.cellVoltage
      = [[some 3100, some 3101, some 3102, some 3103, some 3104, some 3105, some 0, none, none,
          none, none, none, none, none, none, none]] ∧
    (pollLoop (HANDLE.comPort 5) answeringPollEnv 1 mainState).1.map CsvRow.temperatures
      = [[some 20, some 21, some 22, none]] ∧
    (pollLoop (HANDLE.comPort 5) answeringPollEnv 1 mainState).1.map CsvRow.balancingStatus
      = [1] ∧
    (pollLoop (HANDLE.comPort 5) answeringPollEnv 1 mainState).1.map CsvRow.alarms
      = [["00001101", "00000000", "00000000", "00000000", "00000000", "00000000", "00000000",
          "00000000"]] :=
  ⟨by decide,
   (poll_cycle_requests_and_line_number (HANDLE.comPort 5) answeringPollEnv mainState ""
      (answeringPollEnv.trips 0) (answeringPollEnv.stack 0) 3 3).2.2.2.2 (by decide) (by decide)
      (by decide),
   ⟨by decide,
    (poll_cycle_requests_and_line_number (HANDLE.comPort 5) answeringPollEnv mainState ""
      (answeringPollEnv.trips 0) (fun _ => 0) 3 3).2.2.1.2.2 (by decide) (by decide)⟩,
   by decide, by decide, by decide, by decide, by decide, by decide, by decide, by decide⟩

/-- C20: whatever the two counts `n` and `t` are, the row has exactly 16
cell-voltage columns and exactly 4 temperature columns; the column of cell `i`
holds the stored value when `i < n` and is blank when `i ≥ n`, and the column of
sensor `i` holds the stored value when `i < t` and is blank when `i ≥ t`. -/
theorem absent_slots_are_blank (s : State) (stack : Nat → Byte) (i : Nat) :
    (outputBMSDataToCsv s stack).1.cellVoltage.length = 16 ∧
    (outputBMSDataToCsv s stack).1.temperatures.length = 4 ∧
    (i < 16 → (i : Int) < s.g_number_of_battery_cells →
      (outputBMSDataToCsv s stack).1.cellVoltage[i]? = some (some (s.bmsData.cellVoltage i))) ∧
    (i < 16 → (i : Int) ≥ s.g_number_of_battery_cells →
      (outputBMSDataToCsv s stack).1.cellVoltage[i]? = some none) ∧
    (i < 4 → (i : Int) < s.g_number_of_temp_sensors →
      (outputBMSDataToCsv s stack).1.temperatures[i]? = some (some (s.bmsData.temperatures i))) ∧
    (i < 4 → (i : Int) ≥ s.g_number_of_temp_sensors →
      (outputBMSDataToCsv s stack).1.temperatures[i]? = some none) := by
  refine ⟨by simp [outputBMSDataToCsv, G_MAX_NUMBER_OF_CELLS],
    by simp [outputBMSDataToCsv, G_MAX_NUMBER_OF_TEMP_SENSORS], ?_, ?_, ?_, ?_⟩
  · intro hi hlt
    have hn : ¬ ((i : Int) ≥ s.g_number_of_battery_cells) := by omega
    simp only [outputBMSDataToCsv, G_MAX_NUMBER_OF_CELLS, List.getElem?_map,
      List.getElem?_range hi, Option.map_some', hn, if_false]
  · intro hi hge
    simp only [outputBMSDataToCsv, G_MAX_NUMBER_OF_CELLS, List.getElem?_map,
      List.getElem?_range hi, Option.map_some', hge, if_true]
  · intro hi hlt
    have hn : ¬ ((i : Int) ≥ s.g_number_of_temp_sensors) := by omega
    simp only [outputBMSDataToCsv, G_MAX_NUMBER_OF_TEMP_SENSORS, List.getElem?_map,
      List.getElem?_range hi, Option.map_some', hn, if_false]
  · intro hi hge
    simp only [outputBMSDataToCsv, G_MAX_NUMBER_OF_TEMP_SENSORS, List.getElem?_map,
      List.getElem?_range hi, Option.map_some', hge, if_true]

/-- C20 on five cells and two sensors: cell 4 and sensor 1 are the last columns
with a value, cell 5 and sensor 2 the first blank ones, and the whole row has
5 + 11 and 2 + 2 columns. -/
theorem absent_slots_are_blank_witness :
    (((4 : Nat) < 16 ∧ ((4 : Nat) : Int) < fiveCellState.g_number_of_battery_cells) ∧
      (outputBMSDataToCsv fiveCellState (fun _ => 0)).1.cellVoltage[4]?
        = some (some (fiveCellState.bmsData.cellVoltage 4))) ∧
    (((5 : Nat) < 16 ∧ ((5 : Nat) : Int) ≥ fiveCellState.g_number_of_battery_cells) ∧
      (outputBMSDataToCsv fiveCellState (fun _ => 0)).1.cellVoltage[5]? = some none) ∧
    (((1 : Nat) < 4 ∧ ((1 : Nat) : Int) < fiveCellState.g_number_of_temp_sensors) ∧
      (outputBMSDataToCsv fiveCellState (fun _ => 0)).1.temperatures[1]?
        = some (some (fiveCellState.bmsData.temperatures 1))) ∧
    (((2 : Nat) < 4 ∧ ((2 : Nat) : Int) ≥ fiveCellState.g_number_of_temp_sensors) ∧
      (outputBMSDataToCsv fiveCellState (fun _ => 0)).1.temperatures[2]? = some none) ∧
    (outputBMSDataToCsv fiveCellState (fun _ => 0)).1.cellVoltage
      = [some 3100, some 3101, some 3102, some 3103, some 3104, none, none, none, none, none,
         none, none, none, none, none, none] ∧
    (outputBMSDataToCsv fiveCellState (fun _ => 0)).1.temperatures
      = [some 20, some 21, none, none] :=
  ⟨⟨by decide, ((absent_slots_are_blank fiveCellState (fun _ => 0) 4).2.2.1) (by decide)
      (by decide)⟩,
   ⟨by decide, ((absent_slots_are_blank fiveCellState (fun _ => 0) 5).2.2.2.1) (by decide)
      (by decide)⟩,
   ⟨by decide, ((absent_slots_are_blank fiveCellState (fun _ => 0) 1).2.2.2.2.1) (by decide)
      (by decide)⟩,
   ⟨by decide, ((absent_slots_are_blank fiveCellState (fun _ => 0) 2).2.2.2.2.2) (by decide)
      (by decide)⟩,
   by decide, by decide⟩


/-! ## Program parameters -/

theorem readProgramParamsLoop_eq (L : CLibrary) (n : Nat) :
    ∀ (args : List String), args.length ≤ n → ∀ (port supplied delay : Int),
      readProgramParamsLoop L args port supplied delay
        = evalOptionValues L (optionValues L args) port delay := by
  induction n with
  | zero =>
    intro args h port supplied delay
    have : args = [] := List.length_eq_zero.mp (by omega)
    subst this
    rfl
  | succ n ih =>
    intro args h port supplied delay
    match args, h with
    | [], _ => rfl
    | [_], _ => rfl
    | arg :: value :: rest, h =>
      have hrest : rest.length ≤ n := by simp at h; omega
      have htail : (value :: rest).length ≤ n := by simp at h ⊢; omega
      by_cases hc : arg = "-c"
      · subst hc
        by_cases hi : isInteger L value = 0
        · simp [readProgramParamsLoop, optionValues, evalOptionValues, hi]
        · simp only [readProgramParamsLoop, optionValues, evalOptionValues, hi, if_true,
            if_false, checkedPort]
          split_ifs <;> exact ih rest hrest _ _ _
      · by_cases ht : arg = "-t"
        · subst ht
          by_cases hi : isInteger L value = 0
          · simp only [readProgramParamsLoop, optionValues, evalOptionValues, hi, if_true,
              if_false, hc]
            exact ih _ htail _ _ _
          · simp only [readProgramParamsLoop, optionValues, evalOptionValues, hi, if_true,
              if_false, hc]
            split_ifs
            · rfl
            · exact ih rest hrest _ _ _
        · simp only [readProgramParamsLoop, optionValues, hc, ht, if_false]
          exact ih _ htail _ _ _

theorem readProgramParams_eq (L : CLibrary) (argv : List String) (delay : Int) :
    readProgramParams L argv delay
      = evalOptionValues L (optionValues L (argv.drop 1)) NO_COM_PORT_NUMBER_SUPPLIED delay :=
  readProgramParamsLoop_eq L _ _ (Nat.le_refl _) _ _ _

theorem optionValues_flag (L : CLibrary) (n : Nat) :
    ∀ (args : List String), args.length ≤ n → ∀ p, p ∈ optionValues L args →
      p.1 = "-c" ∨ p.1 = "-t" := by
  induction n with
  | zero =>
    intro args h p hp
    have : args = [] := List.length_eq_zero.mp (by omega)
    subst this
    simp [optionValues] at hp
  | succ n ih =>
    intro args h p hp
    match args, h with
    | [], _ => simp [optionValues] at hp
    | [_], _ => simp [optionValues] at hp
    | arg :: value :: rest, h =>
      have hrest : rest.length ≤ n := by simp at h; omega
      have htail : (value :: rest).length ≤ n := by simp at h ⊢; omega
      simp only [optionValues] at hp
      split_ifs at hp with hc ht hi
      · rcases List.mem_cons.mp hp with hp | hp
        · left; rw [hp]; exact hc
        · exact ih rest hrest p hp
      · rcases List.mem_cons.mp hp with hp | hp
        · right; rw [hp]; exact ht
        · exact ih _ htail p hp
      · rcases List.mem_cons.mp hp with hp | hp
        · right; rw [hp]; exact ht
        · exact ih rest hrest p hp
      · exact ih _ htail p hp

/-- A value given to `-c` that is no integer makes the result an error code. -/
theorem evalOptionValues_bad_port (L : CLibrary) (ps : List (String × String)) (v : String)
    (hv : ("-c", v) ∈ ps) (hi : isInteger L v = 0) (port delay : Int) :
    isErrorCode (evalOptionValues L ps port delay).returned := by
  induction ps generalizing port delay with
  | nil => simp at hv
  | cons p ps ih =>
    obtain ⟨flag, value⟩ := p
    simp only [evalOptionValues]
    rcases List.mem_cons.mp hv with hhead | htail
    · have h1 : flag = "-c" := (Prod.mk.inj hhead).1.symm
      have h2 : value = v := (Prod.mk.inj hhead).2.symm
      subst h1 h2
      simp only [if_true, hi]
      exact Or.inl rfl
    · split_ifs
      · exact Or.inl rfl
      · exact ih htail _ _
      · exact ih htail _ _
      · exact Or.inr rfl
      · exact ih htail _ _

/-- A negative integer given to `-t` makes the result an error code. -/
theorem evalOptionValues_negative_delay (L : CLibrary) (ps : List (String × String))
    (v : String) (hv : ("-t", v) ∈ ps) (hi : isInteger L v ≠ 0) (hneg : L.atoi v < 0)
    (port delay : Int) :
    isErrorCode (evalOptionValues L ps port delay).returned := by
  induction ps generalizing port delay with
  | nil => simp at hv
  | cons p ps ih =>
    obtain ⟨flag, value⟩ := p
    simp only [evalOptionValues]
    rcases List.mem_cons.mp hv with hhead | htail
    · have h1 : flag = "-t" := (Prod.mk.inj hhead).1.symm
      have h2 : value = v := (Prod.mk.inj hhead).2.symm
      subst h1 h2
      have hneg' : L.atoi value < MIN_DELAY_TIME := hneg
      have hne : ¬ ("-t" = "-c") := by decide
      simp only [hne, if_false, hi, hneg', if_true]
      exact Or.inr rfl
    · split_ifs
      · exact Or.inl rfl
      · exact ih htail _ _
      · exact ih htail _ _
      · exact Or.inr rfl
      · exact ih htail _ _

/-- The values in front either end the loop with an error code or hand some port
and delay on to the values behind them. -/
theorem evalOptionValues_append (L : CLibrary) (front rest : List (String × String))
    (port delay : Int) :
    isErrorCode (evalOptionValues L (front ++ rest) port delay).returned ∨
    ∃ port' delay', evalOptionValues L (front ++ rest) port delay
      = evalOptionValues L rest port' delay' := by
  induction front generalizing port delay with
  | nil => exact Or.inr ⟨port, delay, rfl⟩
  | cons p front ih =>
    obtain ⟨flag, value⟩ := p
    simp only [List.cons_append, evalOptionValues]
    split_ifs
    · exact Or.inl (Or.inl rfl)
    · exact ih _ _
    · exact ih _ _
    · exact Or.inl (Or.inr rfl)
    · exact ih _ _

/-- Without a value given to `-c` the port handed in is returned, unless a
negative delay ends the loop. -/
theorem evalOptionValues_no_port (L : CLibrary) (ps : List (String × String))
    (hno : ∀ p, p ∈ ps → p.1 ≠ "-c") (port delay : Int) :
    (evalOptionValues L ps port delay).returned = port ∨
    (evalOptionValues L ps port delay).returned = INVALID_DELAY_TIME_SUPPLIED := by
  induction ps generalizing port delay with
  | nil => exact Or.inl rfl
  | cons p ps ih =>
    obtain ⟨flag, value⟩ := p
    have hflag : ¬ (flag = "-c") := hno (flag, value) (List.mem_cons_self _ _)
    have hrest : ∀ p, p ∈ ps → p.1 ≠ "-c" := fun p hp => hno p (List.mem_cons_of_mem _ hp)
    simp only [evalOptionValues, hflag, if_false]
    split_ifs
    · exact ih hrest _ _
    · exact Or.inr rfl
    · exact ih hrest _ _

/-- Without an integer given to `-t` the delay handed in is left as it is. -/
theorem evalOptionValues_no_delay (L : CLibrary) (ps : List (String × String))
    (hno : ∀ p, p ∈ ps → p.1 ≠ "-c" → isInteger L p.2 = 0) (port delay : Int) :
    (evalOptionValues L ps port delay).g_delay_time_ms = delay := by
  induction ps generalizing port delay with
  | nil => rfl
  | cons p ps ih =>
    obtain ⟨flag, value⟩ := p
    have hrest : ∀ p, p ∈ ps → p.1 ≠ "-c" → isInteger L p.2 = 0 :=
      fun p hp => hno p (List.mem_cons_of_mem _ hp)
    simp only [evalOptionValues]
    by_cases hc : flag = "-c"
    · simp only [hc, if_true]
      split_ifs
      · rfl
      · exact ih hrest _ _
    · have hi := hno (flag, value) (List.mem_cons_self _ _) hc
      simp only [hc, if_false, hi, if_true]
      exact ih hrest _ _

/-- When every value given to `-c` is an integer in 1..256 and every integer
given to `-t` is non-negative, no error code comes out. -/
theorem evalOptionValues_valid (L : CLibrary) (ps : List (String × String))
    (hc : ∀ p, p ∈ ps → p.1 = "-c" →
      isInteger L p.2 ≠ 0 ∧ 1 ≤ L.atoi p.2 ∧ L.atoi p.2 ≤ 256)
    (ht : ∀ p, p ∈ ps → p.1 ≠ "-c" → isInteger L p.2 ≠ 0 → 0 ≤ L.atoi p.2)
    (port delay : Int) (hport : ¬ isErrorCode port) :
    ¬ isErrorCode (evalOptionValues L ps port delay).returned := by
  induction ps generalizing port delay with
  | nil => exact hport
  | cons p ps ih =>
    obtain ⟨flag, value⟩ := p
    have hc' : ∀ p, p ∈ ps → p.1 = "-c" →
        isInteger L p.2 ≠ 0 ∧ 1 ≤ L.atoi p.2 ∧ L.atoi p.2 ≤ 256 :=
      fun p hp => hc p (List.mem_cons_of_mem _ hp)
    have ht' : ∀ p, p ∈ ps → p.1 ≠ "-c" → isInteger L p.2 ≠ 0 → 0 ≤ L.atoi p.2 :=
      fun p hp => ht p (List.mem_cons_of_mem _ hp)
    simp only [evalOptionValues]
    by_cases hflag : flag = "-c"
    · obtain ⟨h1, h2, h3⟩ : isInteger L value ≠ 0 ∧ 1 ≤ L.atoi value ∧ L.atoi value ≤ 256 :=
        hc (flag, value) (List.mem_cons_self _ _) hflag
      simp only [hflag, if_true, h1, if_false]
      apply ih hc' ht'
      simp only [checkedPort, MIN_COM_PORT_NUMBER, MAX_COM_PORT_NUMBER, isErrorCode,
        INVALID_COM_PORT_NUMBER, INVALID_DELAY_TIME_SUPPLIED]
      have e1 : ¬ (L.atoi value < 1) := by omega
      have e2 : ¬ (L.atoi value > 256) := by omega
      simp only [e1, e2, if_false]
      omega
    · simp only [hflag, if_false]
      by_cases hi : isInteger L value = 0
      · simp only [hi, if_true]
        exact ih hc' ht' _ _ hport
      · have h0 : 0 ≤ L.atoi value := ht (flag, value) (List.mem_cons_self _ _) hflag hi
        have e : ¬ (L.atoi value < MIN_DELAY_TIME) := by
          simp only [MIN_DELAY_TIME]; omega
        simp only [hi, if_false, e]
        exact ih hc' ht' _ _ hport

theorem main_of_error (L : CLibrary) (env : Int → Candidate) (argv : List String)
    (h : isErrorCode (readProgramParams L argv 2000).returned) :
    main L env argv = MainOutcome.returned 1 := by
  unfold main mainFrom
  exact if_pos h

/-- C21, counterexample: with `-t abc` the value given to `-t` is no integer, yet
`readProgramParams` returns -1, no error code, and `main` goes on to the
discovery (here it finds `COM5` and enters the poll loop); and with
`-c 300 -c 5` a value given to `-c` lies outside 1..256, yet 5 is returned and
`main` goes on with `COM5`. -/
theorem configuration_not_always_fatal :
    (("-t", "abc") ∈ optionValues decimalLibrary (["EPDataLog.exe", "-t", "abc"].drop 1) ∧
      isInteger decimalLibrary "abc" = 0 ∧
      (readProgramParams decimalLibrary ["EPDataLog.exe", "-t", "abc"] 2000).returned
        = NO_COM_PORT_NUMBER_SUPPLIED ∧
      main decimalLibrary onlyFiveAccepts ["EPDataLog.exe", "-t", "abc"]
        = MainOutcome.polling (HANDLE.comPort 5)) ∧
    (("-c", "300") ∈
        optionValues decimalLibrary (["EPDataLog.exe", "-c", "300", "-c", "5"].drop 1) ∧
      isInteger decimalLibrary "300" = 1 ∧ decimalLibrary.atoi "300" = 300 ∧
      (readProgramParams decimalLibrary ["EPDataLog.exe", "-c", "300", "-c", "5"] 2000).returned
        = 5 ∧
      main decimalLibrary onlyFiveAccepts ["EPDataLog.exe", "-c", "300", "-c", "5"]
        = MainOutcome.polling (HANDLE.comPort 5)) := by
  decide

/-- C21, amended: `readProgramParams` returns an error code, and `main` returns 1,
if a value given to `-c` is no integer, if a value given to `-t` is a negative
integer, or if the last value given to `-c` is an integer outside 1..256.  A
value given to `-t` that is no integer is not fatal: when every value given to
`-c` is an integer in 1..256 and every integer given to `-t` is non-negative, no
error code is returned.  When no value is given to `-t` the delay stays at
2000; and when no error code is returned, the last integer given to `-t` is the
delay. -/
theorem configuration_validation (L : CLibrary) (env : Int → Candidate) (argv : List String)
    (v : String) (front back : List (String × String)) :
    (("-c", v) ∈ optionValues L (argv.drop 1) → isInteger L v = 0 →
      isErrorCode (readProgramParams L argv 2000).returned ∧
      main L env argv = MainOutcome.returned 1) ∧
    (("-t", v) ∈ optionValues L (argv.drop 1) → isInteger L v ≠ 0 → L.atoi v < 0 →
      isErrorCode (readProgramParams L argv 2000).returned ∧
      main L env argv = MainOutcome.returned 1) ∧
    (optionValues L (argv.drop 1) = front ++ ("-c", v) :: back →
      (∀ p, p ∈ back → p.1 ≠ "-c") → isInteger L v ≠ 0 → (L.atoi v < 1 ∨ 256 < L.atoi v) →
      isErrorCode (readProgramParams L argv 2000).returned ∧
      main L env argv = MainOutcome.returned 1) ∧
    ((∀ p, p ∈ optionValues L (argv.drop 1) → p.1 = "-c" →
        isInteger L p.2 ≠ 0 ∧ 1 ≤ L.atoi p.2 ∧ L.atoi p.2 ≤ 256) →
      (∀ p, p ∈ optionValues L (argv.drop 1) → p.1 = "-t" → isInteger L p.2 ≠ 0 →
        0 ≤ L.atoi p.2) →
      ¬ isErrorCode (readProgramParams L argv 2000).returned) ∧
    ((∀ w, ("-t", w) ∉ optionValues L (argv.drop 1)) →
      (readProgramParams L argv 2000).g_delay_time_ms = 2000) ∧
    (optionValues L (argv.drop 1) = front ++ ("-t", v) :: back →
      (∀ p, p ∈ back → p.1 = "-t" → isInteger L p.2 = 0) → isInteger L v ≠ 0 →
      0 ≤ L.atoi v → ¬ isErrorCode (readProgramParams L argv 2000).returned →
      (readProgramParams L argv 2000).g_delay_time_ms = L.atoi v) := by
  have hflags := optionValues_flag L _ (argv.drop 1) (Nat.le_refl _)
  refine ⟨?_, ?_, ?_, ?_, ?_, ?_⟩
  · intro hv hi
    have herr : isErrorCode (readProgramParams L argv 2000).returned := by
      rw [readProgramParams_eq]
      exact evalOptionValues_bad_port L _ v hv hi _ _
    exact ⟨herr, main_of_error L env argv herr⟩
  · intro hv hi hneg
    have herr : isErrorCode (readProgramParams L argv 2000).returned := by
      rw [readProgramParams_eq]
      exact evalOptionValues_negative_delay L _ v hv hi hneg _ _
    exact ⟨herr, main_of_error L env argv herr⟩
  · intro hsplit hback hi hrange
    have herr : isErrorCode (readProgramParams L argv 2000).returned := by
      rw [readProgramParams_eq, hsplit]
      rcases evalOptionValues_append L front (("-c", v) :: back) NO_COM_PORT_NUMBER_SUPPLIED 2000
        with h | ⟨port', delay', h⟩
      · exact h
      · rw [h]
        have hport : checkedPort L v = INVALID_COM_PORT_NUMBER := by
          simp only [checkedPort, MIN_COM_PORT_NUMBER, MAX_COM_PORT_NUMBER]
          rcases hrange with hlo | hhi
          · simp [hlo]
          · have : L.atoi v > 256 := hhi
            simp [this]
        simp only [evalOptionValues, if_true, hi, if_false, hport]
        rcases evalOptionValues_no_port L back hback INVALID_COM_PORT_NUMBER delay' with h | h
        · exact Or.inl h
        · exact Or.inr h
    exact ⟨herr, main_of_error L env argv herr⟩
  · intro hc ht
    rw [readProgramParams_eq]
    apply evalOptionValues_valid L _ hc
    · intro p hp hnc hi
      rcases hflags p hp with h | h
      · exact absurd h hnc
      · exact ht p hp h hi
    · simp [isErrorCode, NO_COM_PORT_NUMBER_SUPPLIED, INVALID_COM_PORT_NUMBER,
        INVALID_DELAY_TIME_SUPPLIED]
  · intro hno
    rw [readProgramParams_eq]
    apply evalOptionValues_no_delay
    intro p hp hnc
    rcases hflags p hp with h | h
    · exact absurd h hnc
    · exfalso
      apply hno p.2
      rw [← h]
      exact hp
  · intro hsplit hback hi h0 hnerr
    rw [readProgramParams_eq, hsplit] at hnerr ⊢
    rcases evalOptionValues_append L front (("-t", v) :: back) NO_COM_PORT_NUMBER_SUPPLIED 2000
      with h | ⟨port', delay', h⟩
    · exact absurd h hnerr
    · rw [h]
      have hne : ¬ ("-t" = "-c") := by decide
      have e : ¬ (L.atoi v < MIN_DELAY_TIME) := by simp only [MIN_DELAY_TIME]; omega
      simp only [evalOptionValues, hne, if_false, hi, e]
      apply evalOptionValues_no_delay
      intro p hp hnc
      have hp' : p ∈ optionValues L (argv.drop 1) := by
        rw [hsplit]
        exact List.mem_append_right _ (List.mem_cons_of_mem _ hp)
      rcases hflags p hp' with hf | hf
      · exact absurd hf hnc
      · exact hback p hp hf

/-- C21 amended, on four argument lists: `-c 7x` and `-c 7 -t -500` and
`-c 300 -t 500` end in an error code and make `main` return 1; `-c 7 -t 500`
returns the port 7 with the delay 500, and `-c 7` alone leaves the delay at
2000. -/
theorem configuration_validation_witness :
    (isErrorCode (readProgramParams decimalLibrary ["EPDataLog.exe", "-c", "7x"] 2000).returned ∧
      main decimalLibrary onlyFiveAccepts ["EPDataLog.exe", "-c", "7x"]
        = MainOutcome.returned 1) ∧
    (isErrorCode
        (readProgramParams decimalLibrary ["EPDataLog.exe", "-c", "7", "-t", "-500"] 2000).returned ∧
      main decimalLibrary onlyFiveAccepts ["EPDataLog.exe", "-c", "7", "-t", "-500"]
        = MainOutcome.returned 1) ∧
    (isErrorCode
        (readProgramParams decimalLibrary ["EPDataLog.exe", "-c", "300", "-t", "500"] 2000).returned ∧
      main decimalLibrary onlyFiveAccepts ["EPDataLog.exe", "-c", "300", "-t", "500"]
        = MainOutcome.returned 1) ∧
    (readProgramParams decimalLibrary ["EPDataLog.exe", "-c", "7", "-t", "500"] 2000).g_delay_time_ms
      = decimalLibrary.atoi "500" ∧
    readProgramParams decimalLibrary ["EPDataLog.exe", "-c", "7", "-t", "500"] 2000
      = { returned := 7, g_delay_time_ms := 500 } ∧
    (readProgramParams decimalLibrary ["EPDataLog.exe", "-c", "7"] 2000).g_delay_time_ms
      = 2000 := by
  have hnerr : ¬ isErrorCode
      (readProgramParams decimalLibrary ["EPDataLog.exe", "-c", "7", "-t", "500"] 2000).returned := by
    unfold isErrorCode; decide
  refine ⟨?_, ?_, ?_, ?_, by decide, ?_⟩
  · exact (configuration_validation decimalLibrary onlyFiveAccepts ["EPDataLog.exe", "-c", "7x"]
      "7x" [] []).1 (by decide) (by decide)
  · exact (configuration_validation decimalLibrary onlyFiveAccepts
      ["EPDataLog.exe", "-c", "7", "-t", "-500"] "-500" [] []).2.1 (by decide) (by decide)
      (by decide)
  · exact (configuration_validation decimalLibrary onlyFiveAccepts
      ["EPDataLog.exe", "-c", "300", "-t", "500"] "300" [] [("-t", "500")]).2.2.1 (by decide)
      (by decide) (by decide) (by decide)
  · exact (configuration_validation decimalLibrary onlyFiveAccepts
      ["EPDataLog.exe", "-c", "7", "-t", "500"] "500" [("-c", "7")] []).2.2.2.2.2 (by decide)
      (by decide) (by decide) (by decide) hnerr
  · apply (configuration_validation decimalLibrary onlyFiveAccepts ["EPDataLog.exe", "-c", "7"]
      "7" [] []).2.2.2.2.1
    intro w hw
    have hvals : optionValues decimalLibrary (["EPDataLog.exe", "-c", "7"].drop 1)
        = [("-c", "7")] := by decide
    rw [hvals, List.mem_singleton] at hw
    exact absurd (Prod.mk.inj hw).1 (by decide)

/-! ## Decoder selection -/

theorem selectRequest_some (r : Int) (hlo : 0x90 ≤ r) (hhi : r ≤ 0x98) :
    ∃ pRequest, selectRequest r = some pRequest := by
  interval_cases r <;> exact ⟨_, rfl⟩

theorem getBMSData_state (s : State) (hComm : HANDLE) (r : Int) (t : RoundTrip)
    (hlo : 0x90 ≤ r) (hhi : r ≤ 0x98) :
    (getBMSData s hComm r t).state = (decodeResponse s t.pResponse).1 := by
  obtain ⟨pRequest, h⟩ := selectRequest_some r hlo hhi
  simp only [getBMSData, h]

/-- C22: for two request types `r1`, `r2` in 0x90..0x98 and the same response,
`getBMSData` started from the same globals ends in the same snapshot and the
same counts; the decoder that ran is the one of the command byte `resp[2]` of
the response, whatever was requested. -/
theorem decoder_selection_by_response (s : State) (hComm : HANDLE) (r1 r2 : Int)
    (t : RoundTrip) (h1 : 0x90 ≤ r1 ∧ r1 ≤ 0x98) (h2 : 0x90 ≤ r2 ∧ r2 ≤ 0x98) :
    (getBMSData s hComm r1 t).state = (getBMSData s hComm r2 t).state ∧
    ((t.pResponse 2).val = 0x90 →
      (getBMSData s hComm r1 t).state = parseBmsResponseSoc s t.pResponse) ∧
    ((t.pResponse 2).val = 0x91 →
      (getBMSData s hComm r1 t).state = parseBmsResponseHighestLowestVoltage s t.pResponse) ∧
    ((t.pResponse 2).val = 0x92 →
      (getBMSData s hComm r1 t).state = parseBmsResponseMaxMinTemp s t.pResponse) ∧
    ((t.pResponse 2).val = 0x93 →
      (getBMSData s hComm r1 t).state
        = parseBmsResponseChargeDischargeMosStatus s t.pResponse) ∧
    ((t.pResponse 2).val = 0x94 →
      (getBMSData s hComm r1 t).state = parseBmsResponseStatusInfo1 s t.pResponse) ∧
    ((t.pResponse 2).val = 0x95 →
      (getBMSData s hComm r1 t).state = parseBmsResponseSingleCellVoltage s t.pResponse) ∧
    ((t.pResponse 2).val = 0x96 →
      (getBMSData s hComm r1 t).state = parseBmsResponseSingleCellTemp s t.pResponse) ∧
    ((t.pResponse 2).val = 0x97 →
      (getBMSData s hComm r1 t).state
        = parseBmsResponseSingleCellBalancingStatus s t.pResponse) ∧
    ((t.pResponse 2).val = 0x98 →
      (getBMSData s hComm r1 t).state = parseBmsResponseBatteryFailureStatus s t.pResponse) := by
  have e1 := getBMSData_state s hComm r1 t h1.1 h1.2
  have e2 := getBMSData_state s hComm r2 t h2.1 h2.2
  refine ⟨by rw [e1, e2], ?_, ?_, ?_, ?_, ?_, ?_, ?_, ?_, ?_⟩ <;>
    · intro hc
      rw [e1]
      simp [decodeResponse, hc, READ_BAT_TOTAL_VOLTAGE_CURRENT_SOC,
        READ_BAT_HIGHEST_LOWEST_VOLTAGE, READ_BAT_MAX_MIN_TEMP,
        READ_BAT_CHARGE_DISCHARGE_MOS_STATUS, READ_BAT_STATUS_INFO_1,
        READ_BAT_SINGLE_CELL_VOLTAGE, READ_BAT_SINGLE_CELL_TEMP,
        READ_BAT_SINGLE_CELL_BALANCE_STATUS, READ_BAT_SINGLE_CELL_FAILURE_STATUS]

/-- C22 on a status-info response that answers the requests 0x90 and 0x95: both
calls end in the same globals, with the counts 7 and 3 of the response. -/
theorem decoder_selection_by_response_witness :
    (((0x90 : Int) ≤ 0x90 ∧ (0x90 : Int) ≤ 0x98) ∧ ((0x90 : Int) ≤ 0x95 ∧ (0x95 : Int) ≤ 0x98)) ∧
    (getBMSData initialState (HANDLE.comPort 5) 0x90 statusInfoTrip).state
      = (getBMSData initialState (HANDLE.comPort 5) 0x95 statusInfoTrip).state ∧
    (getBMSData initialState (HANDLE.comPort 5) 0x90 statusInfoTrip).state.g_number_of_battery_cells
      = 7 ∧
    (getBMSData initialState (HANDLE.comPort 5) 0x95 statusInfoTrip).state.g_number_of_temp_sensors
      = 3 :=
  ⟨by decide,
   (decoder_selection_by_response initialState (HANDLE.comPort 5) 0x90 0x95 statusInfoTrip
      (by decide) (by decide)).1,
   by decide, by decide⟩

/-! ## Reads of the response buffer and stores into the local arrays -/

theorem balancingReads_lt (pResponse : Buffer) (m isBalancing k : Nat)
    (hk : k ∈ balancingReads pResponse m isBalancing) : k < 4 + m := by
  induction m generalizing isBalancing with
  | zero => simp [balancingReads] at hk
  | succ m ih =>
    simp only [balancingReads, List.mem_append] at hk
    rcases hk with (hk | hk) | hk
    · split_ifs at hk
      · simp at hk; omega
      · simp at hk
    · simp at hk; omega
    · have := ih _ hk
      omega

theorem balancingReads_first (pResponse : Buffer) (m : Nat) :
    4 + m ∈ balancingReads pResponse (m + 1) 0 := by
  simp [balancingReads]

theorem voltageCellRun_le (count : Int) (slots fuel readIndex nRead k : Nat)
    (hk : k ∈ (subframeCellRun (fun r => [r, r + 1]) 2 count slots fuel readIndex nRead).reads) :
    k + 1 ≤ readIndex + 2 * fuel := by
  induction fuel generalizing readIndex nRead with
  | zero => simp [subframeCellRun] at hk
  | succ fuel ih =>
    simp only [subframeCellRun] at hk
    split_ifs at hk with hc hs
    · simp at hk
    · simp at hk
      omega
    · rw [List.mem_append] at hk
      rcases hk with hk | hk
      · simp at hk
        omega
      · have := ih _ _ hk
        omega

theorem tempCellRun_le (count : Int) (slots fuel readIndex nRead k : Nat)
    (hk : k ∈ (subframeCellRun (fun r => [r]) 1 count slots fuel readIndex nRead).reads) :
    k + 1 ≤ readIndex + fuel := by
  induction fuel generalizing readIndex nRead with
  | zero => simp [subframeCellRun] at hk
  | succ fuel ih =>
    simp only [subframeCellRun] at hk
    split_ifs at hk with hc hs
    · simp at hk
    · simp at hk
      omega
    · rw [List.mem_append] at hk
      rcases hk with hk | hk
      · simp at hk
        omega
      · have := ih _ _ hk
        omega

/-- Every read of the subframe loops lies in one of the subframes looked at: when
the reads of an inner loop started at `r` stay at or below `r + span`, the reads
of `fuel` subframes from subframe `i` on stay below `13 * (i + fuel) - 8 + span`. -/
theorem subframeRun_le (pResponse : Buffer) (itemReads : Nat → List Nat)
    (step cellsPerFrame span slots : Nat) (count : Int)
    (hcell : ∀ r n k,
      k ∈ (subframeCellRun itemReads step count slots cellsPerFrame r n).reads → k ≤ r + span)
    (fuel i nRead k : Nat)
    (hk : k ∈ (subframeRun pResponse itemReads step cellsPerFrame count slots fuel i nRead).reads) :
    k + 8 ≤ 13 * (i + fuel) + span := by
  induction fuel generalizing i nRead with
  | zero => simp [subframeRun] at hk
  | succ fuel ih =>
    simp only [subframeRun, MESSAGE_LENGTH] at hk
    split_ifs at hk with hc hs ho
    · simp at hk
    · rw [List.mem_cons] at hk
      rcases hk with hk | hk
      · omega
      · have := ih _ _ hk
        omega
    · rw [List.mem_cons] at hk
      rcases hk with hk | hk
      · omega
      · have := hcell _ _ _ hk
        omega
    · rw [List.mem_cons, List.mem_append] at hk
      rcases hk with hk | hk | hk
      · omega
      · have := hcell _ _ _ hk
        omega
      · have := ih _ _ hk
        omega

/-- While the counter is at most `count` and `count` is at most the size of the
local array, the inner loop stores inside the local array. -/
theorem subframeCellRun_inside (itemReads : Nat → List Nat) (step : Nat) (count : Int)
    (slots fuel readIndex nRead : Nat) (hcount : count ≤ (slots : Int))
    (hn : (nRead : Int) ≤ count) :
    (subframeCellRun itemReads step count slots fuel readIndex nRead).outside = none ∧
    (((subframeCellRun itemReads step count slots fuel readIndex nRead).nRead : Nat) : Int)
      ≤ count := by
  induction fuel generalizing readIndex nRead with
  | zero => exact ⟨rfl, hn⟩
  | succ fuel ih =>
    simp only [subframeCellRun]
    split_ifs with hc hs
    · exact ⟨rfl, hn⟩
    · omega
    · exact ih (readIndex + step) (nRead + 1) (by push_cast; omega)

theorem subframeRun_inside (pResponse : Buffer) (itemReads : Nat → List Nat)
    (step cellsPerFrame : Nat) (count : Int) (slots fuel i nRead : Nat)
    (hcount : count ≤ (slots : Int)) (hn : (nRead : Int) ≤ count) :
    (subframeRun pResponse itemReads step cellsPerFrame count slots fuel i nRead).outside
      = none := by
  induction fuel generalizing i nRead with
  | zero => rfl
  | succ fuel ih =>
    have hin := subframeCellRun_inside itemReads step count slots cellsPerFrame
      (i * MESSAGE_LENGTH + 4 + 1) nRead hcount hn
    simp only [subframeRun]
    split_ifs with hc hs ho
    · rfl
    · exact ih (i + 1) nRead hn
    · exact hin.1
    · exact ih (i + 1) _ hin.2

/-- What holds of the reads on every input: as long as no store has left the local
array, every index read by the decoder of command 0x95 is at most 205 and every
index read by the decoder of command 0x96 at most 37; no store leaves the local
array when the count is between 0 and 16; and every index read by the decoder of
command 0x97, which has no local array, is at most 258 for counts up to 255. -/
theorem reads_inside_while_locals_hold (cells sensors : Int) (pResponse : Buffer) (k : Nat) :
    (k ∈ (singleCellVoltageRun cells pResponse).reads → k ≤ 205) ∧
    (k ∈ (singleCellTempRun sensors pResponse).reads → k ≤ 37) ∧
    (0 ≤ cells → cells ≤ 16 → (singleCellVoltageRun cells pResponse).outside = none) ∧
    (0 ≤ sensors → sensors ≤ 16 → (singleCellTempRun sensors pResponse).outside = none) ∧
    (cells ≤ 255 → k ∈ singleCellBalancingStatusReads cells pResponse → k ≤ 258) := by
  refine ⟨?_, ?_, ?_, ?_, ?_⟩
  · intro hk
    have h := subframeRun_le pResponse _ 2 3 5 G_MAX_NUMBER_OF_CELLS cells
      (fun r n k hk => by
        have := voltageCellRun_le cells G_MAX_NUMBER_OF_CELLS 3 r n k hk
        omega) 16 0 0 k hk
    omega
  · intro hk
    have h := subframeRun_le pResponse _ 1 7 6 G_MAX_NUMBER_OF_CELLS sensors
      (fun r n k hk => by
        have := tempCellRun_le sensors G_MAX_NUMBER_OF_CELLS 7 r n k hk
        omega) 3 0 0 k hk
    omega
  · intro h0 h16
    exact subframeRun_inside pResponse _ 2 3 cells G_MAX_NUMBER_OF_CELLS 16 0 0
      (by simpa [G_MAX_NUMBER_OF_CELLS] using h16) (by simpa using h0)
  · intro h0 h16
    exact subframeRun_inside pResponse _ 1 7 sensors G_MAX_NUMBER_OF_CELLS 3 0 0
      (by simpa [G_MAX_NUMBER_OF_CELLS] using h16) (by simpa using h0)
  · intro h255 hk
    have h := balancingReads_lt pResponse _ _ k hk
    omega

/-- C23, evaluated on the code: with 17 cells announced, or with the count still
at -1, and a response whose subframes are all numbered correctly, the decoder of
command 0x95 makes the stores `cell_voltages[0]`, ..., `cell_voltages[16]`, the
last of which lies outside the 16 slots of the local array; the decoder of
command 0x96 does the same with `cell_temps[16]`.  From that store on the locals
`i`, `readIndex` and the counter are written over, and no bound on the indices
read follows from the source.  With 16 cells the same response stays inside the
local array, and the bounds 205 and 37 are attained by a response whose last
subframe is numbered correctly. -/
theorem local_array_overflow_unbounds_the_reads :
    (singleCellVoltageRun 17 voltageResponseAllFrames).outside = some 16 ∧
    (singleCellVoltageRun (-1) voltageResponseAllFrames).outside = some 16 ∧
    (singleCellTempRun 17 voltageResponseAllFrames).outside = some 16 ∧
    (singleCellTempRun (-1) voltageResponseAllFrames).outside = some 16 ∧
    (singleCellVoltageStores 17 voltageResponseAllFrames).map Prod.fst = List.range 17 ∧
    (singleCellTempStores 17 voltageResponseAllFrames).map Prod.fst = List.range 17 ∧
    (singleCellVoltageRun 16 voltageResponseAllFrames).outside = none ∧
    (singleCellTempRun 16 voltageResponseAllFrames).outside = none ∧
    ((singleCellVoltageRun 16 lastSubframesResponse).outside = none ∧
      205 ∈ (singleCellVoltageRun 16 lastSubframesResponse).reads) ∧
    ((singleCellTempRun 16 lastSubframesResponse).outside = none ∧
      37 ∈ (singleCellTempRun 16 lastSubframesResponse).reads) := by
  decide

/-! ## Alarm strings carry the whole byte -/

set_option maxRecDepth 100000 in
theorem alarmValue_strcpy_alarmRow (b : Fin 256) :
    alarmValue (strcpy (alarmRow b.val)) = b.val := by
  revert b
  decide

theorem alarms_eq_strcpy (s : State) (pResponse : Buffer) (i : Nat) (hi : i < 8) :
    (parseBmsResponseBatteryFailureStatus s pResponse).bmsData.alarms i
      = strcpy (alarmRow (pResponse (4 + i)).val) := by
  simp only [parseBmsResponseBatteryFailureStatus, hi, if_true]

/-- C24: for every `i < 8` the string stored in `alarms[i]` for the payload byte
`b = resp[4 + i]` has length 8, consists of the characters '0' and '1' only, and
gives `b` back as the sum of `2 ^ j` over the indices `j` in 0..7 that hold '1';
hence two responses with the same string in `alarms[i]` have the same byte
`resp[4 + i]`. -/
theorem alarm_rendering_keeps_the_byte (s : State) (pResponse qResponse : Buffer) (i : Nat)
    (hi : i < 8) :
    ((parseBmsResponseBatteryFailureStatus s pResponse).bmsData.alarms i).length = 8 ∧
    (∀ c, c ∈ ((parseBmsResponseBatteryFailureStatus s pResponse).bmsData.alarms i).data →
      c = '0' ∨ c = '1') ∧
    alarmValue ((parseBmsResponseBatteryFailureStatus s pResponse).bmsData.alarms i)
      = (pResponse (4 + i)).val ∧
    ((parseBmsResponseBatteryFailureStatus s pResponse).bmsData.alarms i
        = (parseBmsResponseBatteryFailureStatus s qResponse).bmsData.alarms i →
      pResponse (4 + i) = qResponse (4 + i)) := by
  have hp := alarms_eq_strcpy s pResponse i hi
  have hq := alarms_eq_strcpy s qResponse i hi
  have hrow := strcpy_alarmRow (pResponse (4 + i)).val
  refine ⟨?_, ?_, ?_, ?_⟩
  · rw [hp, String.length, hrow]; simp
  · intro c hc
    rw [hp, hrow, List.mem_map] at hc
    obtain ⟨j, _, hj⟩ := hc
    rw [← hj]
    split
    · exact Or.inr rfl
    · exact Or.inl rfl
  · rw [hp]; exact alarmValue_strcpy_alarmRow _
  · intro heq
    rw [hp, hq] at heq
    have h := congrArg alarmValue heq
    rw [alarmValue_strcpy_alarmRow, alarmValue_strcpy_alarmRow] at h
    exact Fin.ext h

/-- C24 on the payload byte `0b10110000`: the string "00001101" has eight
characters and stands for 16 + 32 + 128 = 176. -/
theorem alarm_rendering_keeps_the_byte_witness :
    (0 : Nat) < 8 ∧
    ((parseBmsResponseBatteryFailureStatus initialState alarmResponse).bmsData.alarms 0).length
      = 8 ∧
    alarmValue ((parseBmsResponseBatteryFailureStatus initialState alarmResponse).bmsData.alarms 0)
      = (alarmResponse (4 + 0)).val ∧
    (alarmResponse (4 + 0)).val = 176 ∧ alarmValue "00001101" = 16 + 32 + 128 := by
  have h := alarm_rendering_keeps_the_byte initialState alarmResponse alarmResponse 0
    (by decide)
  exact ⟨by decide, h.1, h.2.2.1, by decide, by decide⟩

/-! ## Frame of the decoders -/

theorem singleCellVoltageStores_index_lt (count : Int) (pResponse : Buffer)
    (h0 : 0 ≤ count) (w : Nat × ℚ) (hw : w ∈ singleCellVoltageStores count pResponse) :
    (w.1 : Int) < count := by
  obtain ⟨c, rfl⟩ := Int.eq_ofNat_of_zero_le h0
  exact_mod_cast subframes_index_lt pResponse _ _ _ c _ w hw

theorem singleCellTempStores_index_lt (count : Int) (pResponse : Buffer)
    (h0 : 0 ≤ count) (w : Nat × ℚ) (hw : w ∈ singleCellTempStores count pResponse) :
    (w.1 : Int) < count := by
  obtain ⟨c, rfl⟩ := Int.eq_ofNat_of_zero_le h0
  exact_mod_cast subframes_index_lt pResponse _ _ _ c _ w hw

/-- C25: with both counts within capacity (`0 ≤ cells ≤ 16`, `0 ≤ sensors ≤ 4`)
each decoder changes its own fields only: 0x90 `voltage`, `current`,
`stateOfCharge`; 0x93 the three status fields and `remainingCapacity`; 0x94 the
two counts; 0x95 `cellVoltage`, by stores below index 16; 0x96 `temperatures`,
by stores below index 4; 0x97 `cellBalancingStatus` below index 16 and
`balancingStatus`; 0x98 `alarms` below index 8; and none of the nine decoders
changes `lineNumber`, `dateTime`, `batteryID` or `totalCapacity`. -/
theorem decoders_touch_own_fields (s : State) (pResponse : Buffer)
    (hcells : 0 ≤ s.g_number_of_battery_cells ∧ s.g_number_of_battery_cells ≤ 16)
    (hsensors : 0 ≤ s.g_number_of_temp_sensors ∧ s.g_number_of_temp_sensors ≤ 4) :
    parseBmsResponseSoc s pResponse
      = { s with bmsData :=
            { s.bmsData with
              voltage := (parseBmsResponseSoc s pResponse).bmsData.voltage,
              current := (parseBmsResponseSoc s pResponse).bmsData.current,
              stateOfCharge := (parseBmsResponseSoc s pResponse).bmsData.stateOfCharge } } ∧
    parseBmsResponseChargeDischargeMosStatus s pResponse
      = { s with bmsData :=
            { s.bmsData with
              chargingDischargingStatus :=
                (parseBmsResponseChargeDischargeMosStatus s pResponse).bmsData.chargingDischargingStatus,
              chargingMOSStatus :=
                (parseBmsResponseChargeDischargeMosStatus s pResponse).bmsData.chargingMOSStatus,
              dischargingMOSStatus :=
                (parseBmsResponseChargeDischargeMosStatus s pResponse).bmsData.dischargingMOSStatus,
              remainingCapacity :=
                (parseBmsResponseChargeDischargeMosStatus s pResponse).bmsData.remainingCapacity } } ∧
    parseBmsResponseStatusInfo1 s pResponse
      = { s with
          g_number_of_battery_cells :=
            (parseBmsResponseStatusInfo1 s pResponse).g_number_of_battery_cells,
          g_number_of_temp_sensors :=
            (parseBmsResponseStatusInfo1 s pResponse).g_number_of_temp_sensors } ∧
    (parseBmsResponseSingleCellVoltage s pResponse
        = { s with bmsData :=
              { s.bmsData with
                cellVoltage := (parseBmsResponseSingleCellVoltage s pResponse).bmsData.cellVoltage } } ∧
      (∀ w, w ∈ singleCellVoltageStores s.g_number_of_battery_cells pResponse →
        w.1 < G_MAX_NUMBER_OF_CELLS)) ∧
    (parseBmsResponseSingleCellTemp s pResponse
        = { s with bmsData :=
              { s.bmsData with
                temperatures := (parseBmsResponseSingleCellTemp s pResponse).bmsData.temperatures } } ∧
      (∀ w, w ∈ singleCellTempStores s.g_number_of_temp_sensors pResponse →
        w.1 < G_MAX_NUMBER_OF_TEMP_SENSORS)) ∧
    (parseBmsResponseSingleCellBalancingStatus s pResponse
        = { s with bmsData :=
              { s.bmsData with
                cellBalancingStatus :=
                  (parseBmsResponseSingleCellBalancingStatus s pResponse).bmsData.cellBalancingStatus,
                balancingStatus :=
                  (parseBmsResponseSingleCellBalancingStatus s pResponse).bmsData.balancingStatus } } ∧
      (∀ k, G_MAX_NUMBER_OF_CELLS ≤ k →
        (parseBmsResponseSingleCellBalancingStatus s pResponse).bmsData.cellBalancingStatus k
          = s.bmsData.cellBalancingStatus k)) ∧
    (parseBmsResponseBatteryFailureStatus s pResponse
        = { s with bmsData :=
              { s.bmsData with
                alarms := (parseBmsResponseBatteryFailureStatus s pResponse).bmsData.alarms } } ∧
      (∀ k, 8 ≤ k →
        (parseBmsResponseBatteryFailureStatus s pResponse).bmsData.alarms k
          = s.bmsData.alarms k)) ∧
    sameRowIdentity (parseBmsResponseSoc s pResponse).bmsData s.bmsData ∧
    sameRowIdentity (parseBmsResponseHighestLowestVoltage s pResponse).bmsData s.bmsData ∧
    sameRowIdentity (parseBmsResponseMaxMinTemp s pResponse).bmsData s.bmsData ∧
    sameRowIdentity (parseBmsResponseChargeDischargeMosStatus s pResponse).bmsData s.bmsData ∧
    sameRowIdentity (parseBmsResponseStatusInfo1 s pResponse).bmsData s.bmsData ∧
    sameRowIdentity (parseBmsResponseSingleCellVoltage s pResponse).bmsData s.bmsData ∧
    sameRowIdentity (parseBmsResponseSingleCellTemp s pResponse).bmsData s.bmsData ∧
    sameRowIdentity (parseBmsResponseSingleCellBalancingStatus s pResponse).bmsData s.bmsData ∧
    sameRowIdentity (parseBmsResponseBatteryFailureStatus s pResponse).bmsData s.bmsData := by
  refine ⟨rfl, rfl, rfl, ⟨rfl, ?_⟩, ⟨rfl, ?_⟩, ⟨rfl, ?_⟩, ⟨rfl, ?_⟩,
    ⟨rfl, rfl, rfl, rfl⟩, ⟨rfl, rfl, rfl, rfl⟩, ⟨rfl, rfl, rfl, rfl⟩, ⟨rfl, rfl, rfl, rfl⟩,
    ⟨rfl, rfl, rfl, rfl⟩, ⟨rfl, rfl, rfl, rfl⟩, ⟨rfl, rfl, rfl, rfl⟩, ⟨rfl, rfl, rfl, rfl⟩,
    ⟨rfl, rfl, rfl, rfl⟩⟩
  · intro w hw
    have h := singleCellVoltageStores_index_lt _ pResponse hcells.1 w hw
    have h16 := hcells.2
    simp only [G_MAX_NUMBER_OF_CELLS]
    omega
  · intro w hw
    have h := singleCellTempStores_index_lt _ pResponse hsensors.1 w hw
    have h4 := hsensors.2
    simp only [G_MAX_NUMBER_OF_TEMP_SENSORS]
    omega
  · intro k hk
    obtain ⟨_, _, h3⟩ := balancingLoop_eq pResponse s.g_number_of_battery_cells.toNat 0
      s.bmsData.cellBalancingStatus (by decide)
    have hlt : ¬ k < s.g_number_of_battery_cells.toNat := by
      have h16 := hcells.2
      simp only [G_MAX_NUMBER_OF_CELLS] at hk
      omega
    simp only [parseBmsResponseSingleCellBalancingStatus, h3, hlt, if_false]
  · intro k hk
    have hlt : ¬ k < 8 := by omega
    simp only [parseBmsResponseBatteryFailureStatus, hlt, if_false]

/-- C25 on five cells, two sensors and a two-subframe cell-voltage response: the
0x95 decoder leaves the temperatures, the extreme voltages and the counts as
they were and stores at the indices 0..4 only. -/
theorem decoders_touch_own_fields_witness :
    ((0 ≤ (stateWithCounts 5 2).g_number_of_battery_cells ∧
        (stateWithCounts 5 2).g_number_of_battery_cells ≤ 16) ∧
      (0 ≤ (stateWithCounts 5 2).g_number_of_temp_sensors ∧
        (stateWithCounts 5 2).g_number_of_temp_sensors ≤ 4)) ∧
    parseBmsResponseSingleCellVoltage (stateWithCounts 5 2) voltageResponseInOrder
      = { stateWithCounts 5 2 with bmsData :=
            { (stateWithCounts 5 2).bmsData with
              cellVoltage :=
                (parseBmsResponseSingleCellVoltage (stateWithCounts 5 2)
                  voltageResponseInOrder).bmsData.cellVoltage } } ∧
    (singleCellVoltageStores (stateWithCounts 5 2).g_number_of_battery_cells
        voltageResponseInOrder).map Prod.fst = [0, 1, 2, 3, 4] :=
  ⟨by decide,
   (decoders_touch_own_fields (stateWithCounts 5 2) voltageResponseInOrder (by decide)
      (by decide)).2.2.2.1.1,
   by decide⟩


end EPDataLog
